import Mathlib

/-!
DS3231 real-time-clock driver (DS3231.c): register codec and bus recovery.

A shallow embedding of the driver functions of `DS3231.c`.

* `uint8_t` values are natural numbers; every expression the C code converts to
  `uint8_t` (a register byte handed to the transport, a decoded field stored through an
  output pointer) carries an explicit `% 256`.
* The two-wire transport (`I2C_Write_To_Slave`, `I2C_Read_From_Slave`, declared in `TWI.h`)
  is not part of the driver: it is a parameter, a pair of functions over an arbitrary
  device state.  Their `uint8_t` status is the first component of the result.
* The traffic a driver call causes is recorded in a chronological log carried next to the
  device state, so that "no write is issued" and "the writes are exactly ..." are
  statements about that log.
* An output pointer is an `Option Nat`: `none` is the null pointer, `some v` a variable
  currently holding `v`; a function taking pointers returns the variables after the call.
* The pin, watchdog and timer libraries used by `DS3231_PutInKnownI2CState` are not part of
  the driver either: their calls are recorded in a log, the values read from the data line
  and from the watchdog flag are two input sequences, and the `while` loop carries a bound
  on the number of evaluations of its condition.
-/

namespace DS3231

/-! ## Transport and traffic log -/

/-- One transaction on the two-wire bus: device address, register address and, for a
write, the byte sent. -/
inductive BusOp where
  | write (dev reg val : Nat)
  | read (dev reg : Nat)
  deriving DecidableEq, Repr

/-- The transport collaborator of `TWI.h`, over a device state `σ`.
`I2C_Write_To_Slave st dev reg val` gives the status code and the next state;
`I2C_Read_From_Slave st dev reg` gives the status code, the byte left in the caller's
buffer, and the next state.  Status `0` is success. -/
structure Transport (σ : Type) where
  I2C_Write_To_Slave : σ → Nat → Nat → Nat → Nat × σ
  I2C_Read_From_Slave : σ → Nat → Nat → Nat × Nat × σ

/-- The bus as the driver sees it: the device state and the transactions issued so far,
oldest first. -/
structure Bus (σ : Type) where
  st : σ
  log : List BusOp

/-! ## Constants of `DS3231.h` and `DS3231.c` -/

def DS3231_I2C_ADDRESS : Nat := 0b11010000

def SECONDS_ADDRESS : Nat := 0x00
def MINUTES_ADDRESS : Nat := 0x01
def HOURS_ADDRESS : Nat := 0x02
def DAY_ADDRESS : Nat := 0x03
def DATE_ADDRESS : Nat := 0x04
def MONTH_ADDRESS : Nat := 0x05
def YEAR_ADDRESS : Nat := 0x06

def ALARM1_SEC_ADDRESS : Nat := 0x07
def ALARM1_MIN_ADDRESS : Nat := 0x08
def ALARM1_HOUR_ADDRESS : Nat := 0x09
def ALARM1_DYDT_ADDRESS : Nat := 0x0A

def ALARM2_MIN_ADDRESS : Nat := 0x0B
def ALARM2_HOUR_ADDRESS : Nat := 0x0C
def ALARM2_DYDT_ADDRESS : Nat := 0x0D

def CTRL_ADDRESS : Nat := 0x0E
def STATUS_ADDRESS : Nat := 0x0F

/-! ## Logged transport calls -/

/-- The call `I2C_Write_To_Slave(DS3231_I2C_ADDRESS, reg, val)`: status code and the bus
afterwards, with the write appended to the log. -/
def writeReg {σ : Type} (t : Transport σ) (b : Bus σ) (reg val : Nat) : Nat × Bus σ :=
  let r := t.I2C_Write_To_Slave b.st DS3231_I2C_ADDRESS reg val
  (r.1, Bus.mk r.2 (b.log ++ [BusOp.write DS3231_I2C_ADDRESS reg val]))

/-- The call `I2C_Read_From_Slave(DS3231_I2C_ADDRESS, reg, &buf)`: status code, content of
`buf` afterwards, and the bus afterwards, with the read appended to the log. -/
def readReg {σ : Type} (t : Transport σ) (b : Bus σ) (reg : Nat) : Nat × Nat × Bus σ :=
  let r := t.I2C_Read_From_Slave b.st DS3231_I2C_ADDRESS reg
  (r.1, r.2.1, Bus.mk r.2.2 (b.log ++ [BusOp.read DS3231_I2C_ADDRESS reg]))

/-! ## The packed-BCD expressions -/

/-- The byte `((v%10) | ((v/10)<<4))` as it reaches the transport's `uint8_t` data
argument (lines 117, 123, 129, 220, 226, 232, 342, 357, 372, 395, ...). -/
def encodeBcd (v : Nat) : Nat :=
  ((v % 10) ||| ((v / 10) <<< 4)) % 256

/-- The value `(buf&0x0F) + (((buf&mask)>>4)*10)` as stored into a `uint8_t` variable;
`mask` is the tens mask of the field: `0x70` seconds and minutes, `0x30` hours and day of
month, `0x10` month, `0xF0` year (lines 162, 176, 190, 265, 279, 293). -/
def decodeBcd (mask buf : Nat) : Nat :=
  ((buf &&& 0x0F) + ((buf &&& mask) >>> 4) * 10) % 256

/-! ## Time and date -/

/-- `DS3231_SetTime` (lines 111-134): status code and bus afterwards. -/
def DS3231_SetTime {σ : Type} (t : Transport σ) (b : Bus σ) (seconds minutes hours : Nat) :
    Nat × Bus σ :=
  if seconds > 59 then (2, b)
  else
    let r1 := writeReg t b SECONDS_ADDRESS (encodeBcd seconds)
    if r1.1 ≠ 0 then (r1.1, r1.2)
    else if minutes > 59 then (3, r1.2)
    else
      let r2 := writeReg t r1.2 MINUTES_ADDRESS (encodeBcd minutes)
      if r2.1 ≠ 0 then (r2.1, r2.2)
      else if hours > 23 then (4, r2.2)
      else
        let r3 := writeReg t r2.2 HOURS_ADDRESS (encodeBcd hours)
        if r3.1 ≠ 0 then (r3.1, r3.2)
        else (0, r3.2)

/-- The result of a read call with three output pointers: status code, the three output
variables after the call, and the bus afterwards. -/
structure ReadOut (σ : Type) where
  ret : Nat
  out1 : Option Nat
  out2 : Option Nat
  out3 : Option Nat
  bus : Bus σ

/-- Third block of `DS3231_ReadTime` (lines 183-196): the hours pointer. -/
def ReadTime_hours {σ : Type} (t : Transport σ) (b : Bus σ) (seconds minutes hours : Option Nat) :
    ReadOut σ :=
  if hours.isSome then
    let r := readReg t b HOURS_ADDRESS
    if r.1 ≠ 0 then ReadOut.mk r.1 seconds minutes hours r.2.2
    else ReadOut.mk 0 seconds minutes (some (decodeBcd 0x30 r.2.1)) r.2.2
  else ReadOut.mk 0 seconds minutes hours b

/-- Second block of `DS3231_ReadTime` (lines 169-181), then the third. -/
def ReadTime_minutes {σ : Type} (t : Transport σ) (b : Bus σ)
    (seconds minutes hours : Option Nat) : ReadOut σ :=
  if minutes.isSome then
    let r := readReg t b MINUTES_ADDRESS
    if r.1 ≠ 0 then ReadOut.mk r.1 seconds minutes hours r.2.2
    else ReadTime_hours t r.2.2 seconds (some (decodeBcd 0x70 r.2.1)) hours
  else ReadTime_hours t b seconds minutes hours

/-- `DS3231_ReadTime` (lines 150-198): first block (lines 155-167), then the rest. -/
def DS3231_ReadTime {σ : Type} (t : Transport σ) (b : Bus σ)
    (seconds minutes hours : Option Nat) : ReadOut σ :=
  if seconds.isSome then
    let r := readReg t b SECONDS_ADDRESS
    if r.1 ≠ 0 then ReadOut.mk r.1 seconds minutes hours r.2.2
    else ReadTime_minutes t r.2.2 (some (decodeBcd 0x70 r.2.1)) minutes hours
  else ReadTime_minutes t b seconds minutes hours

/-- `DS3231_SetDate` (lines 214-237): status code and bus afterwards. -/
def DS3231_SetDate {σ : Type} (t : Transport σ) (b : Bus σ) (day_of_month month year : Nat) :
    Nat × Bus σ :=
  if day_of_month > 31 then (2, b)
  else
    let r1 := writeReg t b DATE_ADDRESS (encodeBcd day_of_month)
    if r1.1 ≠ 0 then (r1.1, r1.2)
    else if month > 12 then (3, r1.2)
    else
      let r2 := writeReg t r1.2 MONTH_ADDRESS (encodeBcd month)
      if r2.1 ≠ 0 then (r2.1, r2.2)
      else if year > 99 then (4, r2.2)
      else
        let r3 := writeReg t r2.2 YEAR_ADDRESS (encodeBcd year)
        if r3.1 ≠ 0 then (r3.1, r3.2)
        else (0, r3.2)

/-- Third block of `DS3231_ReadDate` (lines 286-300): the year pointer. -/
def ReadDate_year {σ : Type} (t : Transport σ) (b : Bus σ)
    (day_of_month month year : Option Nat) : ReadOut σ :=
  if year.isSome then
    let r := readReg t b YEAR_ADDRESS
    if r.1 ≠ 0 then ReadOut.mk r.1 day_of_month month year r.2.2
    else ReadOut.mk 0 day_of_month month (some (decodeBcd 0xF0 r.2.1)) r.2.2
  else ReadOut.mk 0 day_of_month month year b

/-- Second block of `DS3231_ReadDate` (lines 272-284), then the third. -/
def ReadDate_month {σ : Type} (t : Transport σ) (b : Bus σ)
    (day_of_month month year : Option Nat) : ReadOut σ :=
  if month.isSome then
    let r := readReg t b MONTH_ADDRESS
    if r.1 ≠ 0 then ReadOut.mk r.1 day_of_month month year r.2.2
    else ReadDate_year t r.2.2 day_of_month (some (decodeBcd 0x10 r.2.1)) year
  else ReadDate_year t b day_of_month month year

/-- `DS3231_ReadDate` (lines 253-302): first block (lines 258-270), then the rest. -/
def DS3231_ReadDate {σ : Type} (t : Transport σ) (b : Bus σ)
    (day_of_month month year : Option Nat) : ReadOut σ :=
  if day_of_month.isSome then
    let r := readReg t b DATE_ADDRESS
    if r.1 ≠ 0 then ReadOut.mk r.1 day_of_month month year r.2.2
    else ReadDate_month t r.2.2 (some (decodeBcd 0x30 r.2.1)) month year
  else ReadDate_month t b day_of_month month year

/-! ## Alarms -/

/-- Day/date block of `DS3231_SetAlarm1` (lines 385-408). -/
def SetAlarm1_dydt {σ : Type} (t : Transport σ) (b : Bus σ) (day day_of_month : Nat) :
    Nat × Bus σ :=
  if day ≤ 7 ∧ day_of_month ≤ 31 then (5, b)
  else if day ≤ 7 ∧ day_of_month = 255 then
    let r := writeReg t b ALARM1_DYDT_ADDRESS ((day ||| 0x40) % 256)
    if r.1 ≠ 0 then (r.1, r.2) else (0, r.2)
  else if day = 255 ∧ day_of_month ≤ 31 then
    let r := writeReg t b ALARM1_DYDT_ADDRESS (encodeBcd day_of_month)
    if r.1 ≠ 0 then (r.1, r.2) else (0, r.2)
  else if day = 255 ∧ day_of_month = 255 then
    let r := writeReg t b ALARM1_DYDT_ADDRESS 0x80
    if r.1 ≠ 0 then (r.1, r.2) else (0, r.2)
  else (6, b)

/-- Hours block of `DS3231_SetAlarm1` (lines 370-383), then the day/date block. -/
def SetAlarm1_hours {σ : Type} (t : Transport σ) (b : Bus σ) (hours day day_of_month : Nat) :
    Nat × Bus σ :=
  if hours < 24 then
    let r := writeReg t b ALARM1_HOUR_ADDRESS (encodeBcd hours)
    if r.1 ≠ 0 then (r.1, r.2) else SetAlarm1_dydt t r.2 day day_of_month
  else if hours = 255 then
    let r := writeReg t b ALARM1_HOUR_ADDRESS 0x80
    if r.1 ≠ 0 then (r.1, r.2) else SetAlarm1_dydt t r.2 day day_of_month
  else (4, b)

/-- Minutes block of `DS3231_SetAlarm1` (lines 355-368), then the later blocks. -/
def SetAlarm1_minutes {σ : Type} (t : Transport σ) (b : Bus σ)
    (minutes hours day day_of_month : Nat) : Nat × Bus σ :=
  if minutes < 60 then
    let r := writeReg t b ALARM1_MIN_ADDRESS (encodeBcd minutes)
    if r.1 ≠ 0 then (r.1, r.2) else SetAlarm1_hours t r.2 hours day day_of_month
  else if minutes = 255 then
    let r := writeReg t b ALARM1_MIN_ADDRESS 0x80
    if r.1 ≠ 0 then (r.1, r.2) else SetAlarm1_hours t r.2 hours day day_of_month
  else (3, b)

/-- `DS3231_SetAlarm1` (lines 337-409): seconds block (lines 340-353), then the later
blocks. -/
def DS3231_SetAlarm1 {σ : Type} (t : Transport σ) (b : Bus σ)
    (seconds minutes hours day day_of_month : Nat) : Nat × Bus σ :=
  if seconds < 60 then
    let r := writeReg t b ALARM1_SEC_ADDRESS (encodeBcd seconds)
    if r.1 ≠ 0 then (r.1, r.2) else SetAlarm1_minutes t r.2 minutes hours day day_of_month
  else if seconds = 255 then
    let r := writeReg t b ALARM1_SEC_ADDRESS 0x80
    if r.1 ≠ 0 then (r.1, r.2) else SetAlarm1_minutes t r.2 minutes hours day day_of_month
  else (2, b)

/-- Day/date block of `DS3231_SetAlarm2` (lines 536-559). -/
def SetAlarm2_dydt {σ : Type} (t : Transport σ) (b : Bus σ) (day day_of_month : Nat) :
    Nat × Bus σ :=
  if day ≤ 7 ∧ day_of_month ≤ 31 then (5, b)
  else if day ≤ 7 ∧ day_of_month = 255 then
    let r := writeReg t b ALARM2_DYDT_ADDRESS ((day ||| 0x40) % 256)
    if r.1 ≠ 0 then (r.1, r.2) else (0, r.2)
  else if day = 255 ∧ day_of_month ≤ 31 then
    let r := writeReg t b ALARM2_DYDT_ADDRESS (encodeBcd day_of_month)
    if r.1 ≠ 0 then (r.1, r.2) else (0, r.2)
  else if day = 255 ∧ day_of_month = 255 then
    let r := writeReg t b ALARM2_DYDT_ADDRESS 0x80
    if r.1 ≠ 0 then (r.1, r.2) else (0, r.2)
  else (6, b)

/-- Hours block of `DS3231_SetAlarm2` (lines 521-534), then the day/date block. -/
def SetAlarm2_hours {σ : Type} (t : Transport σ) (b : Bus σ) (hours day day_of_month : Nat) :
    Nat × Bus σ :=
  if hours < 24 then
    let r := writeReg t b ALARM2_HOUR_ADDRESS (encodeBcd hours)
    if r.1 ≠ 0 then (r.1, r.2) else SetAlarm2_dydt t r.2 day day_of_month
  else if hours = 255 then
    let r := writeReg t b ALARM2_HOUR_ADDRESS 0x80
    if r.1 ≠ 0 then (r.1, r.2) else SetAlarm2_dydt t r.2 day day_of_month
  else (4, b)

/-- `DS3231_SetAlarm2` (lines 503-560): minutes block (lines 506-519), then the later
blocks. -/
def DS3231_SetAlarm2 {σ : Type} (t : Transport σ) (b : Bus σ)
    (minutes hours day day_of_month : Nat) : Nat × Bus σ :=
  if minutes < 60 then
    let r := writeReg t b ALARM2_MIN_ADDRESS (encodeBcd minutes)
    if r.1 ≠ 0 then (r.1, r.2) else SetAlarm2_hours t r.2 hours day day_of_month
  else if minutes = 255 then
    let r := writeReg t b ALARM2_MIN_ADDRESS 0x80
    if r.1 ≠ 0 then (r.1, r.2) else SetAlarm2_hours t r.2 hours day day_of_month
  else (3, b)

/-! ## Alarm flags in the status register -/

/-- `DS3231_ReadAlarm1Flag` (lines 411-424). -/
def DS3231_ReadAlarm1Flag {σ : Type} (t : Transport σ) (b : Bus σ) : Nat × Bus σ :=
  let r := readReg t b STATUS_ADDRESS
  if r.1 = 1 then (2, r.2.2)
  else if r.1 ≠ 0 then (r.1, r.2.2)
  else if r.2.1 &&& 0x01 = 0x01 then (1, r.2.2)
  else (0, r.2.2)

/-- `DS3231_ClearAlarm1Flag` (lines 426-440). -/
def DS3231_ClearAlarm1Flag {σ : Type} (t : Transport σ) (b : Bus σ) : Nat × Bus σ :=
  let r := readReg t b STATUS_ADDRESS
  if r.1 ≠ 0 then (r.1, r.2.2)
  else
    let buf := (r.2.1 &&& 0b11111110) % 256
    let w := writeReg t r.2.2 STATUS_ADDRESS buf
    if w.1 ≠ 0 then (w.1, w.2) else (0, w.2)

/-- `DS3231_ReadAlarm2Flag` (lines 442-455). -/
def DS3231_ReadAlarm2Flag {σ : Type} (t : Transport σ) (b : Bus σ) : Nat × Bus σ :=
  let r := readReg t b STATUS_ADDRESS
  if r.1 = 1 then (2, r.2.2)
  else if r.1 ≠ 0 then (r.1, r.2.2)
  else if r.2.1 &&& 0x02 = 0x02 then (1, r.2.2)
  else (0, r.2.2)

/-- `DS3231_ClearAlarm2Flag` (lines 457-471). -/
def DS3231_ClearAlarm2Flag {σ : Type} (t : Transport σ) (b : Bus σ) : Nat × Bus σ :=
  let r := readReg t b STATUS_ADDRESS
  if r.1 ≠ 0 then (r.1, r.2.2)
  else
    let buf := (r.2.1 &&& 0b11111101) % 256
    let w := writeReg t r.2.2 STATUS_ADDRESS buf
    if w.1 ≠ 0 then (w.1, w.2) else (0, w.2)

/-! ## Properties of a transport, and two transports to evaluate the driver on -/

/-- Every write reports success. -/
def WritesSucceed {σ : Type} (t : Transport σ) : Prop :=
  ∀ st dev reg val, (t.I2C_Write_To_Slave st dev reg val).1 = 0

/-- Every read reports success. -/
def ReadsSucceed {σ : Type} (t : Transport σ) : Prop :=
  ∀ st dev reg, (t.I2C_Read_From_Slave st dev reg).1 = 0

/-- The device behaves as a register file seen through `mem`: a write stores the byte in
the addressed register and changes no other, a read returns the stored byte and changes
no register. -/
def ReadsLastWritten {σ : Type} (t : Transport σ) (mem : σ → Nat → Nat) : Prop :=
  (∀ st dev reg val q,
      mem (t.I2C_Write_To_Slave st dev reg val).2 q = if q = reg then val else mem st q) ∧
  (∀ st dev reg,
      (t.I2C_Read_From_Slave st dev reg).2.1 = mem st reg ∧
      mem (t.I2C_Read_From_Slave st dev reg).2.2 = mem st)

/-- A transport that never fails, over a plain register file. -/
def regFile : Transport (Nat → Nat) where
  I2C_Write_To_Slave st _ reg val := (0, fun q => if q = reg then val else st q)
  I2C_Read_From_Slave st _ reg := (0, st reg, st)

/-- A bus over the register file with every register `0` and no traffic so far. -/
def idleBus : Bus (Nat → Nat) := Bus.mk (fun _ => 0) []

/-- A transport over a register file and a countdown: the call made when the countdown is
`0` fails with code `c` and has no effect, every other call succeeds. -/
def failAt (c : Nat) : Transport (Nat × (Nat → Nat)) where
  I2C_Write_To_Slave st _ reg val :=
    if st.1 = 0 then (c, (0, st.2)) else (0, (st.1 - 1, fun q => if q = reg then val else st.2 q))
  I2C_Read_From_Slave st _ reg :=
    if st.1 = 0 then (c, 0, (0, st.2)) else (0, st.2 reg, (st.1 - 1, st.2))

/-- The writes of the list `ws` of (register, byte) pairs as log entries. -/
def writesOf (ws : List (Nat × Nat)) : List BusOp :=
  ws.map fun rv => BusOp.write DS3231_I2C_ADDRESS rv.1 rv.2

/-- The device state after the writes `ws` have all been performed, in order. -/
def stateAfter {σ : Type} (t : Transport σ) (st : σ) : List (Nat × Nat) → σ
  | [] => st
  | rv :: ws => stateAfter t (t.I2C_Write_To_Slave st DS3231_I2C_ADDRESS rv.1 rv.2).2 ws

/-- Status code of the write `rv` (register, byte) issued in device state `st`. -/
def writeCode {σ : Type} (t : Transport σ) (st : σ) (rv : Nat × Nat) : Nat :=
  (t.I2C_Write_To_Slave st DS3231_I2C_ADDRESS rv.1 rv.2).1

/-- Each of the writes `ws`, issued in order from device state `st`, returns `0`. -/
def allSucceed {σ : Type} (t : Transport σ) (st : σ) : List (Nat × Nat) → Prop
  | [] => True
  | rv :: ws =>
    writeCode t st rv = 0 ∧
      allSucceed t (t.I2C_Write_To_Slave st DS3231_I2C_ADDRESS rv.1 rv.2).2 ws

/-- The write ordering rule as the specification words it: the writes are issued in the
given order, each only if the previous one succeeded; the first failure ends the sequence
and its code is the result, and the result is `0` when every write succeeded. -/
def writeInOrder {σ : Type} (t : Transport σ) (b : Bus σ) : List (Nat × Nat) → Nat × Bus σ
  | [] => (0, b)
  | rv :: ws =>
    if (writeReg t b rv.1 rv.2).1 ≠ 0 then writeReg t b rv.1 rv.2
    else writeInOrder t (writeReg t b rv.1 rv.2).2 ws

/-- The match byte of an alarm time field as the specification words it: the mask marker
`0x80` (only bit 7 set) for the wildcard 255, the BCD encoding of the value otherwise. -/
def matchByte (v : Nat) : Nat :=
  if v = 255 then 0x80 else encodeBcd v

/-- The day/date slot as the specification words it: the day of week with the
discriminator bit 6 set, or the BCD day of month with the discriminator clear, or the
mask marker `0x80` when neither is given. -/
def dayDateByte (day day_of_month : Nat) : Nat :=
  if day = 255 then (if day_of_month = 255 then 0x80 else encodeBcd day_of_month)
  else day ||| 0x40

/-- The traffic `ext` consists only of writes to the driver's device address, each to one
of the registers `regs`. -/
def OnlyWritesTo (regs : List Nat) (ext : List BusOp) : Prop :=
  ∀ op ∈ ext, ∃ reg val, reg ∈ regs ∧ op = BusOp.write DS3231_I2C_ADDRESS reg val

/-! ## Sequences of reads, and the writes a setter attempts -/

/-- The reads of the registers `regs` as log entries. -/
def readsOf (regs : List Nat) : List BusOp :=
  regs.map fun reg => BusOp.read DS3231_I2C_ADDRESS reg

/-- Status code of the read of register `reg` issued in device state `st`. -/
def readCode {σ : Type} (t : Transport σ) (st : σ) (reg : Nat) : Nat :=
  (t.I2C_Read_From_Slave st DS3231_I2C_ADDRESS reg).1

/-- The device state after the reads of `regs` have all been performed, in order. -/
def stateAfterReads {σ : Type} (t : Transport σ) (st : σ) : List Nat → σ
  | [] => st
  | reg :: regs =>
    stateAfterReads t (t.I2C_Read_From_Slave st DS3231_I2C_ADDRESS reg).2.2 regs

/-- Each of the reads of `regs`, issued in order from device state `st`, returns `0`. -/
def allReadsSucceed {σ : Type} (t : Transport σ) (st : σ) : List Nat → Prop
  | [] => True
  | reg :: regs =>
    readCode t st reg = 0 ∧
      allReadsSucceed t (t.I2C_Read_From_Slave st DS3231_I2C_ADDRESS reg).2.2 regs

/-- The read ordering rule as the specification words it: the registers are read in the
given order, and the first failing read ends the sequence with its code as the result;
the result is `0` when every read succeeded. -/
def readInOrder {σ : Type} (t : Transport σ) (b : Bus σ) : List Nat → Nat × Bus σ
  | [] => (0, b)
  | reg :: regs =>
    if (readReg t b reg).1 ≠ 0 then ((readReg t b reg).1, (readReg t b reg).2.2)
    else readInOrder t (readReg t b reg).2.2 regs

/-- The register of a field is requested when its output pointer is not null. -/
def requested (p : Option Nat) (reg : Nat) : List Nat :=
  if p.isSome then [reg] else []

/-- The writes a setter attempts, from its fields given as (register, bound, value): the
BCD writes of the fields that come before the first field above its bound. -/
def checkedWrites : List (Nat × Nat × Nat) → List (Nat × Nat)
  | [] => []
  | f :: fs => if f.2.2 > f.2.1 then [] else (f.1, encodeBcd f.2.2) :: checkedWrites fs

/-! ## The control register -/

/-- The `struct DS3231_Init_Struct` of `DS3231.h`: six `uint8_t` fields. -/
structure DS3231_Init_Struct where
  EnableOscillator : Nat
  SquareWaveOrInterrupt : Nat
  BatteryBackedSquareWave : Nat
  SquareWaveFreq : Nat
  Alarm1InterruptEnable : Nat
  Alarm2InterruptEnable : Nat

def DISABLE_OSC : Nat := 0b10000000
def ENABLE_OSC : Nat := 0

def SQUAREWAVE_FUNC : Nat := 0
def INTERRUPT_FUNC : Nat := 0b00000100

def BBSW_DISABLE : Nat := 0
def BBSW_ENABLE : Nat := 0b01000000

def SWFREQ_1HZ : Nat := 0
def SWFREQ_1024HZ : Nat := 0b00001000
def SWFREQ_4096HZ : Nat := 0b00010000
def SWFREQ_8192HZ : Nat := 0b00011000

def ALARM1_INT_DISABLE : Nat := 0
def ALARM1_INT_ENABLE : Nat := 0b00000001

def ALARM2_INT_DISABLE : Nat := 0
def ALARM2_INT_ENABLE : Nat := 0b00000010

/-- The byte `ctrl_dat` of `DS3231_Init` (line 83): the bitwise OR of the six fields, as a
`uint8_t`. -/
def ctrl_dat (pStruct : DS3231_Init_Struct) : Nat :=
  (pStruct.EnableOscillator ||| pStruct.SquareWaveOrInterrupt |||
    pStruct.BatteryBackedSquareWave ||| pStruct.SquareWaveFreq |||
    pStruct.Alarm1InterruptEnable ||| pStruct.Alarm2InterruptEnable) % 256

/-- The result of `DS3231_Init`: status code, bus afterwards, and the byte formatted into
the text handed to `USART_PrintString` when the function gets that far. -/
structure InitOut (σ : Type) where
  ret : Nat
  bus : Bus σ
  printed : Option Nat

/-- `DS3231_Init` (lines 80-95).  `I2C_Init` stands for the call
`I2C_Init(SYSCLOCKFREQ, I2C_NORMAL_SPEED_MODE, I2C_PULLUP_EN)` of the transport library,
which issues no transaction; the status of the read back of the control register is
ignored, as in the source. -/
def DS3231_Init {σ : Type} (t : Transport σ) (I2C_Init : σ → σ) (b : Bus σ)
    (pStruct : DS3231_Init_Struct) : InitOut σ :=
  let b0 := Bus.mk (I2C_Init b.st) b.log
  let w := writeReg t b0 CTRL_ADDRESS (ctrl_dat pStruct)
  if w.1 ≠ 0 then InitOut.mk w.1 w.2 none
  else
    let r := readReg t w.2 CTRL_ADDRESS
    InitOut.mk 0 r.2.2 (some r.2.1)

/-- Every field of the structure holds one of the constants `DS3231.h` documents for it. -/
def Documented (p : DS3231_Init_Struct) : Prop :=
  p.EnableOscillator ∈ [DISABLE_OSC, ENABLE_OSC] ∧
  p.SquareWaveOrInterrupt ∈ [SQUAREWAVE_FUNC, INTERRUPT_FUNC] ∧
  p.BatteryBackedSquareWave ∈ [BBSW_DISABLE, BBSW_ENABLE] ∧
  p.SquareWaveFreq ∈ [SWFREQ_1HZ, SWFREQ_1024HZ, SWFREQ_4096HZ, SWFREQ_8192HZ] ∧
  p.Alarm1InterruptEnable ∈ [ALARM1_INT_DISABLE, ALARM1_INT_ENABLE] ∧
  p.Alarm2InterruptEnable ∈ [ALARM2_INT_DISABLE, ALARM2_INT_ENABLE]

/-! ## Bus recovery: pins, watchdog and delay -/

/-- The two pin directions of `GPIO_PinMode`. -/
inductive PinMode where
  | GPIO_INPUT
  | GPIO_OUTPUT
  deriving DecidableEq, Repr

/-- The two pull-up settings of `GPIO_PinMode`. -/
inductive Pull where
  | GPIO_PULLUP
  | GPIO_NOPULLUP
  deriving DecidableEq, Repr

/-- One call into the pin, watchdog and timer libraries (`Gpio.h`, `WDT.h`, `Timer.h`);
every pin call is on port `GPIOC` and names the pin number.  A call that returns a value
records the value returned. -/
inductive HwOp where
  | GPIO_PinMode (pin : Nat) (mode : PinMode) (pull : Pull)
  | GPIO_ReadPin (pin : Nat) (val : Nat)
  | GPIO_TogglePin (pin : Nat)
  | WDT_Init
  | WDT_Return_Flag (val : Nat)
  | WDT_Reset_Flag
  | WDT_Disable
  | Timer0_Delay_us (us : Nat)
  deriving DecidableEq, Repr

def GPIO_PIN_4 : Nat := 4
def GPIO_PIN_5 : Nat := 5

/-- The hardware as `DS3231_PutInKnownI2CState` sees it: `dataLine k` is the value the
k-th read of the data line (port C pin 4) returns and `wdtFlag k` the value the k-th call
of `WDT_Return_Flag` returns, counted from 0; `dataReads` and `flagReads` count the reads
made so far, and `log` holds the calls made so far, oldest first. -/
structure Hw where
  dataLine : Nat → Nat
  wdtFlag : Nat → Nat
  dataReads : Nat
  flagReads : Nat
  log : List HwOp

/-- A call that returns nothing: it is appended to the log. -/
def Hw.call (hw : Hw) (op : HwOp) : Hw :=
  Hw.mk hw.dataLine hw.wdtFlag hw.dataReads hw.flagReads (hw.log ++ [op])

/-- The call `GPIO_ReadPin(GPIOC, GPIO_PIN_4)`: the value read and the hardware
afterwards. -/
def Hw.readData (hw : Hw) : Nat × Hw :=
  (hw.dataLine hw.dataReads,
    Hw.mk hw.dataLine hw.wdtFlag (hw.dataReads + 1) hw.flagReads
      (hw.log ++ [HwOp.GPIO_ReadPin GPIO_PIN_4 (hw.dataLine hw.dataReads)]))

/-- The call `WDT_Return_Flag()`: the value returned and the hardware afterwards. -/
def Hw.readFlag (hw : Hw) : Nat × Hw :=
  (hw.wdtFlag hw.flagReads,
    Hw.mk hw.dataLine hw.wdtFlag hw.dataReads (hw.flagReads + 1)
      (hw.log ++ [HwOp.WDT_Return_Flag (hw.wdtFlag hw.flagReads)]))

/-- The `while` loop of `DS3231_PutInKnownI2CState` (lines 53-62) followed by lines 63-64,
with `fuel` bounding the number of evaluations of the loop condition: `none` when the fuel
runs out, otherwise the value returned and the hardware afterwards. -/
def recoveryLoop : Nat → Hw → Option (Nat × Hw)
  | 0, _ => none
  | fuel + 1, hw =>
    let r := hw.readData
    if r.1 = 0 then
      let f := r.2.readFlag
      if f.1 ≠ 0 then some (1, f.2.call HwOp.WDT_Reset_Flag)
      else
        recoveryLoop fuel
          ((f.2.call (HwOp.GPIO_TogglePin GPIO_PIN_5)).call (HwOp.Timer0_Delay_us 1000))
    else some (0, r.2.call HwOp.WDT_Disable)

/-- `DS3231_PutInKnownI2CState` (lines 44-66), with `fuel` bounding the number of
evaluations of the loop condition. -/
def DS3231_PutInKnownI2CState (fuel : Nat) (hw : Hw) : Option (Nat × Hw) :=
  let r := (hw.call (HwOp.GPIO_PinMode GPIO_PIN_4 PinMode.GPIO_INPUT Pull.GPIO_PULLUP)).readData
  if r.1 ≠ 0 then some (0, r.2)
  else
    recoveryLoop fuel
      ((r.2.call (HwOp.GPIO_PinMode GPIO_PIN_5 PinMode.GPIO_OUTPUT Pull.GPIO_NOPULLUP)).call
        HwOp.WDT_Init)

/-- The calls of one pass of the loop that finds the data line low and the watchdog flag
clear: the two reads, one toggle of the clock line, one delay. -/
def pulse : List HwOp :=
  [HwOp.GPIO_ReadPin GPIO_PIN_4 0, HwOp.WDT_Return_Flag 0, HwOp.GPIO_TogglePin GPIO_PIN_5,
    HwOp.Timer0_Delay_us 1000]

/-- The calls of `n` such passes in a row. -/
def pulses : Nat → List HwOp
  | 0 => []
  | n + 1 => pulse ++ pulses n

/-- The number of toggles of the clock line (port C pin 5) among the calls `ops`. -/
def toggleCount (ops : List HwOp) : Nat :=
  (ops.filter fun op => op = HwOp.GPIO_TogglePin GPIO_PIN_5).length

/-- The state of one line of the port. -/
structure Line where
  mode : PinMode
  pull : Pull
  level : Bool
  deriving DecidableEq, Repr

/-- Modelled from the spec: the pin library (`Gpio.h`) is not part of the sources.  On the
pin-state model in which each line has a mode and a level, `GPIO_PinMode` on the line sets
its mode and pull-up and keeps its level, `GPIO_TogglePin` on the line inverts its level,
and every other call leaves the line as it is. -/
def Line.apply (pin : Nat) (l : Line) : HwOp → Line
  | HwOp.GPIO_PinMode p mode pull => if p = pin then Line.mk mode pull l.level else l
  | HwOp.GPIO_TogglePin p => if p = pin then Line.mk l.mode l.pull (!l.level) else l
  | _ => l

/-- Modelled from the spec: the state of line `pin` after the calls `ops`, from the entry
state `l`. -/
def Line.after (pin : Nat) (l : Line) (ops : List HwOp) : Line :=
  ops.foldl (Line.apply pin) l

/-- A pass-by-pass description of the inputs seen from `hw`: `dataAt hw k` is the value of
the k-th data-line read from now on (`k = 0` is the initial check, `k = i + 1` the read of
loop pass `i`), `flagAt hw i` the watchdog flag read of loop pass `i`. -/
def dataAt (hw : Hw) (k : Nat) : Nat := hw.dataLine (hw.dataReads + k)

/-- See `dataAt`. -/
def flagAt (hw : Hw) (i : Nat) : Nat := hw.wdtFlag (hw.flagReads + i)

/-! ## The two causes of a failure of `DS3231_SetTime` -/

/-- The call `DS3231_SetTime(x, y, z)` fails because a field is out of range: every write
it attempts returns `0` and one of the fields is above its bound. -/
def SetTime_rangeFailure {σ : Type} (t : Transport σ) (b : Bus σ) (x y z : Nat) : Prop :=
  allSucceed t b.st (checkedWrites [(0x00, 59, x), (0x01, 59, y), (0x02, 23, z)]) ∧
    (x > 59 ∨ y > 59 ∨ z > 23)

/-- The call `DS3231_SetTime(x, y, z)` fails because a transport write returned the
nonzero code `c`: one of the writes it attempts returns `c`, the writes before it having
returned `0`. -/
def SetTime_transportFailure {σ : Type} (t : Transport σ) (b : Bus σ) (x y z c : Nat) : Prop :=
  c ≠ 0 ∧ ∃ pre rv post,
    checkedWrites [(0x00, 59, x), (0x01, 59, y), (0x02, 23, z)] = pre ++ rv :: post ∧
    allSucceed t b.st pre ∧ writeCode t (stateAfter t b.st pre) rv = c

/-! ## Alarm 2 against alarm 1 -/

/-- The write `rv` (register, byte) with its register address lowered by 3. -/
def lowered (rv : Nat × Nat) : Nat × Nat := (rv.1 - 3, rv.2)

/-- The result `r1` of a part of `DS3231_SetAlarm1` started on bus `b1` matches the result
`r2` of the corresponding part of `DS3231_SetAlarm2` started on bus `b2`: the codes are
equal, the traffic of alarm 2 is a list of writes to `0x0B`, `0x0C`, `0x0D`, and the
traffic of alarm 1 is the same list with each register address lowered by 3. -/
def AlarmMatch {σ τ : Type} (b1 : Bus σ) (r1 : Nat × Bus σ) (b2 : Bus τ) (r2 : Nat × Bus τ) :
    Prop :=
  r1.1 = r2.1 ∧ ∃ ws, r2.2.log = b2.log ++ writesOf ws ∧
    r1.2.log = b1.log ++ writesOf (ws.map lowered) ∧ ∀ rv ∈ ws, rv.1 ∈ [0x0B, 0x0C, 0x0D]

/-! ## State and byte seen by the read of one field -/

/-- The byte the read of register `reg` issued in device state `st` leaves in the
buffer. -/
def byteRead {σ : Type} (t : Transport σ) (st : σ) (reg : Nat) : Nat :=
  (t.I2C_Read_From_Slave st DS3231_I2C_ADDRESS reg).2.1

/-- The device state in which the block of the next field starts: the state after the
read of `reg` when the pointer `p` of the field is not null, the state `st` itself when it
is null. -/
def stateAfterField {σ : Type} (t : Transport σ) (st : σ) (p : Option Nat) (reg : Nat) : σ :=
  if p.isSome then (t.I2C_Read_From_Slave st DS3231_I2C_ADDRESS reg).2.2 else st

/-! ## Writes an alarm function can issue -/

/-- The traffic `ext` consists only of writes to the driver's device address, each being
one of the (register, byte) pairs `pairs`. -/
def WritesAmong (pairs : List (Nat × Nat)) (ext : List BusOp) : Prop :=
  ∀ op ∈ ext, ∃ rv ∈ pairs, op = BusOp.write DS3231_I2C_ADDRESS rv.1 rv.2

/-- The (register, byte) pairs among which the writes of `DS3231_SetAlarm1` lie: one pair
per time field, and the three shapes of the day/date byte. -/
def alarm1Pairs (s m h d dom : Nat) : List (Nat × Nat) :=
  [(0x07, matchByte s), (0x08, matchByte m), (0x09, matchByte h),
    (0x0A, (d ||| 0x40) % 256), (0x0A, encodeBcd dom), (0x0A, 0x80)]

/-- The (register, byte) pairs among which the writes of `DS3231_SetAlarm2` lie. -/
def alarm2Pairs (m h d dom : Nat) : List (Nat × Nat) :=
  [(0x0B, matchByte m), (0x0C, matchByte h),
    (0x0D, (d ||| 0x40) % 256), (0x0D, encodeBcd dom), (0x0D, 0x80)]

/-! ## Facts about the BCD expressions -/

theorem encodeBcd_lt_100 : ∀ v, v ≤ 99 → encodeBcd v = v % 10 + 16 * (v / 10) := by
  decide

theorem decode70_encode : ∀ v, v ≤ 59 → decodeBcd 0x70 (encodeBcd v) = v := by
  decide

theorem decode30_encode_hours : ∀ v, v ≤ 23 → decodeBcd 0x30 (encodeBcd v) = v := by
  decide

theorem decode30_encode_date : ∀ v, v ≤ 31 → decodeBcd 0x30 (encodeBcd v) = v := by
  decide

theorem decode10_encode : ∀ v, v ≤ 12 → decodeBcd 0x10 (encodeBcd v) = v := by
  decide

theorem decodeF0_encode : ∀ v, v ≤ 99 → decodeBcd 0xF0 (encodeBcd v) = v := by
  decide

/-! ## Set followed by read -/

/-- Over a transport whose writes succeed, an accepted `DS3231_SetTime` returns `0` and
leaves the three encodings in the registers `0x00`, `0x01`, `0x02`. -/
theorem SetTime_mem {σ : Type} (t : Transport σ) (mem : σ → Nat → Nat)
    (hw : WritesSucceed t) (hm : ReadsLastWritten t mem) (b : Bus σ)
    (seconds minutes hours : Nat) (hs : seconds ≤ 59) (hmi : minutes ≤ 59) (hh : hours ≤ 23) :
    (DS3231_SetTime t b seconds minutes hours).1 = 0 ∧
    mem (DS3231_SetTime t b seconds minutes hours).2.st 0 = encodeBcd seconds ∧
    mem (DS3231_SetTime t b seconds minutes hours).2.st 1 = encodeBcd minutes ∧
    mem (DS3231_SetTime t b seconds minutes hours).2.st 2 = encodeBcd hours := by
  have hw1 : ∀ st dev reg val, (t.I2C_Write_To_Slave st dev reg val).1 = 0 := hw
  obtain ⟨hmw, -⟩ := hm
  have e1 : ¬ seconds > 59 := by omega
  have e2 : ¬ minutes > 59 := by omega
  have e3 : ¬ hours > 23 := by omega
  simp [DS3231_SetTime, writeReg, hw1, hmw, e1, e2, e3, SECONDS_ADDRESS, MINUTES_ADDRESS,
    HOURS_ADDRESS]

/-- Over a transport whose writes succeed, an accepted `DS3231_SetDate` returns `0` and
leaves the three encodings in the registers `0x04`, `0x05`, `0x06`. -/
theorem SetDate_mem {σ : Type} (t : Transport σ) (mem : σ → Nat → Nat)
    (hw : WritesSucceed t) (hm : ReadsLastWritten t mem) (b : Bus σ)
    (day_of_month month year : Nat) (hd : day_of_month ≤ 31) (hmo : month ≤ 12)
    (hy : year ≤ 99) :
    (DS3231_SetDate t b day_of_month month year).1 = 0 ∧
    mem (DS3231_SetDate t b day_of_month month year).2.st 4 = encodeBcd day_of_month ∧
    mem (DS3231_SetDate t b day_of_month month year).2.st 5 = encodeBcd month ∧
    mem (DS3231_SetDate t b day_of_month month year).2.st 6 = encodeBcd year := by
  have hw1 : ∀ st dev reg val, (t.I2C_Write_To_Slave st dev reg val).1 = 0 := hw
  obtain ⟨hmw, -⟩ := hm
  have e1 : ¬ day_of_month > 31 := by omega
  have e2 : ¬ month > 12 := by omega
  have e3 : ¬ year > 99 := by omega
  simp [DS3231_SetDate, writeReg, hw1, hmw, e1, e2, e3, DATE_ADDRESS, MONTH_ADDRESS,
    YEAR_ADDRESS]

/-- Over a transport whose reads succeed and return the stored bytes, `DS3231_ReadTime`
with three non-null pointers returns `0` and stores the decodings of the registers
`0x00`, `0x01`, `0x02`. -/
theorem ReadTime_mem {σ : Type} (t : Transport σ) (mem : σ → Nat → Nat)
    (hr : ReadsSucceed t) (hm : ReadsLastWritten t mem) (b : Bus σ) (s0 m0 h0 : Nat) :
    (DS3231_ReadTime t b (some s0) (some m0) (some h0)).ret = 0 ∧
    (DS3231_ReadTime t b (some s0) (some m0) (some h0)).out1
      = some (decodeBcd 0x70 (mem b.st 0)) ∧
    (DS3231_ReadTime t b (some s0) (some m0) (some h0)).out2
      = some (decodeBcd 0x70 (mem b.st 1)) ∧
    (DS3231_ReadTime t b (some s0) (some m0) (some h0)).out3
      = some (decodeBcd 0x30 (mem b.st 2)) := by
  have hr1 : ∀ st dev reg, (t.I2C_Read_From_Slave st dev reg).1 = 0 := hr
  obtain ⟨-, hmr⟩ := hm
  have hv : ∀ st dev reg, (t.I2C_Read_From_Slave st dev reg).2.1 = mem st reg :=
    fun st dev reg => (hmr st dev reg).1
  have hk : ∀ st dev reg, mem (t.I2C_Read_From_Slave st dev reg).2.2 = mem st :=
    fun st dev reg => (hmr st dev reg).2
  simp [DS3231_ReadTime, ReadTime_minutes, ReadTime_hours, readReg, hr1, hv, hk,
    SECONDS_ADDRESS, MINUTES_ADDRESS, HOURS_ADDRESS]

/-- Over a transport whose reads succeed and return the stored bytes, `DS3231_ReadDate`
with three non-null pointers returns `0` and stores the decodings of the registers
`0x04`, `0x05`, `0x06`. -/
theorem ReadDate_mem {σ : Type} (t : Transport σ) (mem : σ → Nat → Nat)
    (hr : ReadsSucceed t) (hm : ReadsLastWritten t mem) (b : Bus σ) (d0 m0 y0 : Nat) :
    (DS3231_ReadDate t b (some d0) (some m0) (some y0)).ret = 0 ∧
    (DS3231_ReadDate t b (some d0) (some m0) (some y0)).out1
      = some (decodeBcd 0x30 (mem b.st 4)) ∧
    (DS3231_ReadDate t b (some d0) (some m0) (some y0)).out2
      = some (decodeBcd 0x10 (mem b.st 5)) ∧
    (DS3231_ReadDate t b (some d0) (some m0) (some y0)).out3
      = some (decodeBcd 0xF0 (mem b.st 6)) := by
  have hr1 : ∀ st dev reg, (t.I2C_Read_From_Slave st dev reg).1 = 0 := hr
  obtain ⟨-, hmr⟩ := hm
  have hv : ∀ st dev reg, (t.I2C_Read_From_Slave st dev reg).2.1 = mem st reg :=
    fun st dev reg => (hmr st dev reg).1
  have hk : ∀ st dev reg, mem (t.I2C_Read_From_Slave st dev reg).2.2 = mem st :=
    fun st dev reg => (hmr st dev reg).2
  simp [DS3231_ReadDate, ReadDate_month, ReadDate_year, readReg, hr1, hv, hk,
    DATE_ADDRESS, MONTH_ADDRESS, YEAR_ADDRESS]

theorem regFile_writesSucceed : WritesSucceed regFile := fun _ _ _ _ => rfl

theorem regFile_readsSucceed : ReadsSucceed regFile := fun _ _ _ => rfl

theorem regFile_readsLastWritten : ReadsLastWritten regFile (fun st => st) :=
  ⟨fun _ _ _ _ _ => rfl, fun _ _ _ => ⟨rfl, rfl⟩⟩

/-- C1: over a transport that never fails and returns on a read of a register the byte
last written to it, `DS3231_SetTime` with seconds ≤ 59, minutes ≤ 59, hours ≤ 23 followed
by `DS3231_ReadTime` with three non-null pointers returns 0 both times and stores the
same three values; likewise `DS3231_SetDate` with day of month ≤ 31, month ≤ 12,
year ≤ 99 followed by `DS3231_ReadDate`. -/
theorem C1_set_then_read_roundtrip {σ : Type} (t : Transport σ) (mem : σ → Nat → Nat)
    (hw : WritesSucceed t) (hr : ReadsSucceed t) (hm : ReadsLastWritten t mem) (b : Bus σ)
    (seconds minutes hours day_of_month month year : Nat) (p q r : Nat)
    (hs : seconds ≤ 59) (hmi : minutes ≤ 59) (hh : hours ≤ 23)
    (hd : day_of_month ≤ 31) (hmo : month ≤ 12) (hy : year ≤ 99) :
    ((DS3231_SetTime t b seconds minutes hours).1 = 0 ∧
      (DS3231_ReadTime t (DS3231_SetTime t b seconds minutes hours).2
        (some p) (some q) (some r)).ret = 0 ∧
      (DS3231_ReadTime t (DS3231_SetTime t b seconds minutes hours).2
        (some p) (some q) (some r)).out1 = some seconds ∧
      (DS3231_ReadTime t (DS3231_SetTime t b seconds minutes hours).2
        (some p) (some q) (some r)).out2 = some minutes ∧
      (DS3231_ReadTime t (DS3231_SetTime t b seconds minutes hours).2
        (some p) (some q) (some r)).out3 = some hours) ∧
    ((DS3231_SetDate t b day_of_month month year).1 = 0 ∧
      (DS3231_ReadDate t (DS3231_SetDate t b day_of_month month year).2
        (some p) (some q) (some r)).ret = 0 ∧
      (DS3231_ReadDate t (DS3231_SetDate t b day_of_month month year).2
        (some p) (some q) (some r)).out1 = some day_of_month ∧
      (DS3231_ReadDate t (DS3231_SetDate t b day_of_month month year).2
        (some p) (some q) (some r)).out2 = some month ∧
      (DS3231_ReadDate t (DS3231_SetDate t b day_of_month month year).2
        (some p) (some q) (some r)).out3 = some year) := by
  constructor
  · obtain ⟨s0, s1, s2, s3⟩ := SetTime_mem t mem hw hm b seconds minutes hours hs hmi hh
    obtain ⟨r0, r1, r2, r3⟩ :=
      ReadTime_mem t mem hr hm (DS3231_SetTime t b seconds minutes hours).2 p q r
    refine ⟨s0, r0, ?_, ?_, ?_⟩
    · rw [r1, s1, decode70_encode seconds hs]
    · rw [r2, s2, decode70_encode minutes hmi]
    · rw [r3, s3, decode30_encode_hours hours hh]
  · obtain ⟨s0, s1, s2, s3⟩ := SetDate_mem t mem hw hm b day_of_month month year hd hmo hy
    obtain ⟨r0, r1, r2, r3⟩ :=
      ReadDate_mem t mem hr hm (DS3231_SetDate t b day_of_month month year).2 p q r
    refine ⟨s0, r0, ?_, ?_, ?_⟩
    · rw [r1, s1, decode30_encode_date day_of_month hd]
    · rw [r2, s2, decode10_encode month hmo]
    · rw [r3, s3, decodeF0_encode year hy]

/-- Witness of C1 on the register-file transport, at the upper bounds 59:59:23 and
31-12-99, with output variables that held 7. -/
theorem C1_set_then_read_roundtrip_witness :
    (WritesSucceed regFile ∧ ReadsSucceed regFile ∧ ReadsLastWritten regFile (fun st => st)) ∧
    ((DS3231_SetTime regFile idleBus 59 59 23).1 = 0 ∧
      (DS3231_ReadTime regFile (DS3231_SetTime regFile idleBus 59 59 23).2
        (some 7) (some 7) (some 7)).ret = 0 ∧
      (DS3231_ReadTime regFile (DS3231_SetTime regFile idleBus 59 59 23).2
        (some 7) (some 7) (some 7)).out1 = some 59 ∧
      (DS3231_ReadTime regFile (DS3231_SetTime regFile idleBus 59 59 23).2
        (some 7) (some 7) (some 7)).out2 = some 59 ∧
      (DS3231_ReadTime regFile (DS3231_SetTime regFile idleBus 59 59 23).2
        (some 7) (some 7) (some 7)).out3 = some 23) ∧
    ((DS3231_SetDate regFile idleBus 31 12 99).1 = 0 ∧
      (DS3231_ReadDate regFile (DS3231_SetDate regFile idleBus 31 12 99).2
        (some 7) (some 7) (some 7)).ret = 0 ∧
      (DS3231_ReadDate regFile (DS3231_SetDate regFile idleBus 31 12 99).2
        (some 7) (some 7) (some 7)).out1 = some 31 ∧
      (DS3231_ReadDate regFile (DS3231_SetDate regFile idleBus 31 12 99).2
        (some 7) (some 7) (some 7)).out2 = some 12 ∧
      (DS3231_ReadDate regFile (DS3231_SetDate regFile idleBus 31 12 99).2
        (some 7) (some 7) (some 7)).out3 = some 99) :=
  ⟨⟨regFile_writesSucceed, regFile_readsSucceed, regFile_readsLastWritten⟩,
    C1_set_then_read_roundtrip regFile (fun st => st) regFile_writesSucceed
      regFile_readsSucceed regFile_readsLastWritten idleBus 59 59 23 31 12 99 7 7 7
      (by decide) (by decide) (by decide) (by decide) (by decide) (by decide)⟩

/-- C2: for every v in 0..99 the year byte `(v % 10) | ((v / 10) << 4)` written by
`DS3231_SetDate` fits a byte unchanged, and the year decoding
`(b & 0x0F) + ((b & 0xF0) >> 4) * 10` of `DS3231_ReadDate` applied to it gives v back;
year 99 encodes to 0x99 and 0x99 decodes to 99.  The last two parts tie the expressions to
the functions: the year write of `DS3231_SetDate` carries that byte to register 0x06, and
`DS3231_ReadDate` asked for the year alone stores that decoding of the register byte. -/
theorem C2_year_bcd_roundtrip (v : Nat) (hv : v ≤ 99) :
    encodeBcd v = (v % 10) ||| ((v / 10) <<< 4) ∧
    decodeBcd 0xF0 (encodeBcd v)
      = (encodeBcd v &&& 0x0F) + ((encodeBcd v &&& 0xF0) >>> 4) * 10 ∧
    decodeBcd 0xF0 (encodeBcd v) = v ∧
    encodeBcd 99 = 0x99 ∧ decodeBcd 0xF0 0x99 = 99 ∧
    (DS3231_SetDate regFile idleBus 1 1 v).2.log.getLast?
      = some (BusOp.write 0xD0 0x06 (encodeBcd v)) ∧
    (DS3231_ReadDate regFile (Bus.mk (fun _ => encodeBcd v) []) none none (some 0)).out3
      = some (decodeBcd 0xF0 (encodeBcd v)) := by
  have h : ∀ v, v ≤ 99 →
      encodeBcd v = (v % 10) ||| ((v / 10) <<< 4) ∧
      decodeBcd 0xF0 (encodeBcd v)
        = (encodeBcd v &&& 0x0F) + ((encodeBcd v &&& 0xF0) >>> 4) * 10 ∧
      decodeBcd 0xF0 (encodeBcd v) = v := by decide
  have e3 : ¬ v > 99 := by omega
  refine ⟨(h v hv).1, (h v hv).2.1, (h v hv).2.2, by decide, by decide, ?_, ?_⟩
  · simp [DS3231_SetDate, writeReg, regFile, idleBus, e3, DS3231_I2C_ADDRESS, YEAR_ADDRESS]
  · simp [DS3231_ReadDate, ReadDate_month, ReadDate_year, readReg, regFile]

/-- Witness of C2 at the boundary year 99. -/
theorem C2_year_bcd_roundtrip_witness :
    99 ≤ 99 ∧ encodeBcd 99 = 0x99 ∧ decodeBcd 0xF0 (encodeBcd 99) = 99 :=
  ⟨le_refl 99, (C2_year_bcd_roundtrip 99 (le_refl 99)).2.2.2.1,
    (C2_year_bcd_roundtrip 99 (le_refl 99)).2.2.1⟩

/-! ## Range checks of `DS3231_SetTime` and `DS3231_SetDate` -/

/-- C3: over a transport whose writes all succeed, `DS3231_SetTime` returns 2, 3 or 4 for
the first of seconds (bound 59), minutes (bound 59), hours (bound 23) that is above its
bound and 0 when none is; the traffic of the call is exactly the BCD writes, in the order
0x00, 0x01, 0x02, of the fields before the violated one, and nothing else.
`DS3231_SetTime(60, 0, 0)` returns 2 with no traffic.  `DS3231_SetDate` does the same
with bounds 31, 12, 99 on registers 0x04, 0x05, 0x06. -/
theorem C3_stops_at_first_violation {σ : Type} (t : Transport σ) (hw : WritesSucceed t)
    (b : Bus σ) (x y z : Nat) :
    ((DS3231_SetTime t b x y z).1
        = (if x > 59 then 2 else if y > 59 then 3 else if z > 23 then 4 else 0) ∧
      (DS3231_SetTime t b x y z).2.log
        = b.log ++ writesOf
            (if x > 59 then []
             else if y > 59 then [(0x00, encodeBcd x)]
             else if z > 23 then [(0x00, encodeBcd x), (0x01, encodeBcd y)]
             else [(0x00, encodeBcd x), (0x01, encodeBcd y), (0x02, encodeBcd z)])) ∧
    ((DS3231_SetTime t b 60 0 0).1 = 2 ∧ (DS3231_SetTime t b 60 0 0).2.log = b.log) ∧
    ((DS3231_SetDate t b x y z).1
        = (if x > 31 then 2 else if y > 12 then 3 else if z > 99 then 4 else 0) ∧
      (DS3231_SetDate t b x y z).2.log
        = b.log ++ writesOf
            (if x > 31 then []
             else if y > 12 then [(0x04, encodeBcd x)]
             else if z > 99 then [(0x04, encodeBcd x), (0x05, encodeBcd y)]
             else [(0x04, encodeBcd x), (0x05, encodeBcd y), (0x06, encodeBcd z)])) := by
  have hw1 : ∀ st dev reg val, (t.I2C_Write_To_Slave st dev reg val).1 = 0 := hw
  refine ⟨⟨?_, ?_⟩, ⟨?_, ?_⟩, ⟨?_, ?_⟩⟩
  · simp only [DS3231_SetTime, writeReg, hw1]
    split_ifs <;> simp_all
  · simp only [DS3231_SetTime, writeReg, hw1, writesOf, SECONDS_ADDRESS, MINUTES_ADDRESS,
      HOURS_ADDRESS]
    split_ifs <;> simp_all
  · simp [DS3231_SetTime]
  · simp [DS3231_SetTime]
  · simp only [DS3231_SetDate, writeReg, hw1]
    split_ifs <;> simp_all
  · simp only [DS3231_SetDate, writeReg, hw1, writesOf, DATE_ADDRESS, MONTH_ADDRESS,
      YEAR_ADDRESS]
    split_ifs <;> simp_all

/-- Witness of C3 on the register-file transport: `DS3231_SetTime(12, 60, 5)` returns 3
after the seconds write alone, `DS3231_SetDate(31, 12, 100)` returns 4 after the day and
month writes. -/
theorem C3_stops_at_first_violation_witness :
    WritesSucceed regFile ∧
    (DS3231_SetTime regFile idleBus 12 60 5).1 = 3 ∧
    (DS3231_SetTime regFile idleBus 12 60 5).2.log = [BusOp.write 0xD0 0x00 0x12] ∧
    (DS3231_SetDate regFile idleBus 31 12 100).1 = 4 ∧
    (DS3231_SetDate regFile idleBus 31 12 100).2.log
      = [BusOp.write 0xD0 0x04 0x31, BusOp.write 0xD0 0x05 0x12] := by
  have h := (C3_stops_at_first_violation regFile regFile_writesSucceed idleBus 12 60 5).1
  have g := (C3_stops_at_first_violation regFile regFile_writesSucceed idleBus 31 12 100).2.2
  refine ⟨regFile_writesSucceed, ?_, ?_, ?_, ?_⟩
  · rw [h.1]; decide
  · rw [h.2]; decide
  · rw [g.1]; decide
  · rw [g.2]; decide

/-- Counterexample to C4: `DS3231_SetTime(0, 60, 0)` has minutes above the bound, yet the
seconds register is written before the call returns 3; `DS3231_SetDate(1, 13, 0)` has
month above the bound, yet the day-of-month register is written before it returns 3. -/
theorem C4_counterexample :
    (0 > 59 ∨ 60 > 59 ∨ 0 > 23) ∧
    (DS3231_SetTime regFile idleBus 0 60 0).1 = 3 ∧
    (DS3231_SetTime regFile idleBus 0 60 0).2.log = [BusOp.write 0xD0 0x00 0x00] ∧
    (DS3231_SetTime regFile idleBus 0 60 0).2.log ≠ idleBus.log ∧
    (1 > 31 ∨ 13 > 12 ∨ 0 > 99) ∧
    (DS3231_SetDate regFile idleBus 1 13 0).1 = 3 ∧
    (DS3231_SetDate regFile idleBus 1 13 0).2.log = [BusOp.write 0xD0 0x04 0x01] ∧
    (DS3231_SetDate regFile idleBus 1 13 0).2.log ≠ idleBus.log := by
  refine ⟨by decide, rfl, rfl, by decide, by decide, rfl, rfl, by decide⟩

/-- C4 (amended): when the first field (seconds, respectively day of month) is above its
bound, `DS3231_SetTime` / `DS3231_SetDate` return the range error 2 and leave the bus
untouched, on every transport.  When the first violated field is a later one, then over a
transport whose writes succeed the call returns that field's range error (3 or 4) after
the writes of the fields before it and no other traffic: no read, and no write for the
violated field or a later one. -/
theorem C4_validation_before_own_write {σ : Type} (t : Transport σ) (b : Bus σ)
    (seconds minutes hours day_of_month month year : Nat) :
    (seconds > 59 → DS3231_SetTime t b seconds minutes hours = (2, b)) ∧
    (day_of_month > 31 → DS3231_SetDate t b day_of_month month year = (2, b)) ∧
    (WritesSucceed t → seconds ≤ 59 → minutes > 59 →
      (DS3231_SetTime t b seconds minutes hours).1 = 3 ∧
      (DS3231_SetTime t b seconds minutes hours).2.log
        = b.log ++ writesOf [(0x00, encodeBcd seconds)]) ∧
    (WritesSucceed t → seconds ≤ 59 → minutes ≤ 59 → hours > 23 →
      (DS3231_SetTime t b seconds minutes hours).1 = 4 ∧
      (DS3231_SetTime t b seconds minutes hours).2.log
        = b.log ++ writesOf [(0x00, encodeBcd seconds), (0x01, encodeBcd minutes)]) ∧
    (WritesSucceed t → day_of_month ≤ 31 → month > 12 →
      (DS3231_SetDate t b day_of_month month year).1 = 3 ∧
      (DS3231_SetDate t b day_of_month month year).2.log
        = b.log ++ writesOf [(0x04, encodeBcd day_of_month)]) ∧
    (WritesSucceed t → day_of_month ≤ 31 → month ≤ 12 → year > 99 →
      (DS3231_SetDate t b day_of_month month year).1 = 4 ∧
      (DS3231_SetDate t b day_of_month month year).2.log
        = b.log ++ writesOf [(0x04, encodeBcd day_of_month), (0x05, encodeBcd month)]) := by
  refine ⟨?_, ?_, ?_, ?_, ?_, ?_⟩
  · intro h
    simp [DS3231_SetTime, h]
  · intro h
    simp [DS3231_SetDate, h]
  · intro hw h1 h2
    have hw1 : ∀ st dev reg val, (t.I2C_Write_To_Slave st dev reg val).1 = 0 := hw
    have e1 : ¬ seconds > 59 := by omega
    simp [DS3231_SetTime, writeReg, hw1, e1, h2, writesOf, SECONDS_ADDRESS]
  · intro hw h1 h2 h3
    have hw1 : ∀ st dev reg val, (t.I2C_Write_To_Slave st dev reg val).1 = 0 := hw
    have e1 : ¬ seconds > 59 := by omega
    have e2 : ¬ minutes > 59 := by omega
    simp [DS3231_SetTime, writeReg, hw1, e1, e2, h3, writesOf, SECONDS_ADDRESS,
      MINUTES_ADDRESS]
  · intro hw h1 h2
    have hw1 : ∀ st dev reg val, (t.I2C_Write_To_Slave st dev reg val).1 = 0 := hw
    have e1 : ¬ day_of_month > 31 := by omega
    simp [DS3231_SetDate, writeReg, hw1, e1, h2, writesOf, DATE_ADDRESS]
  · intro hw h1 h2 h3
    have hw1 : ∀ st dev reg val, (t.I2C_Write_To_Slave st dev reg val).1 = 0 := hw
    have e1 : ¬ day_of_month > 31 := by omega
    have e2 : ¬ month > 12 := by omega
    simp [DS3231_SetDate, writeReg, hw1, e1, e2, h3, writesOf, DATE_ADDRESS,
      MONTH_ADDRESS]

/-- Witness of C4 (amended) on the register-file transport: `DS3231_SetTime(60, 0, 0)`
and `DS3231_SetDate(32, 1, 0)` leave the bus untouched; `DS3231_SetTime(0, 60, 0)`,
`DS3231_SetTime(0, 0, 24)`, `DS3231_SetDate(1, 13, 0)` and `DS3231_SetDate(1, 1, 100)`
return 3, 4, 3, 4. -/
theorem C4_validation_before_own_write_witness :
    WritesSucceed regFile ∧
    DS3231_SetTime regFile idleBus 60 0 0 = (2, idleBus) ∧
    DS3231_SetDate regFile idleBus 32 1 0 = (2, idleBus) ∧
    (DS3231_SetTime regFile idleBus 0 60 0).1 = 3 ∧
    (DS3231_SetTime regFile idleBus 0 0 24).1 = 4 ∧
    (DS3231_SetDate regFile idleBus 1 13 0).1 = 3 ∧
    (DS3231_SetDate regFile idleBus 1 1 100).1 = 4 :=
  ⟨regFile_writesSucceed,
    (C4_validation_before_own_write regFile idleBus 60 0 0 32 1 0).1 (by decide),
    (C4_validation_before_own_write regFile idleBus 60 0 0 32 1 0).2.1 (by decide),
    ((C4_validation_before_own_write regFile idleBus 0 60 0 1 13 0).2.2.1
      regFile_writesSucceed (by decide) (by decide)).1,
    ((C4_validation_before_own_write regFile idleBus 0 0 24 1 1 100).2.2.2.1
      regFile_writesSucceed (by decide) (by decide) (by decide)).1,
    ((C4_validation_before_own_write regFile idleBus 0 60 0 1 13 0).2.2.2.2.1
      regFile_writesSucceed (by decide) (by decide)).1,
    ((C4_validation_before_own_write regFile idleBus 0 0 24 1 1 100).2.2.2.2.2
      regFile_writesSucceed (by decide) (by decide) (by decide)).1⟩

/-! ## Alarm blocks over a transport whose writes succeed -/

theorem writeReg_log {σ : Type} (t : Transport σ) (b : Bus σ) (reg val : Nat) :
    (writeReg t b reg val).2.log = b.log ++ writesOf [(reg, val)] := by
  simp [writeReg, writesOf]

theorem writeReg_st {σ : Type} (t : Transport σ) (b : Bus σ) (reg val : Nat) :
    (writeReg t b reg val).2.st = stateAfter t b.st [(reg, val)] := by
  simp [writeReg, stateAfter]

theorem writeReg_code {σ : Type} (t : Transport σ) (b : Bus σ) (reg val : Nat) :
    (writeReg t b reg val).1 = writeCode t b.st (reg, val) := by
  simp [writeReg, writeCode]

theorem writeReg_ok {σ : Type} (t : Transport σ) (hw : WritesSucceed t) (b : Bus σ)
    (reg val : Nat) : (writeReg t b reg val).1 = 0 := by
  simp only [writeReg]
  exact hw _ _ _ _

theorem SetAlarm1_hours_ok {σ : Type} (t : Transport σ) (hw : WritesSucceed t) (b : Bus σ)
    (hours day day_of_month : Nat) (hh : hours < 24 ∨ hours = 255) :
    SetAlarm1_hours t b hours day day_of_month
      = SetAlarm1_dydt t (writeReg t b 0x09 (matchByte hours)).2 day day_of_month := by
  rcases hh with h | h
  · have e : hours ≠ 255 := by omega
    simp [SetAlarm1_hours, writeReg_ok t hw, h, e, matchByte, ALARM1_HOUR_ADDRESS]
  · simp [SetAlarm1_hours, writeReg_ok t hw, h, matchByte, ALARM1_HOUR_ADDRESS]

theorem SetAlarm1_minutes_ok {σ : Type} (t : Transport σ) (hw : WritesSucceed t) (b : Bus σ)
    (minutes hours day day_of_month : Nat) (hm : minutes < 60 ∨ minutes = 255) :
    SetAlarm1_minutes t b minutes hours day day_of_month
      = SetAlarm1_hours t (writeReg t b 0x08 (matchByte minutes)).2 hours day day_of_month := by
  rcases hm with h | h
  · have e : minutes ≠ 255 := by omega
    simp [SetAlarm1_minutes, writeReg_ok t hw, h, e, matchByte, ALARM1_MIN_ADDRESS]
  · simp [SetAlarm1_minutes, writeReg_ok t hw, h, matchByte, ALARM1_MIN_ADDRESS]

theorem SetAlarm1_ok {σ : Type} (t : Transport σ) (hw : WritesSucceed t) (b : Bus σ)
    (seconds minutes hours day day_of_month : Nat) (hs : seconds < 60 ∨ seconds = 255) :
    DS3231_SetAlarm1 t b seconds minutes hours day day_of_month
      = SetAlarm1_minutes t (writeReg t b 0x07 (matchByte seconds)).2
          minutes hours day day_of_month := by
  rcases hs with h | h
  · have e : seconds ≠ 255 := by omega
    simp [DS3231_SetAlarm1, writeReg_ok t hw, h, e, matchByte, ALARM1_SEC_ADDRESS]
  · simp [DS3231_SetAlarm1, writeReg_ok t hw, h, matchByte, ALARM1_SEC_ADDRESS]

theorem SetAlarm2_hours_ok {σ : Type} (t : Transport σ) (hw : WritesSucceed t) (b : Bus σ)
    (hours day day_of_month : Nat) (hh : hours < 24 ∨ hours = 255) :
    SetAlarm2_hours t b hours day day_of_month
      = SetAlarm2_dydt t (writeReg t b 0x0C (matchByte hours)).2 day day_of_month := by
  rcases hh with h | h
  · have e : hours ≠ 255 := by omega
    simp [SetAlarm2_hours, writeReg_ok t hw, h, e, matchByte, ALARM2_HOUR_ADDRESS]
  · simp [SetAlarm2_hours, writeReg_ok t hw, h, matchByte, ALARM2_HOUR_ADDRESS]

theorem SetAlarm2_ok {σ : Type} (t : Transport σ) (hw : WritesSucceed t) (b : Bus σ)
    (minutes hours day day_of_month : Nat) (hm : minutes < 60 ∨ minutes = 255) :
    DS3231_SetAlarm2 t b minutes hours day day_of_month
      = SetAlarm2_hours t (writeReg t b 0x0B (matchByte minutes)).2 hours day day_of_month := by
  rcases hm with h | h
  · have e : minutes ≠ 255 := by omega
    simp [DS3231_SetAlarm2, writeReg_ok t hw, h, e, matchByte, ALARM2_MIN_ADDRESS]
  · simp [DS3231_SetAlarm2, writeReg_ok t hw, h, matchByte, ALARM2_MIN_ADDRESS]

/-- The day/date block of alarm 1 issues no traffic or exactly one write to `0x0A`. -/
theorem SetAlarm1_dydt_log {σ : Type} (t : Transport σ) (b : Bus σ) (day day_of_month : Nat) :
    (SetAlarm1_dydt t b day day_of_month).2.log = b.log ∨
    ∃ v, (SetAlarm1_dydt t b day day_of_month).2.log = b.log ++ writesOf [(0x0A, v)] := by
  simp only [SetAlarm1_dydt, ALARM1_DYDT_ADDRESS]
  split_ifs <;> first | exact Or.inl rfl | exact Or.inr ⟨_, writeReg_log t b _ _⟩

/-- The day/date block of alarm 2 issues no traffic or exactly one write to `0x0D`. -/
theorem SetAlarm2_dydt_log {σ : Type} (t : Transport σ) (b : Bus σ) (day day_of_month : Nat) :
    (SetAlarm2_dydt t b day day_of_month).2.log = b.log ∨
    ∃ v, (SetAlarm2_dydt t b day day_of_month).2.log = b.log ++ writesOf [(0x0D, v)] := by
  simp only [SetAlarm2_dydt, ALARM2_DYDT_ADDRESS]
  split_ifs <;> first | exact Or.inl rfl | exact Or.inr ⟨_, writeReg_log t b _ _⟩

theorem matchByte_wildcard : matchByte 255 = 0x80 := by decide

theorem matchByte_lt_60 : ∀ v, v < 60 →
    matchByte v = encodeBcd v ∧ (matchByte v).testBit 7 = false ∧ matchByte v < 0x80 := by
  decide

/-- Over a transport whose writes succeed and with accepted time fields, alarm 1 writes
the three match bytes to `0x07`, `0x08`, `0x09` and then runs its day/date block. -/
theorem SetAlarm1_time_ok {σ : Type} (t : Transport σ) (hw : WritesSucceed t) (b : Bus σ)
    (s m h d dom : Nat) (hs : s < 60 ∨ s = 255) (hm : m < 60 ∨ m = 255)
    (hh : h < 24 ∨ h = 255) :
    ∃ b3 : Bus σ, b3.log = b.log ++ writesOf [(0x07, matchByte s), (0x08, matchByte m),
        (0x09, matchByte h)] ∧
      DS3231_SetAlarm1 t b s m h d dom = SetAlarm1_dydt t b3 d dom := by
  refine ⟨(writeReg t (writeReg t (writeReg t b 0x07 (matchByte s)).2 0x08 (matchByte m)).2
    0x09 (matchByte h)).2, ?_, ?_⟩
  · simp [writeReg_log, writesOf]
  · rw [SetAlarm1_ok t hw b s m h d dom hs, SetAlarm1_minutes_ok t hw _ m h d dom hm,
      SetAlarm1_hours_ok t hw _ h d dom hh]

/-- Over a transport whose writes succeed and with accepted time fields, alarm 2 writes
the two match bytes to `0x0B`, `0x0C` and then runs its day/date block. -/
theorem SetAlarm2_time_ok {σ : Type} (t : Transport σ) (hw : WritesSucceed t) (b : Bus σ)
    (m h d dom : Nat) (hm : m < 60 ∨ m = 255) (hh : h < 24 ∨ h = 255) :
    ∃ b2 : Bus σ, b2.log = b.log ++ writesOf [(0x0B, matchByte m), (0x0C, matchByte h)] ∧
      DS3231_SetAlarm2 t b m h d dom = SetAlarm2_dydt t b2 d dom := by
  refine ⟨(writeReg t (writeReg t b 0x0B (matchByte m)).2 0x0C (matchByte h)).2, ?_, ?_⟩
  · simp [writeReg_log, writesOf]
  · rw [SetAlarm2_ok t hw b m h d dom hm, SetAlarm2_hours_ok t hw _ h d dom hh]

/-! ## The day/date slot -/

theorem dayBits : ∀ d, d ≤ 7 →
    (d ||| 0x40) % 256 = d ||| 0x40 ∧ (d ||| 0x40).testBit 6 = true ∧
    (d ||| 0x40).testBit 7 = false ∧ (d ||| 0x40) &&& 0x3F = d := by
  decide

theorem dateBits : ∀ d, d ≤ 31 →
    (encodeBcd d).testBit 6 = false ∧ (encodeBcd d).testBit 7 = false := by
  decide

theorem SetAlarm1_dydt_day {σ : Type} (t : Transport σ) (b : Bus σ) (d dom : Nat)
    (hd : d ≤ 7) (hdom : dom = 255) :
    (SetAlarm1_dydt t b d dom).2.log = b.log ++ writesOf [(0x0A, d ||| 0x40)] := by
  have n1 : ¬ (d ≤ 7 ∧ dom ≤ 31) := by omega
  unfold SetAlarm1_dydt
  rw [if_neg n1, if_pos ⟨hd, hdom⟩, (dayBits d hd).1]
  dsimp only
  split_ifs <;> exact writeReg_log t b _ _

theorem SetAlarm1_dydt_date {σ : Type} (t : Transport σ) (b : Bus σ) (d dom : Nat)
    (hd : d = 255) (hdom : dom ≤ 31) :
    (SetAlarm1_dydt t b d dom).2.log = b.log ++ writesOf [(0x0A, encodeBcd dom)] := by
  have n1 : ¬ (d ≤ 7 ∧ dom ≤ 31) := by omega
  have n2 : ¬ (d ≤ 7 ∧ dom = 255) := by omega
  unfold SetAlarm1_dydt
  rw [if_neg n1, if_neg n2, if_pos ⟨hd, hdom⟩]
  dsimp only
  split_ifs <;> exact writeReg_log t b _ _

theorem SetAlarm1_dydt_none {σ : Type} (t : Transport σ) (b : Bus σ) (d dom : Nat)
    (hd : d = 255) (hdom : dom = 255) :
    (SetAlarm1_dydt t b d dom).2.log = b.log ++ writesOf [(0x0A, 0x80)] := by
  have n1 : ¬ (d ≤ 7 ∧ dom ≤ 31) := by omega
  have n2 : ¬ (d ≤ 7 ∧ dom = 255) := by omega
  have n3 : ¬ (d = 255 ∧ dom ≤ 31) := by omega
  unfold SetAlarm1_dydt
  rw [if_neg n1, if_neg n2, if_neg n3, if_pos ⟨hd, hdom⟩]
  dsimp only
  split_ifs <;> exact writeReg_log t b _ _

theorem SetAlarm2_dydt_day {σ : Type} (t : Transport σ) (b : Bus σ) (d dom : Nat)
    (hd : d ≤ 7) (hdom : dom = 255) :
    (SetAlarm2_dydt t b d dom).2.log = b.log ++ writesOf [(0x0D, d ||| 0x40)] := by
  have n1 : ¬ (d ≤ 7 ∧ dom ≤ 31) := by omega
  unfold SetAlarm2_dydt
  rw [if_neg n1, if_pos ⟨hd, hdom⟩, (dayBits d hd).1]
  dsimp only
  split_ifs <;> exact writeReg_log t b _ _

theorem SetAlarm2_dydt_date {σ : Type} (t : Transport σ) (b : Bus σ) (d dom : Nat)
    (hd : d = 255) (hdom : dom ≤ 31) :
    (SetAlarm2_dydt t b d dom).2.log = b.log ++ writesOf [(0x0D, encodeBcd dom)] := by
  have n1 : ¬ (d ≤ 7 ∧ dom ≤ 31) := by omega
  have n2 : ¬ (d ≤ 7 ∧ dom = 255) := by omega
  unfold SetAlarm2_dydt
  rw [if_neg n1, if_neg n2, if_pos ⟨hd, hdom⟩]
  dsimp only
  split_ifs <;> exact writeReg_log t b _ _

theorem SetAlarm2_dydt_none {σ : Type} (t : Transport σ) (b : Bus σ) (d dom : Nat)
    (hd : d = 255) (hdom : dom = 255) :
    (SetAlarm2_dydt t b d dom).2.log = b.log ++ writesOf [(0x0D, 0x80)] := by
  have n1 : ¬ (d ≤ 7 ∧ dom ≤ 31) := by omega
  have n2 : ¬ (d ≤ 7 ∧ dom = 255) := by omega
  have n3 : ¬ (d = 255 ∧ dom ≤ 31) := by omega
  unfold SetAlarm2_dydt
  rw [if_neg n1, if_neg n2, if_neg n3, if_pos ⟨hd, hdom⟩]
  dsimp only
  split_ifs <;> exact writeReg_log t b _ _

/-- C6: over a transport whose writes succeed and with every time field in range or 255,
the byte `DS3231_SetAlarm1` writes to `0x0A` and `DS3231_SetAlarm2` writes to `0x0D`,
after the time-field writes, is: `day | 0x40` (bit 6 set, bit 7 clear, low bits equal to
day) when day ≤ 7 and day of month = 255; the BCD encoding of the day of month (bits 6
and 7 clear) when day = 255 and day of month ≤ 31; `0x80` when both are 255. -/
theorem C6_day_date_slot {σ : Type} (t : Transport σ) (hw : WritesSucceed t) (b : Bus σ)
    (s m h d dom : Nat)
    (hs : s < 60 ∨ s = 255) (hm : m < 60 ∨ m = 255) (hh : h < 24 ∨ h = 255) :
    (d ≤ 7 → dom = 255 →
      (DS3231_SetAlarm1 t b s m h d dom).2.log
        = b.log ++ writesOf [(0x07, matchByte s), (0x08, matchByte m), (0x09, matchByte h),
            (0x0A, d ||| 0x40)] ∧
      (DS3231_SetAlarm2 t b m h d dom).2.log
        = b.log ++ writesOf [(0x0B, matchByte m), (0x0C, matchByte h), (0x0D, d ||| 0x40)] ∧
      (d ||| 0x40).testBit 6 = true ∧ (d ||| 0x40).testBit 7 = false ∧
      (d ||| 0x40) &&& 0x3F = d) ∧
    (d = 255 → dom ≤ 31 →
      (DS3231_SetAlarm1 t b s m h d dom).2.log
        = b.log ++ writesOf [(0x07, matchByte s), (0x08, matchByte m), (0x09, matchByte h),
            (0x0A, encodeBcd dom)] ∧
      (DS3231_SetAlarm2 t b m h d dom).2.log
        = b.log ++ writesOf [(0x0B, matchByte m), (0x0C, matchByte h),
            (0x0D, encodeBcd dom)] ∧
      (encodeBcd dom).testBit 6 = false ∧ (encodeBcd dom).testBit 7 = false) ∧
    (d = 255 → dom = 255 →
      (DS3231_SetAlarm1 t b s m h d dom).2.log
        = b.log ++ writesOf [(0x07, matchByte s), (0x08, matchByte m), (0x09, matchByte h),
            (0x0A, 0x80)] ∧
      (DS3231_SetAlarm2 t b m h d dom).2.log
        = b.log ++ writesOf [(0x0B, matchByte m), (0x0C, matchByte h), (0x0D, 0x80)]) := by
  obtain ⟨b3, hlog3, heq3⟩ := SetAlarm1_time_ok t hw b s m h d dom hs hm hh
  obtain ⟨b2, hlog2, heq2⟩ := SetAlarm2_time_ok t hw b m h d dom hm hh
  rw [heq3, heq2]
  refine ⟨fun hd hdom => ?_, fun hd hdom => ?_, fun hd hdom => ?_⟩
  · obtain ⟨e1, e2, e3, e4⟩ := dayBits d hd
    refine ⟨?_, ?_, e2, e3, e4⟩
    · rw [SetAlarm1_dydt_day t b3 d dom hd hdom, hlog3]
      simp [writesOf]
    · rw [SetAlarm2_dydt_day t b2 d dom hd hdom, hlog2]
      simp [writesOf]
  · obtain ⟨e1, e2⟩ := dateBits dom hdom
    refine ⟨?_, ?_, e1, e2⟩
    · rw [SetAlarm1_dydt_date t b3 d dom hd hdom, hlog3]
      simp [writesOf]
    · rw [SetAlarm2_dydt_date t b2 d dom hd hdom, hlog2]
      simp [writesOf]
  · refine ⟨?_, ?_⟩
    · rw [SetAlarm1_dydt_none t b3 d dom hd hdom, hlog3]
      simp [writesOf]
    · rw [SetAlarm2_dydt_none t b2 d dom hd hdom, hlog2]
      simp [writesOf]

/-- Witness of C6 on the register-file transport: day 3 alone gives 0x43, day of month 15
alone gives 0x15, neither gives 0x80. -/
theorem C6_day_date_slot_witness :
    WritesSucceed regFile ∧
    (DS3231_SetAlarm1 regFile idleBus 0 30 12 3 255).2.log
      = idleBus.log ++ writesOf [(0x07, 0x00), (0x08, 0x30), (0x09, 0x12), (0x0A, 0x43)] ∧
    (DS3231_SetAlarm2 regFile idleBus 30 12 255 15).2.log
      = idleBus.log ++ writesOf [(0x0B, 0x30), (0x0C, 0x12), (0x0D, 0x15)] ∧
    (DS3231_SetAlarm1 regFile idleBus 0 30 12 255 255).2.log
      = idleBus.log ++ writesOf [(0x07, 0x00), (0x08, 0x30), (0x09, 0x12), (0x0A, 0x80)] :=
  ⟨regFile_writesSucceed,
    ((C6_day_date_slot regFile regFile_writesSucceed idleBus 0 30 12 3 255
      (by decide) (by decide) (by decide)).1 (by decide) rfl).1,
    ((C6_day_date_slot regFile regFile_writesSucceed idleBus 0 30 12 255 15
      (by decide) (by decide) (by decide)).2.1 rfl (by decide)).2.1,
    ((C6_day_date_slot regFile regFile_writesSucceed idleBus 0 30 12 255 255
      (by decide) (by decide) (by decide)).2.2 rfl rfl).1⟩

/-! ## Traffic of the alarm functions on an arbitrary transport -/

theorem OnlyWritesTo_nil (regs : List Nat) : OnlyWritesTo regs [] := by
  intro op hop
  cases hop

theorem OnlyWritesTo_append (regs : List Nat) (e1 e2 : List BusOp)
    (h1 : OnlyWritesTo regs e1) (h2 : OnlyWritesTo regs e2) : OnlyWritesTo regs (e1 ++ e2) := by
  intro op hop
  rcases List.mem_append.1 hop with h | h
  · exact h1 op h
  · exact h2 op h

theorem OnlyWritesTo_single (regs : List Nat) (reg val : Nat) (hreg : reg ∈ regs) :
    OnlyWritesTo regs (writesOf [(reg, val)]) := by
  intro op hop
  simp only [writesOf, List.map_cons, List.map_nil, List.mem_singleton] at hop
  exact ⟨reg, val, hreg, hop⟩

/-- One write-then-continue step: when the continuation only writes to `regs`, so does the
step, provided its own register is in `regs`. -/
theorem step_onlyWrites {σ : Type} (regs : List Nat) (t : Transport σ) (b : Bus σ)
    (reg val : Nat) (k : Bus σ → Nat × Bus σ) (hreg : reg ∈ regs)
    (hk : ∀ c : Bus σ, ∃ ext, (k c).2.log = c.log ++ ext ∧ OnlyWritesTo regs ext) :
    ∃ ext, (if (writeReg t b reg val).1 ≠ 0
              then ((writeReg t b reg val).1, (writeReg t b reg val).2)
              else k (writeReg t b reg val).2).2.log = b.log ++ ext ∧
      OnlyWritesTo regs ext := by
  split_ifs with hc
  · exact ⟨writesOf [(reg, val)], writeReg_log t b reg val,
      OnlyWritesTo_single regs reg val hreg⟩
  · obtain ⟨ext, he, ho⟩ := hk (writeReg t b reg val).2
    refine ⟨writesOf [(reg, val)] ++ ext, ?_,
      OnlyWritesTo_append regs _ _ (OnlyWritesTo_single regs reg val hreg) ho⟩
    rw [he, writeReg_log, List.append_assoc]

theorem SetAlarm1_dydt_ambiguous {σ : Type} (t : Transport σ) (b : Bus σ) (d dom : Nat)
    (hd : d ≤ 7) (hdom : dom ≤ 31) : SetAlarm1_dydt t b d dom = (5, b) := by
  simp [SetAlarm1_dydt, hd, hdom]

theorem SetAlarm2_dydt_ambiguous {σ : Type} (t : Transport σ) (b : Bus σ) (d dom : Nat)
    (hd : d ≤ 7) (hdom : dom ≤ 31) : SetAlarm2_dydt t b d dom = (5, b) := by
  simp [SetAlarm2_dydt, hd, hdom]

theorem SetAlarm1_hours_ambiguous {σ : Type} (t : Transport σ) (b : Bus σ) (h d dom : Nat)
    (hd : d ≤ 7) (hdom : dom ≤ 31) :
    ∃ ext, (SetAlarm1_hours t b h d dom).2.log = b.log ++ ext ∧
      OnlyWritesTo [0x07, 0x08, 0x09] ext := by
  have hk : ∀ c : Bus σ, ∃ ext, (SetAlarm1_dydt t c d dom).2.log = c.log ++ ext ∧
      OnlyWritesTo [0x07, 0x08, 0x09] ext := fun c =>
    ⟨[], by rw [SetAlarm1_dydt_ambiguous t c d dom hd hdom]; simp, OnlyWritesTo_nil _⟩
  unfold SetAlarm1_hours
  split_ifs
  · exact step_onlyWrites _ t b _ _ _ (by decide) hk
  · exact step_onlyWrites _ t b _ _ _ (by decide) hk
  · exact ⟨[], by simp, OnlyWritesTo_nil _⟩

theorem SetAlarm1_minutes_ambiguous {σ : Type} (t : Transport σ) (b : Bus σ)
    (m h d dom : Nat) (hd : d ≤ 7) (hdom : dom ≤ 31) :
    ∃ ext, (SetAlarm1_minutes t b m h d dom).2.log = b.log ++ ext ∧
      OnlyWritesTo [0x07, 0x08, 0x09] ext := by
  have hk := fun c : Bus σ => SetAlarm1_hours_ambiguous t c h d dom hd hdom
  unfold SetAlarm1_minutes
  split_ifs
  · exact step_onlyWrites _ t b _ _ _ (by decide) hk
  · exact step_onlyWrites _ t b _ _ _ (by decide) hk
  · exact ⟨[], by simp, OnlyWritesTo_nil _⟩

theorem SetAlarm2_hours_ambiguous {σ : Type} (t : Transport σ) (b : Bus σ) (h d dom : Nat)
    (hd : d ≤ 7) (hdom : dom ≤ 31) :
    ∃ ext, (SetAlarm2_hours t b h d dom).2.log = b.log ++ ext ∧
      OnlyWritesTo [0x0B, 0x0C] ext := by
  have hk : ∀ c : Bus σ, ∃ ext, (SetAlarm2_dydt t c d dom).2.log = c.log ++ ext ∧
      OnlyWritesTo [0x0B, 0x0C] ext := fun c =>
    ⟨[], by rw [SetAlarm2_dydt_ambiguous t c d dom hd hdom]; simp, OnlyWritesTo_nil _⟩
  unfold SetAlarm2_hours
  split_ifs
  · exact step_onlyWrites _ t b _ _ _ (by decide) hk
  · exact step_onlyWrites _ t b _ _ _ (by decide) hk
  · exact ⟨[], by simp, OnlyWritesTo_nil _⟩

/-- Counterexample to C8: with day = 3 and day of month = 15, `DS3231_SetAlarm1(0, 0, 0,
3, 15)` writes the three time registers `0x07`, `0x08`, `0x09` before it returns 5, and
`DS3231_SetAlarm2(0, 0, 3, 15)` writes `0x0B` and `0x0C`. -/
theorem C8_counterexample :
    (3 ≤ 7 ∧ 15 ≤ 31) ∧
    (DS3231_SetAlarm1 regFile idleBus 0 0 0 3 15).1 = 5 ∧
    (DS3231_SetAlarm1 regFile idleBus 0 0 0 3 15).2.log
      = [BusOp.write 0xD0 0x07 0x00, BusOp.write 0xD0 0x08 0x00, BusOp.write 0xD0 0x09 0x00] ∧
    (DS3231_SetAlarm1 regFile idleBus 0 0 0 3 15).2.log ≠ idleBus.log ∧
    (DS3231_SetAlarm2 regFile idleBus 0 0 3 15).1 = 5 ∧
    (DS3231_SetAlarm2 regFile idleBus 0 0 3 15).2.log
      = [BusOp.write 0xD0 0x0B 0x00, BusOp.write 0xD0 0x0C 0x00] ∧
    (DS3231_SetAlarm2 regFile idleBus 0 0 3 15).2.log ≠ idleBus.log := by
  refine ⟨by decide, rfl, rfl, by decide, rfl, rfl, by decide⟩

/-- C8 (amended): when day ≤ 7 and day of month ≤ 31 are both given, then for every value
of the time fields and on every transport the traffic of `DS3231_SetAlarm1` consists only
of writes to the time-field registers `0x07`, `0x08`, `0x09` and that of
`DS3231_SetAlarm2` only of writes to `0x0B`, `0x0C`: no read is issued and the day/date
register is not written. -/
theorem C8_ambiguous_day_writes_time_only {σ : Type} (t : Transport σ) (b : Bus σ)
    (s m h d dom : Nat) (hd : d ≤ 7) (hdom : dom ≤ 31) :
    (∃ ext, (DS3231_SetAlarm1 t b s m h d dom).2.log = b.log ++ ext ∧
      OnlyWritesTo [0x07, 0x08, 0x09] ext) ∧
    (∃ ext, (DS3231_SetAlarm2 t b m h d dom).2.log = b.log ++ ext ∧
      OnlyWritesTo [0x0B, 0x0C] ext) := by
  constructor
  · have hk := fun c : Bus σ => SetAlarm1_minutes_ambiguous t c m h d dom hd hdom
    unfold DS3231_SetAlarm1
    split_ifs
    · exact step_onlyWrites _ t b _ _ _ (by decide) hk
    · exact step_onlyWrites _ t b _ _ _ (by decide) hk
    · exact ⟨[], by simp, OnlyWritesTo_nil _⟩
  · have hk := fun c : Bus σ => SetAlarm2_hours_ambiguous t c h d dom hd hdom
    unfold DS3231_SetAlarm2
    split_ifs
    · exact step_onlyWrites _ t b _ _ _ (by decide) hk
    · exact step_onlyWrites _ t b _ _ _ (by decide) hk
    · exact ⟨[], by simp, OnlyWritesTo_nil _⟩

/-- Witness of C8 (amended) on the register-file transport at day = 3, day of month = 15,
with the out-of-range hours 24. -/
theorem C8_ambiguous_day_writes_time_only_witness :
    (3 ≤ 7 ∧ 15 ≤ 31) ∧
    (∃ ext, (DS3231_SetAlarm1 regFile idleBus 0 0 24 3 15).2.log = idleBus.log ++ ext ∧
      OnlyWritesTo [0x07, 0x08, 0x09] ext) ∧
    (∃ ext, (DS3231_SetAlarm2 regFile idleBus 0 24 3 15).2.log = idleBus.log ++ ext ∧
      OnlyWritesTo [0x0B, 0x0C] ext) :=
  ⟨by decide,
    C8_ambiguous_day_writes_time_only regFile idleBus 0 0 24 3 15 (by decide) (by decide)⟩

/-! ## Write order and short-circuit of the alarm functions -/

theorem writesOf_append (xs ys : List (Nat × Nat)) :
    writesOf (xs ++ ys) = writesOf xs ++ writesOf ys := by
  simp [writesOf]

theorem stateAfter_append {σ : Type} (t : Transport σ) (st : σ) (xs ys : List (Nat × Nat)) :
    stateAfter t st (xs ++ ys) = stateAfter t (stateAfter t st xs) ys := by
  induction xs generalizing st with
  | nil => rfl
  | cons rv xs ih => exact ih _

/-- When every write succeeds, `writeInOrder` issues all of them and returns `0`. -/
theorem writeInOrder_all {σ : Type} (t : Transport σ) (ws : List (Nat × Nat)) (b : Bus σ)
    (h : allSucceed t b.st ws) :
    writeInOrder t b ws = (0, Bus.mk (stateAfter t b.st ws) (b.log ++ writesOf ws)) := by
  induction ws generalizing b with
  | nil => simp [writeInOrder, stateAfter, writesOf]
  | cons rv ws ih =>
    obtain ⟨h0, h1⟩ := h
    have hc : (writeReg t b rv.1 rv.2).1 = 0 := h0
    rw [writeInOrder, if_neg (by rw [hc]; exact fun hne => hne rfl), ih _ h1]
    simp [writeReg, stateAfter, writesOf]

/-- When the writes `pre` succeed and the next write `rv` fails, `writeInOrder` returns
the failing code after issuing `pre` and `rv` and nothing else. -/
theorem writeInOrder_fail {σ : Type} (t : Transport σ) (pre : List (Nat × Nat))
    (rv : Nat × Nat) (post : List (Nat × Nat)) (b : Bus σ)
    (h : allSucceed t b.st pre) (hc : writeCode t (stateAfter t b.st pre) rv ≠ 0) :
    writeInOrder t b (pre ++ rv :: post)
      = (writeCode t (stateAfter t b.st pre) rv,
          Bus.mk (stateAfter t b.st (pre ++ [rv])) (b.log ++ writesOf (pre ++ [rv]))) := by
  induction pre generalizing b with
  | nil =>
    have hc1 : (writeReg t b rv.1 rv.2).1 ≠ 0 := hc
    rw [List.nil_append, writeInOrder, if_pos hc1]
    simp [writeReg, stateAfter, writesOf, writeCode]
  | cons x pre ih =>
    obtain ⟨h0, h1⟩ := h
    have hx : (writeReg t b x.1 x.2).1 = 0 := h0
    rw [List.cons_append, writeInOrder, if_neg (by rw [hx]; exact fun hne => hne rfl),
      ih _ h1 hc]
    simp [writeReg, stateAfter, writesOf]

theorem dayDateByte_accepted (d dom : Nat)
    (hd : (d ≤ 7 ∧ dom = 255) ∨ (d = 255 ∧ dom ≤ 31) ∨ (d = 255 ∧ dom = 255)) :
    ¬ (d ≤ 7 ∧ dom ≤ 31) ∧
    ((d ≤ 7 ∧ dom = 255) → dayDateByte d dom = (d ||| 0x40) % 256) ∧
    (¬ (d ≤ 7 ∧ dom = 255) → (d = 255 ∧ dom ≤ 31) → dayDateByte d dom = encodeBcd dom) ∧
    (¬ (d ≤ 7 ∧ dom = 255) → ¬ (d = 255 ∧ dom ≤ 31) → dayDateByte d dom = 0x80) := by
  refine ⟨by omega, ?_, ?_, ?_⟩
  · intro h
    have e : d ≠ 255 := by omega
    rw [(dayBits d h.1).1]
    simp [dayDateByte, e]
  · intro _ h
    have e : dom ≠ 255 := by omega
    simp [dayDateByte, h.1, e]
  · intro h1 h2
    have e : d = 255 ∧ dom = 255 := by omega
    simp [dayDateByte, e.1, e.2]

theorem SetAlarm1_dydt_inOrder {σ : Type} (t : Transport σ) (b : Bus σ) (d dom : Nat)
    (hd : (d ≤ 7 ∧ dom = 255) ∨ (d = 255 ∧ dom ≤ 31) ∨ (d = 255 ∧ dom = 255)) :
    SetAlarm1_dydt t b d dom = writeInOrder t b [(0x0A, dayDateByte d dom)] := by
  obtain ⟨n1, e2, e3, e4⟩ := dayDateByte_accepted d dom hd
  unfold SetAlarm1_dydt
  rw [if_neg n1]
  by_cases c2 : d ≤ 7 ∧ dom = 255
  · rw [if_pos c2, e2 c2]
    simp [writeInOrder, ALARM1_DYDT_ADDRESS]
  · rw [if_neg c2]
    by_cases c3 : d = 255 ∧ dom ≤ 31
    · rw [if_pos c3, e3 c2 c3]
      simp [writeInOrder, ALARM1_DYDT_ADDRESS]
    · have c4 : d = 255 ∧ dom = 255 := by omega
      rw [if_neg c3, if_pos c4, e4 c2 c3]
      simp [writeInOrder, ALARM1_DYDT_ADDRESS]

theorem SetAlarm2_dydt_inOrder {σ : Type} (t : Transport σ) (b : Bus σ) (d dom : Nat)
    (hd : (d ≤ 7 ∧ dom = 255) ∨ (d = 255 ∧ dom ≤ 31) ∨ (d = 255 ∧ dom = 255)) :
    SetAlarm2_dydt t b d dom = writeInOrder t b [(0x0D, dayDateByte d dom)] := by
  obtain ⟨n1, e2, e3, e4⟩ := dayDateByte_accepted d dom hd
  unfold SetAlarm2_dydt
  rw [if_neg n1]
  by_cases c2 : d ≤ 7 ∧ dom = 255
  · rw [if_pos c2, e2 c2]
    simp [writeInOrder, ALARM2_DYDT_ADDRESS]
  · rw [if_neg c2]
    by_cases c3 : d = 255 ∧ dom ≤ 31
    · rw [if_pos c3, e3 c2 c3]
      simp [writeInOrder, ALARM2_DYDT_ADDRESS]
    · have c4 : d = 255 ∧ dom = 255 := by omega
      rw [if_neg c3, if_pos c4, e4 c2 c3]
      simp [writeInOrder, ALARM2_DYDT_ADDRESS]

theorem SetAlarm1_hours_inOrder {σ : Type} (t : Transport σ) (b : Bus σ) (h d dom : Nat)
    (hh : h < 24 ∨ h = 255)
    (hd : (d ≤ 7 ∧ dom = 255) ∨ (d = 255 ∧ dom ≤ 31) ∨ (d = 255 ∧ dom = 255)) :
    SetAlarm1_hours t b h d dom
      = writeInOrder t b [(0x09, matchByte h), (0x0A, dayDateByte d dom)] := by
  have hk := fun c : Bus σ => SetAlarm1_dydt_inOrder t c d dom hd
  rcases hh with h1 | h1
  · have e : h ≠ 255 := by omega
    simp [SetAlarm1_hours, h1, hk, matchByte, e, writeInOrder, ALARM1_HOUR_ADDRESS]
  · simp [SetAlarm1_hours, h1, hk, matchByte, writeInOrder, ALARM1_HOUR_ADDRESS]

theorem SetAlarm1_minutes_inOrder {σ : Type} (t : Transport σ) (b : Bus σ)
    (m h d dom : Nat) (hm : m < 60 ∨ m = 255) (hh : h < 24 ∨ h = 255)
    (hd : (d ≤ 7 ∧ dom = 255) ∨ (d = 255 ∧ dom ≤ 31) ∨ (d = 255 ∧ dom = 255)) :
    SetAlarm1_minutes t b m h d dom
      = writeInOrder t b [(0x08, matchByte m), (0x09, matchByte h),
          (0x0A, dayDateByte d dom)] := by
  have hk := fun c : Bus σ => SetAlarm1_hours_inOrder t c h d dom hh hd
  rcases hm with h1 | h1
  · have e : m ≠ 255 := by omega
    simp [SetAlarm1_minutes, h1, hk, matchByte, e, writeInOrder, ALARM1_MIN_ADDRESS]
  · simp [SetAlarm1_minutes, h1, hk, matchByte, writeInOrder, ALARM1_MIN_ADDRESS]

theorem SetAlarm1_inOrder {σ : Type} (t : Transport σ) (b : Bus σ)
    (s m h d dom : Nat) (hs : s < 60 ∨ s = 255) (hm : m < 60 ∨ m = 255)
    (hh : h < 24 ∨ h = 255)
    (hd : (d ≤ 7 ∧ dom = 255) ∨ (d = 255 ∧ dom ≤ 31) ∨ (d = 255 ∧ dom = 255)) :
    DS3231_SetAlarm1 t b s m h d dom
      = writeInOrder t b [(0x07, matchByte s), (0x08, matchByte m), (0x09, matchByte h),
          (0x0A, dayDateByte d dom)] := by
  have hk := fun c : Bus σ => SetAlarm1_minutes_inOrder t c m h d dom hm hh hd
  rcases hs with h1 | h1
  · have e : s ≠ 255 := by omega
    simp [DS3231_SetAlarm1, h1, hk, matchByte, e, writeInOrder, ALARM1_SEC_ADDRESS]
  · simp [DS3231_SetAlarm1, h1, hk, matchByte, writeInOrder, ALARM1_SEC_ADDRESS]

theorem SetAlarm2_hours_inOrder {σ : Type} (t : Transport σ) (b : Bus σ) (h d dom : Nat)
    (hh : h < 24 ∨ h = 255)
    (hd : (d ≤ 7 ∧ dom = 255) ∨ (d = 255 ∧ dom ≤ 31) ∨ (d = 255 ∧ dom = 255)) :
    SetAlarm2_hours t b h d dom
      = writeInOrder t b [(0x0C, matchByte h), (0x0D, dayDateByte d dom)] := by
  have hk := fun c : Bus σ => SetAlarm2_dydt_inOrder t c d dom hd
  rcases hh with h1 | h1
  · have e : h ≠ 255 := by omega
    simp [SetAlarm2_hours, h1, hk, matchByte, e, writeInOrder, ALARM2_HOUR_ADDRESS]
  · simp [SetAlarm2_hours, h1, hk, matchByte, writeInOrder, ALARM2_HOUR_ADDRESS]

theorem SetAlarm2_inOrder {σ : Type} (t : Transport σ) (b : Bus σ)
    (m h d dom : Nat) (hm : m < 60 ∨ m = 255) (hh : h < 24 ∨ h = 255)
    (hd : (d ≤ 7 ∧ dom = 255) ∨ (d = 255 ∧ dom ≤ 31) ∨ (d = 255 ∧ dom = 255)) :
    DS3231_SetAlarm2 t b m h d dom
      = writeInOrder t b [(0x0B, matchByte m), (0x0C, matchByte h),
          (0x0D, dayDateByte d dom)] := by
  have hk := fun c : Bus σ => SetAlarm2_hours_inOrder t c h d dom hh hd
  rcases hm with h1 | h1
  · have e : m ≠ 255 := by omega
    simp [DS3231_SetAlarm2, h1, hk, matchByte, e, writeInOrder, ALARM2_MIN_ADDRESS]
  · simp [DS3231_SetAlarm2, h1, hk, matchByte, writeInOrder, ALARM2_MIN_ADDRESS]

/-- C9: for an accepted alarm request (time fields in range or 255; day and day of month
in one of the three unambiguous combinations) and on every transport, `DS3231_SetAlarm1`
issues its writes in the order `0x07`, `0x08`, `0x09`, `0x0A` and `DS3231_SetAlarm2` in the
order `0x0B`, `0x0C`, `0x0D`.  If every write returns 0, all of them are issued and the
result is 0.  If the writes before some write of the sequence return 0 and that write
returns a nonzero code c, the result is c and the traffic is the writes up to and
including the failing one, none of the later ones. -/
theorem C9_alarm_write_order {σ : Type} (t : Transport σ) (b : Bus σ) (s m h d dom : Nat)
    (hs : s < 60 ∨ s = 255) (hm : m < 60 ∨ m = 255) (hh : h < 24 ∨ h = 255)
    (hd : (d ≤ 7 ∧ dom = 255) ∨ (d = 255 ∧ dom ≤ 31) ∨ (d = 255 ∧ dom = 255)) :
    (∀ ws, ws = [(0x07, matchByte s), (0x08, matchByte m), (0x09, matchByte h),
          (0x0A, dayDateByte d dom)] →
      (allSucceed t b.st ws →
        DS3231_SetAlarm1 t b s m h d dom
          = (0, Bus.mk (stateAfter t b.st ws) (b.log ++ writesOf ws))) ∧
      (∀ pre rv post c, ws = pre ++ rv :: post → allSucceed t b.st pre →
        writeCode t (stateAfter t b.st pre) rv = c → c ≠ 0 →
        DS3231_SetAlarm1 t b s m h d dom
          = (c, Bus.mk (stateAfter t b.st (pre ++ [rv]))
              (b.log ++ writesOf (pre ++ [rv]))))) ∧
    (∀ ws, ws = [(0x0B, matchByte m), (0x0C, matchByte h), (0x0D, dayDateByte d dom)] →
      (allSucceed t b.st ws →
        DS3231_SetAlarm2 t b m h d dom
          = (0, Bus.mk (stateAfter t b.st ws) (b.log ++ writesOf ws))) ∧
      (∀ pre rv post c, ws = pre ++ rv :: post → allSucceed t b.st pre →
        writeCode t (stateAfter t b.st pre) rv = c → c ≠ 0 →
        DS3231_SetAlarm2 t b m h d dom
          = (c, Bus.mk (stateAfter t b.st (pre ++ [rv]))
              (b.log ++ writesOf (pre ++ [rv]))))) := by
  constructor
  · intro ws hws
    rw [SetAlarm1_inOrder t b s m h d dom hs hm hh hd, ← hws]
    refine ⟨fun hall => writeInOrder_all t ws b hall, ?_⟩
    intro pre rv post c hsplit hpre hcode hc
    subst hcode
    rw [hsplit]
    exact writeInOrder_fail t pre rv post b hpre hc
  · intro ws hws
    rw [SetAlarm2_inOrder t b m h d dom hm hh hd, ← hws]
    refine ⟨fun hall => writeInOrder_all t ws b hall, ?_⟩
    intro pre rv post c hsplit hpre hcode hc
    subst hcode
    rw [hsplit]
    exact writeInOrder_fail t pre rv post b hpre hc

/-- Witness of C9 on a transport whose third call fails with code 9:
`DS3231_SetAlarm1(10, 20, 5, 255, 255)` returns 9 after the writes to `0x07`, `0x08`,
`0x09` and issues no write to `0x0A`. -/
theorem C9_alarm_write_order_witness :
    DS3231_SetAlarm1 (failAt 9) (Bus.mk (2, fun _ => 0) []) 10 20 5 255 255
      = (9, Bus.mk (stateAfter (failAt 9) (2, fun _ => 0) [(0x07, 0x10), (0x08, 0x20), (0x09, 0x05)])
          ([] ++ writesOf [(0x07, 0x10), (0x08, 0x20), (0x09, 0x05)])) :=
  ((C9_alarm_write_order (failAt 9) (Bus.mk (2, fun _ => 0) []) 10 20 5 255 255
      (by decide) (by decide) (by decide) (by decide)).1 _ rfl).2
    [(0x07, 0x10), (0x08, 0x20)] (0x09, 0x05) [(0x0A, 0x80)] 9 rfl ⟨rfl, rfl, trivial⟩ rfl
    (by decide)

/-! ## Clearing an alarm flag -/

theorem testBit_land_mod256 (x m i : Nat) :
    ((x &&& m) % 256).testBit i = (decide (i < 8) && (x.testBit i && m.testBit i)) := by
  have h := Nat.testBit_mod_two_pow (x &&& m) 8 i
  rw [Nat.testBit_land] at h
  exact h

theorem clearBit0 (x : Nat) :
    ((x &&& 0b11111110) % 256).testBit 0 = false ∧
    ∀ i, 1 ≤ i → i ≤ 7 → ((x &&& 0b11111110) % 256).testBit i = x.testBit i := by
  refine ⟨?_, ?_⟩
  · rw [testBit_land_mod256]
    have hm : Nat.testBit 0b11111110 0 = false := by decide
    simp [hm]
  · intro i h1 h7
    rw [testBit_land_mod256]
    have hm : Nat.testBit 0b11111110 i = true := by interval_cases i <;> decide
    have hi : i < 8 := by omega
    simp [hm, hi]

theorem clearBit1 (x : Nat) :
    ((x &&& 0b11111101) % 256).testBit 1 = false ∧
    ∀ i, i ≠ 1 → i ≤ 7 → ((x &&& 0b11111101) % 256).testBit i = x.testBit i := by
  refine ⟨?_, ?_⟩
  · rw [testBit_land_mod256]
    have hm : Nat.testBit 0b11111101 1 = false := by decide
    simp [hm]
  · intro i h1 h7
    rw [testBit_land_mod256]
    have hm : Nat.testBit 0b11111101 i = true := by
      interval_cases i <;> first | decide | exact absurd rfl h1
    have hi : i < 8 := by omega
    simp [hm, hi]

/-- After a successful status read of byte `x`, `DS3231_ClearAlarm1Flag` is the single
write of `x & 0b11111110` to the status register. -/
theorem ClearAlarm1Flag_ok {σ : Type} (t : Transport σ) (b : Bus σ) (x : Nat) (st1 : σ)
    (hread : t.I2C_Read_From_Slave b.st DS3231_I2C_ADDRESS STATUS_ADDRESS = (0, x, st1)) :
    DS3231_ClearAlarm1Flag t b
      = writeReg t (Bus.mk st1 (b.log ++ [BusOp.read DS3231_I2C_ADDRESS 0x0F])) 0x0F
          ((x &&& 0b11111110) % 256) := by
  have hread1 : t.I2C_Read_From_Slave b.st DS3231_I2C_ADDRESS 15 = (0, x, st1) := hread
  simp only [DS3231_ClearAlarm1Flag, readReg, STATUS_ADDRESS, hread1]
  split_ifs with h1 h2
  · exact absurd rfl h1
  · rfl
  · exact Prod.ext (not_not.1 h2).symm rfl

/-- After a successful status read of byte `x`, `DS3231_ClearAlarm2Flag` is the single
write of `x & 0b11111101` to the status register. -/
theorem ClearAlarm2Flag_ok {σ : Type} (t : Transport σ) (b : Bus σ) (x : Nat) (st1 : σ)
    (hread : t.I2C_Read_From_Slave b.st DS3231_I2C_ADDRESS STATUS_ADDRESS = (0, x, st1)) :
    DS3231_ClearAlarm2Flag t b
      = writeReg t (Bus.mk st1 (b.log ++ [BusOp.read DS3231_I2C_ADDRESS 0x0F])) 0x0F
          ((x &&& 0b11111101) % 256) := by
  have hread1 : t.I2C_Read_From_Slave b.st DS3231_I2C_ADDRESS 15 = (0, x, st1) := hread
  simp only [DS3231_ClearAlarm2Flag, readReg, STATUS_ADDRESS, hread1]
  split_ifs with h1 h2
  · exact absurd rfl h1
  · rfl
  · exact Prod.ext (not_not.1 h2).symm rfl

/-- C10: when the read of the status register `0x0F` succeeds with byte `x`,
`DS3231_ClearAlarm1Flag` issues exactly that read followed by exactly one write to `0x0F`
of a byte with bit 0 clear that agrees with `x` on bits 1..7, and
`DS3231_ClearAlarm2Flag` one read followed by one write of a byte with bit 1 clear that
agrees with `x` on bit 0 and bits 2..7; the result is the status of the write.  For
`x = 0b00000011` alarm 1 writes `0b00000010`. -/
theorem C10_clear_flag_read_modify_write {σ : Type} (t : Transport σ) (b : Bus σ)
    (x : Nat) (st1 : σ)
    (hread : t.I2C_Read_From_Slave b.st DS3231_I2C_ADDRESS STATUS_ADDRESS = (0, x, st1)) :
    (∃ w, (DS3231_ClearAlarm1Flag t b).2.log
          = b.log ++ [BusOp.read DS3231_I2C_ADDRESS 0x0F, BusOp.write DS3231_I2C_ADDRESS 0x0F w] ∧
        (DS3231_ClearAlarm1Flag t b).1
          = (t.I2C_Write_To_Slave st1 DS3231_I2C_ADDRESS 0x0F w).1 ∧
        w < 256 ∧ w.testBit 0 = false ∧
        (∀ i, 1 ≤ i → i ≤ 7 → w.testBit i = x.testBit i) ∧
        (x = 0b00000011 → w = 0b00000010)) ∧
    (∃ w, (DS3231_ClearAlarm2Flag t b).2.log
          = b.log ++ [BusOp.read DS3231_I2C_ADDRESS 0x0F, BusOp.write DS3231_I2C_ADDRESS 0x0F w] ∧
        (DS3231_ClearAlarm2Flag t b).1
          = (t.I2C_Write_To_Slave st1 DS3231_I2C_ADDRESS 0x0F w).1 ∧
        w < 256 ∧ w.testBit 1 = false ∧
        (∀ i, i ≠ 1 → i ≤ 7 → w.testBit i = x.testBit i)) := by
  rw [ClearAlarm1Flag_ok t b x st1 hread, ClearAlarm2Flag_ok t b x st1 hread]
  constructor
  · refine ⟨(x &&& 0b11111110) % 256, ?_, rfl, Nat.mod_lt _ (by norm_num), (clearBit0 x).1,
      (clearBit0 x).2, ?_⟩
    · simp [writeReg]
    · intro hx
      subst hx
      decide
  · refine ⟨(x &&& 0b11111101) % 256, ?_, rfl, Nat.mod_lt _ (by norm_num), (clearBit1 x).1,
      (clearBit1 x).2⟩
    simp [writeReg]

/-- Witness of C10 on the register-file transport with the status byte `0b00000011`:
`DS3231_ClearAlarm1Flag` reads `0x0F` once and writes `0b00000010` back. -/
theorem C10_clear_flag_read_modify_write_witness :
    ∃ w, (DS3231_ClearAlarm1Flag regFile (Bus.mk (fun _ => 0b00000011) [])).2.log
          = [] ++ [BusOp.read DS3231_I2C_ADDRESS 0x0F, BusOp.write DS3231_I2C_ADDRESS 0x0F w] ∧
        w = 0b00000010 := by
  obtain ⟨w, h1, -, -, -, -, h6⟩ :=
    (C10_clear_flag_read_modify_write regFile (Bus.mk (fun _ => 0b00000011) [])
      0b00000011 (fun _ => 0b00000011) rfl).1
  exact ⟨w, h1, h6 rfl⟩

/-! ## Reading an alarm flag -/

theorem and_one_eq_one_iff (x : Nat) : x &&& 0x01 = 0x01 ↔ x.testBit 0 = true := by
  rw [Nat.and_one_is_mod, Nat.testBit_zero]
  simp

theorem and_two_eq_two_iff (x : Nat) : x &&& 0x02 = 0x02 ↔ x.testBit 1 = true := by
  constructor
  · intro h
    have h1 : (x &&& 0x02).testBit 1 = true := by rw [h]; decide
    rw [Nat.testBit_land] at h1
    simp only [Bool.and_eq_true] at h1
    exact h1.1
  · intro h
    apply Nat.eq_of_testBit_eq
    intro i
    rw [Nat.testBit_land]
    by_cases hi : i = 1
    · subst hi
      rw [h]
      decide
    · have h2 : Nat.testBit 0x02 i = false := by
        have e : (0x02 : Nat) = 2 ^ 1 := rfl
        rw [e, Nat.testBit_two_pow]
        simp [Ne.symm hi]
      rw [h2]
      simp

/-- C11: on every transport `DS3231_ReadAlarm1Flag` and `DS3231_ReadAlarm2Flag` issue the
single read of the status register `0x0F` and no write.  When that read succeeds with
byte `x`, alarm 1 returns 1 if bit 0 of `x` is set and 0 otherwise, alarm 2 returns 1 if
bit 1 of `x` is set and 0 otherwise, whatever the other bits are.  When the read fails,
the result is at least 2, so it is neither of the flag values 0 and 1. -/
theorem C11_read_flag {σ : Type} (t : Transport σ) (b : Bus σ) :
    ((DS3231_ReadAlarm1Flag t b).2.log = b.log ++ readsOf [0x0F] ∧
      (DS3231_ReadAlarm2Flag t b).2.log = b.log ++ readsOf [0x0F]) ∧
    (readCode t b.st 0x0F = 0 →
      (DS3231_ReadAlarm1Flag t b).1
        = (if (t.I2C_Read_From_Slave b.st DS3231_I2C_ADDRESS 0x0F).2.1.testBit 0 = true
            then 1 else 0) ∧
      (DS3231_ReadAlarm2Flag t b).1
        = (if (t.I2C_Read_From_Slave b.st DS3231_I2C_ADDRESS 0x0F).2.1.testBit 1 = true
            then 1 else 0)) ∧
    (readCode t b.st 0x0F ≠ 0 →
      2 ≤ (DS3231_ReadAlarm1Flag t b).1 ∧ 2 ≤ (DS3231_ReadAlarm2Flag t b).1) := by
  refine ⟨⟨?_, ?_⟩, ?_, ?_⟩
  · simp only [DS3231_ReadAlarm1Flag, readReg, readsOf, STATUS_ADDRESS]
    split_ifs <;> rfl
  · simp only [DS3231_ReadAlarm2Flag, readReg, readsOf, STATUS_ADDRESS]
    split_ifs <;> rfl
  · intro h0
    have h : (t.I2C_Read_From_Slave b.st DS3231_I2C_ADDRESS 15).1 = 0 := h0
    have n1 : ¬ ((0 : Nat) = 1) := by decide
    constructor
    · simp only [DS3231_ReadAlarm1Flag, readReg, STATUS_ADDRESS, h, n1, if_false, ne_eq,
        not_true_eq_false, and_one_eq_one_iff]
      split_ifs <;> rfl
    · simp only [DS3231_ReadAlarm2Flag, readReg, STATUS_ADDRESS, h, n1, if_false, ne_eq,
        not_true_eq_false, and_two_eq_two_iff]
      split_ifs <;> rfl
  · intro hne
    have h : (t.I2C_Read_From_Slave b.st DS3231_I2C_ADDRESS 15).1 ≠ 0 := hne
    constructor
    · simp only [DS3231_ReadAlarm1Flag, readReg, STATUS_ADDRESS]
      split_ifs with h1
      · exact le_refl 2
      · show 2 ≤ (t.I2C_Read_From_Slave b.st DS3231_I2C_ADDRESS 15).1
        omega
    · simp only [DS3231_ReadAlarm2Flag, readReg, STATUS_ADDRESS]
      split_ifs with h1
      · exact le_refl 2
      · show 2 ≤ (t.I2C_Read_From_Slave b.st DS3231_I2C_ADDRESS 15).1
        omega

/-- Witness of C11 on the register file holding the status byte `0b10001101` (bit 0 set,
bit 1 clear): alarm 1 reads 1, alarm 2 reads 0; and on a transport whose first call fails
with code 32 both functions return 32. -/
theorem C11_read_flag_witness :
    ((DS3231_ReadAlarm1Flag regFile (Bus.mk (fun _ => 0b10001101) [])).1 = 1 ∧
      (DS3231_ReadAlarm2Flag regFile (Bus.mk (fun _ => 0b10001101) [])).1 = 0) ∧
    (2 ≤ (DS3231_ReadAlarm1Flag (failAt 32) (Bus.mk (0, fun _ => 0) [])).1 ∧
      2 ≤ (DS3231_ReadAlarm2Flag (failAt 32) (Bus.mk (0, fun _ => 0) [])).1) :=
  ⟨(C11_read_flag regFile (Bus.mk (fun _ => 0b10001101) [])).2.1 rfl,
    (C11_read_flag (failAt 32) (Bus.mk (0, fun _ => 0) [])).2.2 (by decide)⟩

/-- Counterexample to C19: when the status read fails with the timeout code 1,
`DS3231_ReadAlarm1Flag` and `DS3231_ReadAlarm2Flag` return 2, not 1. -/
theorem C19_counterexample :
    readCode (failAt 1) (0, fun _ => 0) 0x0F = 1 ∧
    (DS3231_ReadAlarm1Flag (failAt 1) (Bus.mk (0, fun _ => 0) [])).1 = 2 ∧
    (DS3231_ReadAlarm2Flag (failAt 1) (Bus.mk (0, fun _ => 0) [])).1 = 2 := by
  refine ⟨rfl, rfl, rfl⟩

/-- C19 (amended): when the read of the status register fails with a transport code
c ≥ 2, `DS3231_ReadAlarm1Flag` and `DS3231_ReadAlarm2Flag` return exactly c; the timeout
code 1 is returned as 2, because 1 is the value that reports a set flag. -/
theorem C19_read_flag_failure_code {σ : Type} (t : Transport σ) (b : Bus σ) (c : Nat)
    (hc : readCode t b.st 0x0F = c) (hne : c ≠ 0) :
    (DS3231_ReadAlarm1Flag t b).1 = (if c = 1 then 2 else c) ∧
    (DS3231_ReadAlarm2Flag t b).1 = (if c = 1 then 2 else c) := by
  have h : (t.I2C_Read_From_Slave b.st DS3231_I2C_ADDRESS 15).1 = c := hc
  constructor
  · simp only [DS3231_ReadAlarm1Flag, readReg, STATUS_ADDRESS, h]
    split_ifs <;> rfl
  · simp only [DS3231_ReadAlarm2Flag, readReg, STATUS_ADDRESS, h]
    split_ifs <;> rfl

/-- Witness of C19 (amended) on a transport whose first call fails with code 32, and on
one whose first call fails with the timeout code 1. -/
theorem C19_read_flag_failure_code_witness :
    ((DS3231_ReadAlarm1Flag (failAt 32) (Bus.mk (0, fun _ => 0) [])).1 = 32 ∧
      (DS3231_ReadAlarm2Flag (failAt 32) (Bus.mk (0, fun _ => 0) [])).1 = 32) ∧
    ((DS3231_ReadAlarm1Flag (failAt 1) (Bus.mk (0, fun _ => 0) [])).1 = 2 ∧
      (DS3231_ReadAlarm2Flag (failAt 1) (Bus.mk (0, fun _ => 0) [])).1 = 2) :=
  ⟨C19_read_flag_failure_code (failAt 32) (Bus.mk (0, fun _ => 0) []) 32 rfl (by decide),
    C19_read_flag_failure_code (failAt 1) (Bus.mk (0, fun _ => 0) []) 1 rfl (by decide)⟩

/-! ## Failure of a transport call -/

/-- When every read succeeds, `readInOrder` issues all of them and returns `0`. -/
theorem readInOrder_all {σ : Type} (t : Transport σ) (regs : List Nat) (b : Bus σ)
    (h : allReadsSucceed t b.st regs) :
    readInOrder t b regs
      = (0, Bus.mk (stateAfterReads t b.st regs) (b.log ++ readsOf regs)) := by
  induction regs generalizing b with
  | nil => simp [readInOrder, stateAfterReads, readsOf]
  | cons reg regs ih =>
    obtain ⟨h0, h1⟩ := h
    have hc : (readReg t b reg).1 = 0 := h0
    rw [readInOrder, if_neg (by rw [hc]; exact fun hne => hne rfl), ih _ h1]
    simp [readReg, stateAfterReads, readsOf]

/-- When the reads of `pre` succeed and the next read, of `reg`, fails, `readInOrder`
returns the failing code after issuing the reads of `pre` and `reg` and nothing else. -/
theorem readInOrder_fail {σ : Type} (t : Transport σ) (pre : List Nat) (reg : Nat)
    (post : List Nat) (b : Bus σ)
    (h : allReadsSucceed t b.st pre) (hc : readCode t (stateAfterReads t b.st pre) reg ≠ 0) :
    readInOrder t b (pre ++ reg :: post)
      = (readCode t (stateAfterReads t b.st pre) reg,
          Bus.mk (stateAfterReads t b.st (pre ++ [reg])) (b.log ++ readsOf (pre ++ [reg]))) := by
  induction pre generalizing b with
  | nil =>
    have hc1 : (readReg t b reg).1 ≠ 0 := hc
    rw [List.nil_append, readInOrder, if_pos hc1]
    simp [readReg, stateAfterReads, readsOf, readCode]
  | cons x pre ih =>
    obtain ⟨h0, h1⟩ := h
    have hx : (readReg t b x).1 = 0 := h0
    rw [List.cons_append, readInOrder, if_neg (by rw [hx]; exact fun hne => hne rfl),
      ih _ h1 hc]
    simp [readReg, stateAfterReads, readsOf]

/-- Status and bus of `DS3231_ReadTime` are those of reading the requested registers in
the order `0x00`, `0x01`, `0x02`. -/
theorem ReadTime_inOrder {σ : Type} (t : Transport σ) (b : Bus σ) (ps pm ph : Option Nat) :
    ((DS3231_ReadTime t b ps pm ph).ret, (DS3231_ReadTime t b ps pm ph).bus)
      = readInOrder t b (requested ps 0x00 ++ requested pm 0x01 ++ requested ph 0x02) := by
  cases ps <;> cases pm <;> cases ph <;>
    simp only [DS3231_ReadTime, ReadTime_minutes, ReadTime_hours, requested, readInOrder,
      SECONDS_ADDRESS, MINUTES_ADDRESS, HOURS_ADDRESS, Option.isSome_some, Option.isSome_none,
      if_true, if_false, List.nil_append, List.cons_append, List.append_nil, Bool.false_eq_true] <;>
    split_ifs <;> rfl

/-- Status and bus of `DS3231_ReadDate` are those of reading the requested registers in
the order `0x04`, `0x05`, `0x06`. -/
theorem ReadDate_inOrder {σ : Type} (t : Transport σ) (b : Bus σ) (pd pm py : Option Nat) :
    ((DS3231_ReadDate t b pd pm py).ret, (DS3231_ReadDate t b pd pm py).bus)
      = readInOrder t b (requested pd 0x04 ++ requested pm 0x05 ++ requested py 0x06) := by
  cases pd <;> cases pm <;> cases py <;>
    simp only [DS3231_ReadDate, ReadDate_month, ReadDate_year, requested, readInOrder,
      DATE_ADDRESS, MONTH_ADDRESS, YEAR_ADDRESS, Option.isSome_some, Option.isSome_none,
      if_true, if_false, List.nil_append, List.cons_append, List.append_nil, Bool.false_eq_true] <;>
    split_ifs <;> rfl

/-- `DS3231_SetTime` is the in-order sequence of the writes it attempts, followed by the
range error of the first violated field when none of those writes failed. -/
theorem SetTime_checked {σ : Type} (t : Transport σ) (b : Bus σ) (x y z : Nat) :
    DS3231_SetTime t b x y z
      = (if (writeInOrder t b (checkedWrites [(0x00, 59, x), (0x01, 59, y), (0x02, 23, z)])).1 ≠ 0
          then writeInOrder t b (checkedWrites [(0x00, 59, x), (0x01, 59, y), (0x02, 23, z)])
          else (if x > 59 then 2 else if y > 59 then 3 else if z > 23 then 4 else 0,
            (writeInOrder t b
              (checkedWrites [(0x00, 59, x), (0x01, 59, y), (0x02, 23, z)])).2)) := by
  simp only [DS3231_SetTime, checkedWrites, SECONDS_ADDRESS, MINUTES_ADDRESS, HOURS_ADDRESS]
  by_cases hx : x > 59
  · simp [hx, writeInOrder]
  · by_cases c1 : (writeReg t b 0 (encodeBcd x)).1 ≠ 0
    · simp [hx, writeInOrder, c1]
    · by_cases hy : y > 59
      · simp [hx, hy, writeInOrder, c1]
      · by_cases c2 : (writeReg t (writeReg t b 0 (encodeBcd x)).2 1 (encodeBcd y)).1 ≠ 0
        · simp [hx, hy, writeInOrder, c1, c2]
        · by_cases hz : z > 23
          · simp [hx, hy, hz, writeInOrder, c1, c2]
          · by_cases c3 : (writeReg t (writeReg t (writeReg t b 0 (encodeBcd x)).2 1
                (encodeBcd y)).2 2 (encodeBcd z)).1 ≠ 0
            · simp [hx, hy, hz, writeInOrder, c1, c2, c3]
            · simp [hx, hy, hz, writeInOrder, c1, c2, c3]

/-- `DS3231_SetDate` is the in-order sequence of the writes it attempts, followed by the
range error of the first violated field when none of those writes failed. -/
theorem SetDate_checked {σ : Type} (t : Transport σ) (b : Bus σ) (x y z : Nat) :
    DS3231_SetDate t b x y z
      = (if (writeInOrder t b (checkedWrites [(0x04, 31, x), (0x05, 12, y), (0x06, 99, z)])).1 ≠ 0
          then writeInOrder t b (checkedWrites [(0x04, 31, x), (0x05, 12, y), (0x06, 99, z)])
          else (if x > 31 then 2 else if y > 12 then 3 else if z > 99 then 4 else 0,
            (writeInOrder t b
              (checkedWrites [(0x04, 31, x), (0x05, 12, y), (0x06, 99, z)])).2)) := by
  simp only [DS3231_SetDate, checkedWrites, DATE_ADDRESS, MONTH_ADDRESS, YEAR_ADDRESS]
  by_cases hx : x > 31
  · simp [hx, writeInOrder]
  · by_cases c1 : (writeReg t b 4 (encodeBcd x)).1 ≠ 0
    · simp [hx, writeInOrder, c1]
    · by_cases hy : y > 12
      · simp [hx, hy, writeInOrder, c1]
      · by_cases c2 : (writeReg t (writeReg t b 4 (encodeBcd x)).2 5 (encodeBcd y)).1 ≠ 0
        · simp [hx, hy, writeInOrder, c1, c2]
        · by_cases hz : z > 99
          · simp [hx, hy, hz, writeInOrder, c1, c2]
          · by_cases c3 : (writeReg t (writeReg t (writeReg t b 4 (encodeBcd x)).2 5
                (encodeBcd y)).2 6 (encodeBcd z)).1 ≠ 0
            · simp [hx, hy, hz, writeInOrder, c1, c2, c3]
            · simp [hx, hy, hz, writeInOrder, c1, c2, c3]

/-- A failing write among the writes a setter attempts decides the setter's result. -/
theorem checked_fail {σ : Type} (t : Transport σ) (b : Bus σ) (ws : List (Nat × Nat))
    (rc : Nat) (pre : List (Nat × Nat)) (rv : Nat × Nat) (post : List (Nat × Nat)) (c : Nat)
    (hsplit : ws = pre ++ rv :: post) (hpre : allSucceed t b.st pre)
    (hcode : writeCode t (stateAfter t b.st pre) rv = c) (hc : c ≠ 0) :
    (if (writeInOrder t b ws).1 ≠ 0 then writeInOrder t b ws
      else (rc, (writeInOrder t b ws).2))
      = (c, Bus.mk (stateAfter t b.st (pre ++ [rv])) (b.log ++ writesOf (pre ++ [rv]))) := by
  subst hcode
  rw [hsplit, writeInOrder_fail t pre rv post b hpre hc, if_pos hc]
/-- C12: if a transport call made by `DS3231_SetTime`, `DS3231_SetDate`, `DS3231_ReadTime`,
`DS3231_ReadDate`, `DS3231_ClearAlarm1Flag` or `DS3231_ClearAlarm2Flag` returns a nonzero
code c (the calls before it having returned 0), the function returns exactly c and its
traffic ends with the failing call: the bus on return is the bus right after that call.
For the setters the calls are the writes of the fields before the first field above its
bound; for the readers they are the reads of the requested registers; for the Clear
functions a failed status read is followed by no write. -/
theorem C12_transport_failure_propagates {σ : Type} (t : Transport σ) (b : Bus σ)
    (c : Nat) (hc : c ≠ 0) :
    (∀ x y z pre rv post,
      checkedWrites [(0x00, 59, x), (0x01, 59, y), (0x02, 23, z)] = pre ++ rv :: post →
      allSucceed t b.st pre → writeCode t (stateAfter t b.st pre) rv = c →
      DS3231_SetTime t b x y z
        = (c, Bus.mk (stateAfter t b.st (pre ++ [rv])) (b.log ++ writesOf (pre ++ [rv])))) ∧
    (∀ x y z pre rv post,
      checkedWrites [(0x04, 31, x), (0x05, 12, y), (0x06, 99, z)] = pre ++ rv :: post →
      allSucceed t b.st pre → writeCode t (stateAfter t b.st pre) rv = c →
      DS3231_SetDate t b x y z
        = (c, Bus.mk (stateAfter t b.st (pre ++ [rv])) (b.log ++ writesOf (pre ++ [rv])))) ∧
    (∀ ps pm ph pre reg post,
      requested ps 0x00 ++ requested pm 0x01 ++ requested ph 0x02 = pre ++ reg :: post →
      allReadsSucceed t b.st pre → readCode t (stateAfterReads t b.st pre) reg = c →
      (DS3231_ReadTime t b ps pm ph).ret = c ∧
      (DS3231_ReadTime t b ps pm ph).bus
        = Bus.mk (stateAfterReads t b.st (pre ++ [reg])) (b.log ++ readsOf (pre ++ [reg]))) ∧
    (∀ pd pm py pre reg post,
      requested pd 0x04 ++ requested pm 0x05 ++ requested py 0x06 = pre ++ reg :: post →
      allReadsSucceed t b.st pre → readCode t (stateAfterReads t b.st pre) reg = c →
      (DS3231_ReadDate t b pd pm py).ret = c ∧
      (DS3231_ReadDate t b pd pm py).bus
        = Bus.mk (stateAfterReads t b.st (pre ++ [reg])) (b.log ++ readsOf (pre ++ [reg]))) ∧
    (readCode t b.st 0x0F = c →
      DS3231_ClearAlarm1Flag t b
        = (c, Bus.mk (stateAfterReads t b.st [0x0F]) (b.log ++ readsOf [0x0F])) ∧
      DS3231_ClearAlarm2Flag t b
        = (c, Bus.mk (stateAfterReads t b.st [0x0F]) (b.log ++ readsOf [0x0F]))) ∧
    (∀ x st1, t.I2C_Read_From_Slave b.st DS3231_I2C_ADDRESS STATUS_ADDRESS = (0, x, st1) →
      (writeCode t st1 (0x0F, (x &&& 0b11111110) % 256) = c →
        DS3231_ClearAlarm1Flag t b
          = (c, Bus.mk (stateAfter t st1 [(0x0F, (x &&& 0b11111110) % 256)])
              (b.log ++ readsOf [0x0F] ++ writesOf [(0x0F, (x &&& 0b11111110) % 256)]))) ∧
      (writeCode t st1 (0x0F, (x &&& 0b11111101) % 256) = c →
        DS3231_ClearAlarm2Flag t b
          = (c, Bus.mk (stateAfter t st1 [(0x0F, (x &&& 0b11111101) % 256)])
              (b.log ++ readsOf [0x0F] ++ writesOf [(0x0F, (x &&& 0b11111101) % 256)])))) := by
  refine ⟨?_, ?_, ?_, ?_, ?_, ?_⟩
  · intro x y z pre rv post hsplit hpre hcode
    rw [SetTime_checked]
    exact checked_fail t b _ _ pre rv post c hsplit hpre hcode hc
  · intro x y z pre rv post hsplit hpre hcode
    rw [SetDate_checked]
    exact checked_fail t b _ _ pre rv post c hsplit hpre hcode hc
  · intro ps pm ph pre reg post hsplit hpre hcode
    have h := ReadTime_inOrder t b ps pm ph
    subst hcode
    rw [hsplit, readInOrder_fail t pre reg post b hpre hc] at h
    exact ⟨congrArg Prod.fst h, congrArg Prod.snd h⟩
  · intro pd pm py pre reg post hsplit hpre hcode
    have h := ReadDate_inOrder t b pd pm py
    subst hcode
    rw [hsplit, readInOrder_fail t pre reg post b hpre hc] at h
    exact ⟨congrArg Prod.fst h, congrArg Prod.snd h⟩
  · intro hcode
    have h : (t.I2C_Read_From_Slave b.st DS3231_I2C_ADDRESS 15).1 = c := hcode
    have hne : (t.I2C_Read_From_Slave b.st DS3231_I2C_ADDRESS 15).1 ≠ 0 := by rw [h]; exact hc
    constructor
    · simp only [DS3231_ClearAlarm1Flag, readReg, STATUS_ADDRESS, h, readsOf,
        stateAfterReads, List.map_cons, List.map_nil]
      rw [if_pos hc]
    · simp only [DS3231_ClearAlarm2Flag, readReg, STATUS_ADDRESS, h, readsOf,
        stateAfterReads, List.map_cons, List.map_nil]
      rw [if_pos hc]
  · intro x st1 hread
    constructor
    · intro hcode
      have h : (t.I2C_Write_To_Slave st1 DS3231_I2C_ADDRESS 15 ((x &&& 254) % 256)).1 = c :=
        hcode
      rw [ClearAlarm1Flag_ok t b x st1 hread]
      simp only [writeReg, h, readsOf, writesOf, stateAfter, List.map_cons, List.map_nil]
    · intro hcode
      have h : (t.I2C_Write_To_Slave st1 DS3231_I2C_ADDRESS 15 ((x &&& 253) % 256)).1 = c :=
        hcode
      rw [ClearAlarm2Flag_ok t b x st1 hread]
      simp only [writeReg, h, readsOf, writesOf, stateAfter, List.map_cons, List.map_nil]

/-- Witness of C12 on transports that fail with code 7: the second write of
`DS3231_SetTime(1, 2, 3)` fails, and the status read of `DS3231_ClearAlarm1Flag` fails. -/
theorem C12_transport_failure_propagates_witness :
    (DS3231_SetTime (failAt 7) (Bus.mk (1, fun _ => 0) []) 1 2 3).1 = 7 ∧
    (DS3231_SetTime (failAt 7) (Bus.mk (1, fun _ => 0) []) 1 2 3).2.log
      = [BusOp.write 0xD0 0x00 0x01, BusOp.write 0xD0 0x01 0x02] ∧
    (DS3231_ClearAlarm1Flag (failAt 7) (Bus.mk (0, fun _ => 0) [])).1 = 7 ∧
    (DS3231_ClearAlarm1Flag (failAt 7) (Bus.mk (0, fun _ => 0) [])).2.log
      = [BusOp.read 0xD0 0x0F] := by
  have h1 := (C12_transport_failure_propagates (failAt 7) (Bus.mk (1, fun _ => 0) []) 7
    (by decide)).1 1 2 3 [(0x00, 0x01)] (0x01, 0x02) [(0x02, 0x03)] rfl ⟨rfl, trivial⟩ rfl
  have h2 := ((C12_transport_failure_propagates (failAt 7) (Bus.mk (0, fun _ => 0) []) 7
    (by decide)).2.2.2.2.1 rfl).1
  exact ⟨by rw [h1], by rw [h1]; rfl, by rw [h2], by rw [h2]; rfl⟩

/-! ## Which registers a read call touches -/

theorem allReadsSucceed_of_readsSucceed {σ : Type} (t : Transport σ) (hr : ReadsSucceed t)
    (regs : List Nat) (st : σ) : allReadsSucceed t st regs := by
  induction regs generalizing st with
  | nil => trivial
  | cons reg regs ih => exact ⟨hr st _ reg, ih _⟩

/-- C13: over a transport whose reads succeed, for every choice of null and non-null
output pointers `DS3231_ReadTime` returns 0 and its traffic is exactly one read per
requested field, in the order seconds `0x00`, minutes `0x01`, hours `0x02`; a null pointer
contributes no read, and with all three null the bus is untouched.  `DS3231_ReadDate` does
the same over `0x04`, `0x05`, `0x06`. -/
theorem C13_reads_requested_registers_only {σ : Type} (t : Transport σ)
    (hr : ReadsSucceed t) (b : Bus σ) (p1 p2 p3 : Option Nat) :
    ((∀ reg, requested none reg = []) ∧ (∀ v reg, requested (some v) reg = [reg])) ∧
    ((DS3231_ReadTime t b p1 p2 p3).ret = 0 ∧
      (DS3231_ReadTime t b p1 p2 p3).bus.log
        = b.log ++ readsOf (requested p1 0x00 ++ requested p2 0x01 ++ requested p3 0x02)) ∧
    ((DS3231_ReadTime t b none none none).ret = 0 ∧
      (DS3231_ReadTime t b none none none).bus = b) ∧
    ((DS3231_ReadDate t b p1 p2 p3).ret = 0 ∧
      (DS3231_ReadDate t b p1 p2 p3).bus.log
        = b.log ++ readsOf (requested p1 0x04 ++ requested p2 0x05 ++ requested p3 0x06)) ∧
    ((DS3231_ReadDate t b none none none).ret = 0 ∧
      (DS3231_ReadDate t b none none none).bus = b) := by
  refine ⟨⟨fun _ => rfl, fun _ _ => rfl⟩, ?_, ⟨rfl, rfl⟩, ?_, ⟨rfl, rfl⟩⟩
  · have h := ReadTime_inOrder t b p1 p2 p3
    rw [readInOrder_all t _ b (allReadsSucceed_of_readsSucceed t hr _ _)] at h
    exact ⟨congrArg Prod.fst h, congrArg (fun r => r.2.log) h⟩
  · have h := ReadDate_inOrder t b p1 p2 p3
    rw [readInOrder_all t _ b (allReadsSucceed_of_readsSucceed t hr _ _)] at h
    exact ⟨congrArg Prod.fst h, congrArg (fun r => r.2.log) h⟩

/-- Witness of C13 on the register-file transport: asking for seconds and hours reads
`0x00` then `0x02`; asking for the month alone reads `0x05`. -/
theorem C13_reads_requested_registers_only_witness :
    ReadsSucceed regFile ∧
    (DS3231_ReadTime regFile idleBus (some 9) none (some 9)).bus.log
      = idleBus.log ++ readsOf [0x00, 0x02] ∧
    (DS3231_ReadDate regFile idleBus none (some 9) none).bus.log
      = idleBus.log ++ readsOf [0x05] :=
  ⟨regFile_readsSucceed,
    (C13_reads_requested_registers_only regFile regFile_readsSucceed idleBus
      (some 9) none (some 9)).2.1.2,
    (C13_reads_requested_registers_only regFile regFile_readsSucceed idleBus
      none (some 9) none).2.2.2.1.2⟩

/-! ## Range of the decoded time -/

theorem decodeBcd_le (x : Nat) :
    decodeBcd 0x70 x ≤ 85 ∧ decodeBcd 0x30 x ≤ 45 := by
  have h1 : x &&& 0x0F ≤ 0x0F := Nat.and_le_right
  have h2 : x &&& 0x70 ≤ 0x70 := Nat.and_le_right
  have h3 : x &&& 0x30 ≤ 0x30 := Nat.and_le_right
  have e2 : (x &&& 0x70) >>> 4 ≤ 7 := by
    rw [Nat.shiftRight_eq_div_pow]
    omega
  have e3 : (x &&& 0x30) >>> 4 ≤ 3 := by
    rw [Nat.shiftRight_eq_div_pow]
    omega
  constructor
  · exact le_trans (Nat.mod_le _ _) (by omega)
  · exact le_trans (Nat.mod_le _ _) (by omega)

/-- Over a transport whose reads succeed, `DS3231_ReadTime` with three non-null pointers
stores the decodings of the three bytes it was given. -/
theorem ReadTime_stores_decodings {σ : Type} (t : Transport σ) (hr : ReadsSucceed t)
    (b : Bus σ) (p q r : Nat) :
    ∃ x y z,
      (DS3231_ReadTime t b (some p) (some q) (some r)).out1 = some (decodeBcd 0x70 x) ∧
      (DS3231_ReadTime t b (some p) (some q) (some r)).out2 = some (decodeBcd 0x70 y) ∧
      (DS3231_ReadTime t b (some p) (some q) (some r)).out3 = some (decodeBcd 0x30 z) := by
  have hr1 : ∀ st dev reg, (t.I2C_Read_From_Slave st dev reg).1 = 0 := hr
  refine ⟨(t.I2C_Read_From_Slave b.st DS3231_I2C_ADDRESS 0x00).2.1,
    (t.I2C_Read_From_Slave (t.I2C_Read_From_Slave b.st DS3231_I2C_ADDRESS 0x00).2.2
      DS3231_I2C_ADDRESS 0x01).2.1,
    (t.I2C_Read_From_Slave (t.I2C_Read_From_Slave
      (t.I2C_Read_From_Slave b.st DS3231_I2C_ADDRESS 0x00).2.2
      DS3231_I2C_ADDRESS 0x01).2.2 DS3231_I2C_ADDRESS 0x02).2.1, ?_, ?_, ?_⟩ <;>
    simp [DS3231_ReadTime, ReadTime_minutes, ReadTime_hours, readReg, hr1, SECONDS_ADDRESS,
      MINUTES_ADDRESS, HOURS_ADDRESS]

/-- Counterexample to C14: with the byte `0x7F` in the seconds, minutes and hours
registers `DS3231_ReadTime` stores seconds 85, minutes 85 and hours 45. -/
theorem C14_counterexample :
    ReadsSucceed regFile ∧
    (DS3231_ReadTime regFile (Bus.mk (fun _ => 0x7F) []) (some 0) (some 0) (some 0)).ret = 0 ∧
    (DS3231_ReadTime regFile (Bus.mk (fun _ => 0x7F) []) (some 0) (some 0) (some 0)).out1
      = some 85 ∧
    (DS3231_ReadTime regFile (Bus.mk (fun _ => 0x7F) []) (some 0) (some 0) (some 0)).out2
      = some 85 ∧
    (DS3231_ReadTime regFile (Bus.mk (fun _ => 0x7F) []) (some 0) (some 0) (some 0)).out3
      = some 45 ∧
    ¬ (85 ≤ 59) ∧ ¬ (45 ≤ 23) := by
  refine ⟨regFile_readsSucceed, rfl, rfl, rfl, rfl, by decide, by decide⟩

/-- C14 (amended): `DS3231_ReadTime` decodes whatever byte the transport returns, without
a range check.  Over a transport whose reads succeed, the stored seconds and minutes are
at most 85 and the stored hours at most 45, for every byte returned; they are within the
bounds 59, 59, 23 when the registers hold the BCD encodings of in-range values, in which
case the stored values are those values. -/
theorem C14_decoded_time_bounds {σ : Type} (t : Transport σ) (hr : ReadsSucceed t)
    (b : Bus σ) (p q r : Nat) :
    (∃ s m h,
      (DS3231_ReadTime t b (some p) (some q) (some r)).out1 = some s ∧
      (DS3231_ReadTime t b (some p) (some q) (some r)).out2 = some m ∧
      (DS3231_ReadTime t b (some p) (some q) (some r)).out3 = some h ∧
      s ≤ 85 ∧ m ≤ 85 ∧ h ≤ 45) ∧
    (∀ (mem : σ → Nat → Nat) (v1 v2 v3 : Nat), ReadsLastWritten t mem →
      v1 ≤ 59 → v2 ≤ 59 → v3 ≤ 23 →
      mem b.st 0x00 = encodeBcd v1 → mem b.st 0x01 = encodeBcd v2 →
      mem b.st 0x02 = encodeBcd v3 →
      (DS3231_ReadTime t b (some p) (some q) (some r)).out1 = some v1 ∧
      (DS3231_ReadTime t b (some p) (some q) (some r)).out2 = some v2 ∧
      (DS3231_ReadTime t b (some p) (some q) (some r)).out3 = some v3) := by
  constructor
  · obtain ⟨x, y, z, h1, h2, h3⟩ := ReadTime_stores_decodings t hr b p q r
    exact ⟨_, _, _, h1, h2, h3, (decodeBcd_le x).1, (decodeBcd_le y).1, (decodeBcd_le z).2⟩
  · intro mem v1 v2 v3 hm b1 b2 b3 e1 e2 e3
    obtain ⟨-, r1, r2, r3⟩ := ReadTime_mem t mem hr hm b p q r
    refine ⟨?_, ?_, ?_⟩
    · rw [r1, e1, decode70_encode v1 b1]
    · rw [r2, e2, decode70_encode v2 b2]
    · rw [r3, e3, decode30_encode_hours v3 b3]

/-- Witness of C14 (amended) on the register file holding `0x59` in every register: the
stored seconds are 59. -/
theorem C14_decoded_time_bounds_witness :
    ReadsSucceed regFile ∧
    ∃ s m h,
      (DS3231_ReadTime regFile (Bus.mk (fun _ => 0x59) []) (some 0) (some 0) (some 0)).out1
        = some s ∧
      (DS3231_ReadTime regFile (Bus.mk (fun _ => 0x59) []) (some 0) (some 0) (some 0)).out2
        = some m ∧
      (DS3231_ReadTime regFile (Bus.mk (fun _ => 0x59) []) (some 0) (some 0) (some 0)).out3
        = some h ∧
      s ≤ 85 ∧ m ≤ 85 ∧ h ≤ 45 :=
  ⟨regFile_readsSucceed,
    (C14_decoded_time_bounds regFile regFile_readsSucceed (Bus.mk (fun _ => 0x59) [])
      0 0 0).1⟩

/-! ## The control byte -/

theorem ctrl_dat_bits :
    ∀ eo ∈ [DISABLE_OSC, ENABLE_OSC], ∀ sq ∈ [SQUAREWAVE_FUNC, INTERRUPT_FUNC],
    ∀ bb ∈ [BBSW_DISABLE, BBSW_ENABLE],
    ∀ f ∈ [SWFREQ_1HZ, SWFREQ_1024HZ, SWFREQ_4096HZ, SWFREQ_8192HZ],
    ∀ a1 ∈ [ALARM1_INT_DISABLE, ALARM1_INT_ENABLE],
    ∀ a2 ∈ [ALARM2_INT_DISABLE, ALARM2_INT_ENABLE],
      ctrl_dat (DS3231_Init_Struct.mk eo sq bb f a1 a2) = eo ||| sq ||| bb ||| f ||| a1 ||| a2 ∧
      ((ctrl_dat (DS3231_Init_Struct.mk eo sq bb f a1 a2)).testBit 7 = true ↔ eo = DISABLE_OSC) ∧
      ((ctrl_dat (DS3231_Init_Struct.mk eo sq bb f a1 a2)).testBit 6 = true ↔ bb = BBSW_ENABLE) ∧
      (ctrl_dat (DS3231_Init_Struct.mk eo sq bb f a1 a2)).testBit 5 = false ∧
      ctrl_dat (DS3231_Init_Struct.mk eo sq bb f a1 a2) &&& 0b00011000 = f ∧
      ((ctrl_dat (DS3231_Init_Struct.mk eo sq bb f a1 a2)).testBit 4 = true
        ↔ f = SWFREQ_4096HZ ∨ f = SWFREQ_8192HZ) ∧
      ((ctrl_dat (DS3231_Init_Struct.mk eo sq bb f a1 a2)).testBit 3 = true
        ↔ f = SWFREQ_1024HZ ∨ f = SWFREQ_8192HZ) ∧
      ((ctrl_dat (DS3231_Init_Struct.mk eo sq bb f a1 a2)).testBit 2 = true
        ↔ sq = INTERRUPT_FUNC) ∧
      ((ctrl_dat (DS3231_Init_Struct.mk eo sq bb f a1 a2)).testBit 1 = true
        ↔ a2 = ALARM2_INT_ENABLE) ∧
      ((ctrl_dat (DS3231_Init_Struct.mk eo sq bb f a1 a2)).testBit 0 = true
        ↔ a1 = ALARM1_INT_ENABLE) := by
  decide

theorem eq_of_second_iff {a b x y : Nat} (hx : x ∈ [a, b]) (hy : y ∈ [a, b])
    (h : x = b ↔ y = b) : x = y := by
  simp only [List.mem_cons, List.mem_singleton, List.not_mem_nil, or_false] at hx hy
  rcases hx with hx | hx <;> rcases hy with hy | hy
  · rw [hx, hy]
  · rw [h.2 hy, hy]
  · rw [hx, h.1 hx]
  · rw [hx, hy]

theorem eq_of_first_iff {a b x y : Nat} (hx : x ∈ [a, b]) (hy : y ∈ [a, b])
    (h : x = a ↔ y = a) : x = y := by
  simp only [List.mem_cons, List.mem_singleton, List.not_mem_nil, or_false] at hx hy
  rcases hx with hx | hx <;> rcases hy with hy | hy
  · rw [hx, hy]
  · rw [hx, h.1 hx]
  · rw [h.2 hy, hy]
  · rw [hx, hy]

/-- C15: `DS3231_Init` issues exactly one write, to the control register `0x0E`, of the
bitwise OR of the six fields of the structure (followed, when the write succeeds, by the
read back of `0x0E`).  When every field holds one of its documented constants, the byte
has bit 7 set iff EnableOscillator = DISABLE_OSC, bit 6 set iff BatteryBackedSquareWave =
BBSW_ENABLE, bit 5 clear, bits 4..3 equal to the frequency selection, bit 2 set iff
SquareWaveOrInterrupt = INTERRUPT_FUNC, bit 1 set iff Alarm2InterruptEnable =
ALARM2_INT_ENABLE, bit 0 set iff Alarm1InterruptEnable = ALARM1_INT_ENABLE; two documented
configurations with the same control byte are equal.  If the write fails with code c,
`DS3231_Init` returns c. -/
theorem C15_init_control_byte {σ : Type} (t : Transport σ) (I2C_Init : σ → σ) (b : Bus σ)
    (p q : DS3231_Init_Struct) :
    (∃ rest, (DS3231_Init t I2C_Init b p).bus.log
        = b.log ++ writesOf [(0x0E, ctrl_dat p)] ++ rest ∧
      (rest = [] ∨ rest = readsOf [0x0E])) ∧
    (Documented p →
      ctrl_dat p = p.EnableOscillator ||| p.SquareWaveOrInterrupt |||
        p.BatteryBackedSquareWave ||| p.SquareWaveFreq ||| p.Alarm1InterruptEnable |||
        p.Alarm2InterruptEnable ∧
      ((ctrl_dat p).testBit 7 = true ↔ p.EnableOscillator = DISABLE_OSC) ∧
      ((ctrl_dat p).testBit 6 = true ↔ p.BatteryBackedSquareWave = BBSW_ENABLE) ∧
      (ctrl_dat p).testBit 5 = false ∧
      ctrl_dat p &&& 0b00011000 = p.SquareWaveFreq ∧
      ((ctrl_dat p).testBit 4 = true
        ↔ p.SquareWaveFreq = SWFREQ_4096HZ ∨ p.SquareWaveFreq = SWFREQ_8192HZ) ∧
      ((ctrl_dat p).testBit 3 = true
        ↔ p.SquareWaveFreq = SWFREQ_1024HZ ∨ p.SquareWaveFreq = SWFREQ_8192HZ) ∧
      ((ctrl_dat p).testBit 2 = true ↔ p.SquareWaveOrInterrupt = INTERRUPT_FUNC) ∧
      ((ctrl_dat p).testBit 1 = true ↔ p.Alarm2InterruptEnable = ALARM2_INT_ENABLE) ∧
      ((ctrl_dat p).testBit 0 = true ↔ p.Alarm1InterruptEnable = ALARM1_INT_ENABLE)) ∧
    (Documented p → Documented q → ctrl_dat p = ctrl_dat q → p = q) ∧
    (∀ c, writeCode t (I2C_Init b.st) (0x0E, ctrl_dat p) = c → c ≠ 0 →
      (DS3231_Init t I2C_Init b p).ret = c ∧
      (DS3231_Init t I2C_Init b p).bus.log = b.log ++ writesOf [(0x0E, ctrl_dat p)]) := by
  refine ⟨?_, ?_, ?_, ?_⟩
  · simp only [DS3231_Init, CTRL_ADDRESS]
    split_ifs
    · exact ⟨[], by simp [writeReg, writesOf], Or.inl rfl⟩
    · exact ⟨readsOf [0x0E], by simp [writeReg, readReg, writesOf, readsOf], Or.inr rfl⟩
  · intro hp
    obtain ⟨eo, sq, bb, f, a1, a2⟩ := p
    obtain ⟨h1, h2, h3, h4, h5, h6⟩ := hp
    exact ctrl_dat_bits eo h1 sq h2 bb h3 f h4 a1 h5 a2 h6
  · intro hp hq hpq
    obtain ⟨eo, sq, bb, f, a1, a2⟩ := p
    obtain ⟨eo', sq', bb', f', a1', a2'⟩ := q
    obtain ⟨h1, h2, h3, h4, h5, h6⟩ := hp
    obtain ⟨g1, g2, g3, g4, g5, g6⟩ := hq
    obtain ⟨-, p7, p6, -, pf, -, -, p2, p1, p0⟩ := ctrl_dat_bits eo h1 sq h2 bb h3 f h4 a1 h5 a2 h6
    obtain ⟨-, q7, q6, -, qf, -, -, q2, q1, q0⟩ :=
      ctrl_dat_bits eo' g1 sq' g2 bb' g3 f' g4 a1' g5 a2' g6
    rw [hpq] at p7 p6 pf p2 p1 p0
    have e1 : eo = eo' := eq_of_first_iff h1 g1 (p7.symm.trans q7)
    have e2 : sq = sq' := eq_of_second_iff h2 g2 (p2.symm.trans q2)
    have e3 : bb = bb' := eq_of_second_iff h3 g3 (p6.symm.trans q6)
    have e4 : f = f' := pf.symm.trans qf
    have e5 : a1 = a1' := eq_of_second_iff h5 g5 (p0.symm.trans q0)
    have e6 : a2 = a2' := eq_of_second_iff h6 g6 (p1.symm.trans q1)
    rw [e1, e2, e3, e4, e5, e6]
  · intro c hcode hc
    have h : (writeReg t (Bus.mk (I2C_Init b.st) b.log) 14 (ctrl_dat p)).1 = c := hcode
    have hne : (writeReg t (Bus.mk (I2C_Init b.st) b.log) 14 (ctrl_dat p)).1 ≠ 0 := by
      rw [h]; exact hc
    simp only [DS3231_Init, CTRL_ADDRESS, if_pos hne]
    exact ⟨h, by simp [writeReg, writesOf]⟩

/-- Witness of C15: the configuration with the oscillator disabled, the interrupt
function, the battery-backed square wave, 4096 Hz and both alarm interrupts enabled gives
the control byte `0b11010111`. -/
theorem C15_init_control_byte_witness :
    Documented (DS3231_Init_Struct.mk DISABLE_OSC INTERRUPT_FUNC BBSW_ENABLE SWFREQ_4096HZ
      ALARM1_INT_ENABLE ALARM2_INT_ENABLE) ∧
    ctrl_dat (DS3231_Init_Struct.mk DISABLE_OSC INTERRUPT_FUNC BBSW_ENABLE SWFREQ_4096HZ
      ALARM1_INT_ENABLE ALARM2_INT_ENABLE) = 0b11010111 ∧
    (DS3231_Init (failAt 7) (fun st => st) (Bus.mk (0, fun _ => 0) [])
      (DS3231_Init_Struct.mk DISABLE_OSC INTERRUPT_FUNC BBSW_ENABLE SWFREQ_4096HZ
        ALARM1_INT_ENABLE ALARM2_INT_ENABLE)).ret = 7 := by
  have hd : Documented (DS3231_Init_Struct.mk DISABLE_OSC INTERRUPT_FUNC BBSW_ENABLE
      SWFREQ_4096HZ ALARM1_INT_ENABLE ALARM2_INT_ENABLE) := by
    simp [Documented]
  have h := C15_init_control_byte (failAt 7) (fun st => st) (Bus.mk (0, fun _ => 0) [])
    (DS3231_Init_Struct.mk DISABLE_OSC INTERRUPT_FUNC BBSW_ENABLE SWFREQ_4096HZ
      ALARM1_INT_ENABLE ALARM2_INT_ENABLE)
    (DS3231_Init_Struct.mk DISABLE_OSC INTERRUPT_FUNC BBSW_ENABLE SWFREQ_4096HZ
      ALARM1_INT_ENABLE ALARM2_INT_ENABLE)
  exact ⟨hd, by rw [(h.2.1 hd).1]; decide, (h.2.2.2 7 rfl (by decide)).1⟩

/-! ## Day and day of month outside the documented ranges -/

/-- Outside the two combinations (day 0, day of month 255) and (day 255, day of month 0),
a day that is neither in 1..7 nor 255, or a day of month that is neither in 1..31 nor 255,
makes the day/date block of either alarm return 5 or 6 without any traffic. -/
theorem dydt_rejects_undocumented {σ : Type} (t : Transport σ) (b : Bus σ) (d dom : Nat)
    (hbad : ¬ ((1 ≤ d ∧ d ≤ 7) ∨ d = 255) ∨ ¬ ((1 ≤ dom ∧ dom ≤ 31) ∨ dom = 255))
    (h1 : ¬ (d = 0 ∧ dom = 255)) (h2 : ¬ (d = 255 ∧ dom = 0)) :
    (SetAlarm1_dydt t b d dom = (5, b) ∨ SetAlarm1_dydt t b d dom = (6, b)) ∧
    (SetAlarm2_dydt t b d dom = (5, b) ∨ SetAlarm2_dydt t b d dom = (6, b)) := by
  by_cases c1 : d ≤ 7 ∧ dom ≤ 31
  · exact ⟨Or.inl (by simp [SetAlarm1_dydt, c1]), Or.inl (by simp [SetAlarm2_dydt, c1])⟩
  · have c2 : ¬ (d ≤ 7 ∧ dom = 255) := by omega
    have c3 : ¬ (d = 255 ∧ dom ≤ 31) := by omega
    have c4 : ¬ (d = 255 ∧ dom = 255) := by omega
    exact ⟨Or.inr (by simp [SetAlarm1_dydt, c1, c2, c3, c4]),
      Or.inr (by simp [SetAlarm2_dydt, c1, c2, c3, c4])⟩

/-- C20 (failing input): with day = 0 and day of month = 255, `DS3231_SetAlarm1(0, 0, 0, 0,
255)` and `DS3231_SetAlarm2(0, 0, 0, 255)` return 0 and write `0x40` to the day/date
register; with day = 255 and day of month = 0 they return 0 and write `0x00` to it.  The
value 0 is outside the documented ranges 1..7 and 1..31, yet the request is accepted. -/
theorem C20_zero_day_accepted :
    ((DS3231_SetAlarm1 regFile idleBus 0 0 0 0 255).1 = 0 ∧
      (DS3231_SetAlarm1 regFile idleBus 0 0 0 0 255).2.log
        = writesOf [(0x07, 0x00), (0x08, 0x00), (0x09, 0x00), (0x0A, 0x40)]) ∧
    ((DS3231_SetAlarm2 regFile idleBus 0 0 0 255).1 = 0 ∧
      (DS3231_SetAlarm2 regFile idleBus 0 0 0 255).2.log
        = writesOf [(0x0B, 0x00), (0x0C, 0x00), (0x0D, 0x40)]) ∧
    ((DS3231_SetAlarm1 regFile idleBus 0 0 0 255 0).1 = 0 ∧
      (DS3231_SetAlarm1 regFile idleBus 0 0 0 255 0).2.log
        = writesOf [(0x07, 0x00), (0x08, 0x00), (0x09, 0x00), (0x0A, 0x00)]) ∧
    ((DS3231_SetAlarm2 regFile idleBus 0 0 255 0).1 = 0 ∧
      (DS3231_SetAlarm2 regFile idleBus 0 0 255 0).2.log
        = writesOf [(0x0B, 0x00), (0x0C, 0x00), (0x0D, 0x00)]) := by
  refine ⟨⟨rfl, rfl⟩, ⟨rfl, rfl⟩, ⟨rfl, rfl⟩, ⟨rfl, rfl⟩⟩

/-! ## The recovery loop -/

/-- The loop run through `T` passes with the data line low and the flag clear and then a
pass that ends it: with the data line high it returns 0 after `WDT_Disable`, with the
data line low and the flag set it returns 1 after `WDT_Reset_Flag`. -/
theorem recoveryLoop_run (T : Nat) : ∀ (fuel : Nat) (hw : Hw), T < fuel →
    (∀ i, i < T → hw.dataLine (hw.dataReads + i) = 0 ∧ hw.wdtFlag (hw.flagReads + i) = 0) →
    (hw.dataLine (hw.dataReads + T) ≠ 0 →
      recoveryLoop fuel hw
        = some (0, Hw.mk hw.dataLine hw.wdtFlag (hw.dataReads + T + 1) (hw.flagReads + T)
            (hw.log ++ pulses T ++
              [HwOp.GPIO_ReadPin GPIO_PIN_4 (hw.dataLine (hw.dataReads + T)),
                HwOp.WDT_Disable]))) ∧
    (hw.dataLine (hw.dataReads + T) = 0 → hw.wdtFlag (hw.flagReads + T) ≠ 0 →
      recoveryLoop fuel hw
        = some (1, Hw.mk hw.dataLine hw.wdtFlag (hw.dataReads + T + 1) (hw.flagReads + T + 1)
            (hw.log ++ pulses T ++
              [HwOp.GPIO_ReadPin GPIO_PIN_4 0,
                HwOp.WDT_Return_Flag (hw.wdtFlag (hw.flagReads + T)),
                HwOp.WDT_Reset_Flag]))) := by
  induction T with
  | zero =>
    intro fuel hw hf _
    obtain ⟨k, rfl⟩ : ∃ k, fuel = k + 1 := ⟨fuel - 1, by omega⟩
    constructor
    · intro hd
      have hd0 : hw.dataLine hw.dataReads ≠ 0 := hd
      simp [recoveryLoop, Hw.readData, Hw.call, hd0, pulses]
    · intro hd hfl
      have hd0 : hw.dataLine hw.dataReads = 0 := hd
      have hf0 : hw.wdtFlag hw.flagReads ≠ 0 := hfl
      simp [recoveryLoop, Hw.readData, Hw.readFlag, Hw.call, hd0, hf0, pulses]
  | succ T ih =>
    intro fuel hw hf hlow
    obtain ⟨k, rfl⟩ : ∃ k, fuel = k + 1 := ⟨fuel - 1, by omega⟩
    have h0 := hlow 0 (Nat.succ_pos T)
    have hd0 : hw.dataLine hw.dataReads = 0 := h0.1
    have hf0 : hw.wdtFlag hw.flagReads = 0 := h0.2
    have step : recoveryLoop (k + 1) hw
        = recoveryLoop k (Hw.mk hw.dataLine hw.wdtFlag (hw.dataReads + 1) (hw.flagReads + 1)
            (hw.log ++ pulse)) := by
      simp [recoveryLoop, Hw.readData, Hw.readFlag, Hw.call, hd0, hf0, pulse]
    have hlow1 : ∀ i, i < T →
        hw.dataLine (hw.dataReads + 1 + i) = 0 ∧ hw.wdtFlag (hw.flagReads + 1 + i) = 0 := by
      intro i hi
      have h := hlow (i + 1) (by omega)
      rw [show hw.dataReads + (i + 1) = hw.dataReads + 1 + i by omega,
        show hw.flagReads + (i + 1) = hw.flagReads + 1 + i by omega] at h
      exact h
    have ih1 := ih k (Hw.mk hw.dataLine hw.wdtFlag (hw.dataReads + 1) (hw.flagReads + 1)
      (hw.log ++ pulse)) (by omega) hlow1
    rw [step]
    have ed : hw.dataReads + 1 + T = hw.dataReads + (T + 1) := by omega
    have ef : hw.flagReads + 1 + T = hw.flagReads + (T + 1) := by omega
    simp only [ed, ef] at ih1
    simpa [pulses, List.append_assoc] using ih1

/-- A run of the loop that returns went through some number `T` of passes with the data
line low and the flag clear, followed by a pass that found the data line high or found it
low with the flag set. -/
theorem recoveryLoop_some (fuel : Nat) : ∀ (hw : Hw) (ret : Nat) (hw1 : Hw),
    recoveryLoop fuel hw = some (ret, hw1) →
    ∃ T, T < fuel ∧
      (∀ i, i < T → hw.dataLine (hw.dataReads + i) = 0 ∧ hw.wdtFlag (hw.flagReads + i) = 0) ∧
      (hw.dataLine (hw.dataReads + T) ≠ 0 ∨
        (hw.dataLine (hw.dataReads + T) = 0 ∧ hw.wdtFlag (hw.flagReads + T) ≠ 0)) := by
  induction fuel with
  | zero =>
    intro hw ret hw1 h
    simp [recoveryLoop] at h
  | succ k ih =>
    intro hw ret hw1 h
    by_cases hd : hw.dataLine hw.dataReads = 0
    · by_cases hf : hw.wdtFlag hw.flagReads = 0
      · have step : recoveryLoop (k + 1) hw
            = recoveryLoop k (Hw.mk hw.dataLine hw.wdtFlag (hw.dataReads + 1)
                (hw.flagReads + 1) (hw.log ++ pulse)) := by
          simp [recoveryLoop, Hw.readData, Hw.readFlag, Hw.call, hd, hf, pulse]
        rw [step] at h
        obtain ⟨T, hT, hlow, hend⟩ := ih _ ret hw1 h
        refine ⟨T + 1, by omega, ?_, ?_⟩
        · intro i hi
          rcases Nat.eq_zero_or_pos i with h0 | hpos
          · subst h0
            exact ⟨hd, hf⟩
          · have := hlow (i - 1) (by omega)
            simp only at this
            rw [show hw.dataReads + 1 + (i - 1) = hw.dataReads + i by omega,
              show hw.flagReads + 1 + (i - 1) = hw.flagReads + i by omega] at this
            exact this
        · simp only at hend
          rw [show hw.dataReads + 1 + T = hw.dataReads + (T + 1) by omega,
            show hw.flagReads + 1 + T = hw.flagReads + (T + 1) by omega] at hend
          exact hend
      · exact ⟨0, Nat.succ_pos k, fun i hi => absurd hi (Nat.not_lt_zero i),
          Or.inr ⟨hd, hf⟩⟩
    · exact ⟨0, Nat.succ_pos k, fun i hi => absurd hi (Nat.not_lt_zero i), Or.inl hd⟩

/-- When the watchdog flag reads as set at some pass, there is a first pass at which the
data line is high or the flag is set. -/
theorem exists_last_pass (d w : Nat → Nat) (n : Nat) (hn : w n ≠ 0) :
    ∃ T, T ≤ n ∧ (∀ i, i < T → d i = 0 ∧ w i = 0) ∧ (d T ≠ 0 ∨ (d T = 0 ∧ w T ≠ 0)) := by
  have hex : ∃ i, d i ≠ 0 ∨ w i ≠ 0 := ⟨n, Or.inr hn⟩
  refine ⟨Nat.find hex, Nat.find_min' hex (Or.inr hn), ?_, ?_⟩
  · intro i hi
    have := Nat.find_min hex hi
    simp only [not_or, not_not] at this
    exact this
  · rcases Nat.find_spec hex with h | h
    · exact Or.inl h
    · by_cases hd : d (Nat.find hex) = 0
      · exact Or.inr ⟨hd, h⟩
      · exact Or.inl hd

theorem toggleCount_append (xs ys : List HwOp) :
    toggleCount (xs ++ ys) = toggleCount xs + toggleCount ys := by
  simp [toggleCount]

theorem toggleCount_pulses (T : Nat) : toggleCount (pulses T) = T := by
  induction T with
  | zero => rfl
  | succ T ih =>
    rw [pulses, toggleCount_append, ih]
    have : toggleCount pulse = 1 := by decide
    omega

theorem Line.after_append (pin : Nat) (l : Line) (xs ys : List HwOp) :
    Line.after pin l (xs ++ ys) = Line.after pin (Line.after pin l xs) ys := by
  simp [Line.after]

theorem Line.after_pulses (T : Nat) : ∀ l : Line,
    Line.after GPIO_PIN_5 l (pulses T)
      = Line.mk l.mode l.pull (if T % 2 = 0 then l.level else !l.level) := by
  induction T with
  | zero =>
    intro l
    simp [pulses, Line.after]
  | succ T ih =>
    intro l
    rw [pulses, Line.after_append, ih]
    have hp : Line.after GPIO_PIN_5 l pulse = Line.mk l.mode l.pull (!l.level) := by
      simp [pulse, Line.after, Line.apply, GPIO_PIN_4, GPIO_PIN_5]
    rw [hp]
    rcases Nat.mod_two_eq_zero_or_one T with h | h
    · have h1 : (T + 1) % 2 ≠ 0 := by omega
      simp [h, h1]
    · have h0 : T % 2 ≠ 0 := by omega
      have h1 : (T + 1) % 2 = 0 := by omega
      simp [h0, h1]

/-- In the calls of the loop, nothing follows a high read of the data line but the final
`WDT_Disable`: there is no toggle after it. -/
theorem no_toggle_after_high (T : Nat) (tail : List HwOp)
    (htail : ∀ pre v post, tail = pre ++ HwOp.GPIO_ReadPin GPIO_PIN_4 v :: post → v ≠ 0 →
      HwOp.GPIO_TogglePin GPIO_PIN_5 ∉ post) :
    ∀ pre v post, pulses T ++ tail = pre ++ HwOp.GPIO_ReadPin GPIO_PIN_4 v :: post → v ≠ 0 →
      HwOp.GPIO_TogglePin GPIO_PIN_5 ∉ post := by
  induction T with
  | zero =>
    intro pre v post h hv
    exact htail pre v post (by simpa [pulses] using h) hv
  | succ T ih =>
    intro pre v post h hv
    simp only [pulses, pulse, List.cons_append, List.nil_append, List.append_assoc] at h
    rcases pre with _ | ⟨a, pre⟩
    · simp only [List.nil_append, List.cons.injEq, HwOp.GPIO_ReadPin.injEq] at h
      exact absurd h.1.2.symm hv
    rcases pre with _ | ⟨a1, pre⟩
    · simp at h
    rcases pre with _ | ⟨a2, pre⟩
    · simp at h
    rcases pre with _ | ⟨a3, pre⟩
    · simp at h
    simp only [List.cons_append, List.cons.injEq] at h
    exact ih pre v post h.2.2.2.2 hv

theorem filter_range_last (p : Nat → Bool) (T : Nat) (hlow : ∀ i, i < T → p i = true)
    (hend : p T = false) : ((List.range (T + 1)).filter p).length = T := by
  rw [List.range_succ, List.filter_append]
  have h1 : (List.range T).filter p = List.range T := by
    rw [List.filter_eq_self]
    intro i hi
    exact hlow i (List.mem_range.1 hi)
  simp [h1, hend]

/-! ## `DS3231_PutInKnownI2CState` -/

/-- With the data line high at the first read the function returns 0 at once. -/
theorem putIn_high (fuel : Nat) (hw : Hw) (h : dataAt hw 0 ≠ 0) :
    DS3231_PutInKnownI2CState fuel hw
      = some (0, Hw.mk hw.dataLine hw.wdtFlag (hw.dataReads + 1) hw.flagReads
          (hw.log ++ [HwOp.GPIO_PinMode GPIO_PIN_4 PinMode.GPIO_INPUT Pull.GPIO_PULLUP,
            HwOp.GPIO_ReadPin GPIO_PIN_4 (dataAt hw 0)])) := by
  have h1 : hw.dataLine hw.dataReads ≠ 0 := h
  simp [DS3231_PutInKnownI2CState, Hw.readData, Hw.call, h1, dataAt]

/-- With the data line low at the first read the function enters the loop. -/
theorem putIn_low (fuel : Nat) (hw : Hw) (h : dataAt hw 0 = 0) :
    DS3231_PutInKnownI2CState fuel hw
      = recoveryLoop fuel (Hw.mk hw.dataLine hw.wdtFlag (hw.dataReads + 1) hw.flagReads
          (hw.log ++ [HwOp.GPIO_PinMode GPIO_PIN_4 PinMode.GPIO_INPUT Pull.GPIO_PULLUP,
            HwOp.GPIO_ReadPin GPIO_PIN_4 0,
            HwOp.GPIO_PinMode GPIO_PIN_5 PinMode.GPIO_OUTPUT Pull.GPIO_NOPULLUP,
            HwOp.WDT_Init])) := by
  have h1 : hw.dataLine hw.dataReads = 0 := h
  simp [DS3231_PutInKnownI2CState, Hw.readData, Hw.call, h1]

/-- The run of the function after a low first read, through `T` passes with the data line
low and the flag clear and a last pass that ends the loop. -/
theorem putIn_low_run (hw : Hw) (h0 : dataAt hw 0 = 0) (T fuel : Nat) (hf : T < fuel)
    (hlow : ∀ i, i < T → dataAt hw (i + 1) = 0 ∧ flagAt hw i = 0) :
    (dataAt hw (T + 1) ≠ 0 →
      DS3231_PutInKnownI2CState fuel hw
        = some (0, Hw.mk hw.dataLine hw.wdtFlag (hw.dataReads + 1 + T + 1) (hw.flagReads + T)
            (hw.log ++ ([HwOp.GPIO_PinMode GPIO_PIN_4 PinMode.GPIO_INPUT Pull.GPIO_PULLUP,
              HwOp.GPIO_ReadPin GPIO_PIN_4 0,
              HwOp.GPIO_PinMode GPIO_PIN_5 PinMode.GPIO_OUTPUT Pull.GPIO_NOPULLUP,
              HwOp.WDT_Init] ++ pulses T ++
              [HwOp.GPIO_ReadPin GPIO_PIN_4 (dataAt hw (T + 1)), HwOp.WDT_Disable])))) ∧
    (dataAt hw (T + 1) = 0 → flagAt hw T ≠ 0 →
      DS3231_PutInKnownI2CState fuel hw
        = some (1, Hw.mk hw.dataLine hw.wdtFlag (hw.dataReads + 1 + T + 1)
            (hw.flagReads + T + 1)
            (hw.log ++ ([HwOp.GPIO_PinMode GPIO_PIN_4 PinMode.GPIO_INPUT Pull.GPIO_PULLUP,
              HwOp.GPIO_ReadPin GPIO_PIN_4 0,
              HwOp.GPIO_PinMode GPIO_PIN_5 PinMode.GPIO_OUTPUT Pull.GPIO_NOPULLUP,
              HwOp.WDT_Init] ++ pulses T ++
              [HwOp.GPIO_ReadPin GPIO_PIN_4 0, HwOp.WDT_Return_Flag (flagAt hw T),
                HwOp.WDT_Reset_Flag])))) := by
  have hlow1 : ∀ i, i < T →
      hw.dataLine (hw.dataReads + 1 + i) = 0 ∧ hw.wdtFlag (hw.flagReads + i) = 0 := by
    intro i hi
    have h := hlow i hi
    simp only [dataAt, flagAt] at h
    rw [show hw.dataReads + (i + 1) = hw.dataReads + 1 + i by omega] at h
    exact h
  have hrun := recoveryLoop_run T fuel (Hw.mk hw.dataLine hw.wdtFlag (hw.dataReads + 1)
    hw.flagReads (hw.log ++ [HwOp.GPIO_PinMode GPIO_PIN_4 PinMode.GPIO_INPUT Pull.GPIO_PULLUP,
      HwOp.GPIO_ReadPin GPIO_PIN_4 0,
      HwOp.GPIO_PinMode GPIO_PIN_5 PinMode.GPIO_OUTPUT Pull.GPIO_NOPULLUP,
      HwOp.WDT_Init])) hf hlow1
  have ed : hw.dataReads + (T + 1) = hw.dataReads + 1 + T := by omega
  rw [putIn_low fuel hw h0]
  simp only [dataAt, flagAt, ed]
  constructor
  · intro hd
    rw [hrun.1 hd]
    simp [List.append_assoc]
  · intro hd hfl
    rw [hrun.2 hd hfl]
    simp [List.append_assoc]

/-- A run of the function that returns after a low first read went through some number
`T` of passes with the data line low and the flag clear and a last pass that ended the
loop. -/
theorem putIn_low_some (hw : Hw) (h0 : dataAt hw 0 = 0) (fuel ret : Nat) (hw1 : Hw)
    (hret : DS3231_PutInKnownI2CState fuel hw = some (ret, hw1)) :
    ∃ T, T < fuel ∧ (∀ i, i < T → dataAt hw (i + 1) = 0 ∧ flagAt hw i = 0) ∧
      (dataAt hw (T + 1) ≠ 0 ∨ (dataAt hw (T + 1) = 0 ∧ flagAt hw T ≠ 0)) := by
  rw [putIn_low fuel hw h0] at hret
  obtain ⟨T, hT, hlow, hend⟩ := recoveryLoop_some fuel _ ret hw1 hret
  refine ⟨T, hT, ?_, ?_⟩
  · intro i hi
    have h := hlow i hi
    simp only [dataAt, flagAt]
    rw [show hw.dataReads + (i + 1) = hw.dataReads + 1 + i by omega]
    exact h
  · simp only [dataAt, flagAt]
    rw [show hw.dataReads + (T + 1) = hw.dataReads + 1 + T by omega]
    exact hend

/-- C16: when the data line (port C pin 4) reads high at the first read,
`DS3231_PutInKnownI2CState` returns 0, for any bound on the loop, having made exactly two
calls: the pin-mode call for pin 4 and one read of pin 4.  It issues no toggle, no
pin-mode call for the clock line (pin 5), no `WDT_Init`.  Called again while the data line
still reads high, it returns 0 again with the same two calls. -/
theorem C16_idle_bus_returns_at_once (fuel fuel2 : Nat) (hw : Hw) (hhigh : dataAt hw 0 ≠ 0) :
    (∃ hw1, DS3231_PutInKnownI2CState fuel hw = some (0, hw1) ∧
      hw1.log = hw.log ++ [HwOp.GPIO_PinMode GPIO_PIN_4 PinMode.GPIO_INPUT Pull.GPIO_PULLUP,
        HwOp.GPIO_ReadPin GPIO_PIN_4 (dataAt hw 0)] ∧
      hw1.dataReads = hw.dataReads + 1 ∧ hw1.flagReads = hw.flagReads ∧
      (dataAt hw 1 ≠ 0 →
        ∃ hw2, DS3231_PutInKnownI2CState fuel2 hw1 = some (0, hw2) ∧
          hw2.log = hw1.log ++
            [HwOp.GPIO_PinMode GPIO_PIN_4 PinMode.GPIO_INPUT Pull.GPIO_PULLUP,
              HwOp.GPIO_ReadPin GPIO_PIN_4 (dataAt hw 1)] ∧
          hw2.dataReads = hw.dataReads + 2 ∧ hw2.flagReads = hw.flagReads)) ∧
    (∀ v, toggleCount [HwOp.GPIO_PinMode GPIO_PIN_4 PinMode.GPIO_INPUT Pull.GPIO_PULLUP,
        HwOp.GPIO_ReadPin GPIO_PIN_4 v] = 0 ∧
      HwOp.WDT_Init ∉ [HwOp.GPIO_PinMode GPIO_PIN_4 PinMode.GPIO_INPUT Pull.GPIO_PULLUP,
        HwOp.GPIO_ReadPin GPIO_PIN_4 v] ∧
      ∀ mode pull, HwOp.GPIO_PinMode GPIO_PIN_5 mode pull
        ∉ [HwOp.GPIO_PinMode GPIO_PIN_4 PinMode.GPIO_INPUT Pull.GPIO_PULLUP,
          HwOp.GPIO_ReadPin GPIO_PIN_4 v]) := by
  constructor
  · refine ⟨_, putIn_high fuel hw hhigh, rfl, rfl, rfl, ?_⟩
    intro h1
    have h1a : dataAt (Hw.mk hw.dataLine hw.wdtFlag (hw.dataReads + 1) hw.flagReads
        (hw.log ++ [HwOp.GPIO_PinMode GPIO_PIN_4 PinMode.GPIO_INPUT Pull.GPIO_PULLUP,
          HwOp.GPIO_ReadPin GPIO_PIN_4 (dataAt hw 0)])) 0 = dataAt hw 1 := rfl
    refine ⟨_, putIn_high fuel2 _ (by rw [h1a]; exact h1), ?_, rfl, rfl⟩
    simp only [h1a]
  · intro v
    refine ⟨by simp [toggleCount], by simp, ?_⟩
    intro mode pull
    simp [GPIO_PIN_4, GPIO_PIN_5]

/-- Witness of C16 on a data line that always reads 1: the first call and a second call
both return 0 after the pin-mode call and one read. -/
theorem C16_idle_bus_returns_at_once_witness :
    ∃ hw1, DS3231_PutInKnownI2CState 0 (Hw.mk (fun _ => 1) (fun _ => 0) 0 0 []) = some (0, hw1) ∧
      hw1.log = [] ++ [HwOp.GPIO_PinMode GPIO_PIN_4 PinMode.GPIO_INPUT Pull.GPIO_PULLUP,
        HwOp.GPIO_ReadPin GPIO_PIN_4 1] := by
  obtain ⟨hw1, h1, h2, -⟩ :=
    (C16_idle_bus_returns_at_once 0 0 (Hw.mk (fun _ => 1) (fun _ => 0) 0 0 [])
      (by decide)).1
  exact ⟨hw1, h1, h2⟩

/-! ## The clock line across a recovery -/

theorem toggleCount_recovery (T : Nat) (tail : List HwOp) (htail : toggleCount tail = 0) :
    toggleCount ([HwOp.GPIO_PinMode GPIO_PIN_4 PinMode.GPIO_INPUT Pull.GPIO_PULLUP,
      HwOp.GPIO_ReadPin GPIO_PIN_4 0,
      HwOp.GPIO_PinMode GPIO_PIN_5 PinMode.GPIO_OUTPUT Pull.GPIO_NOPULLUP,
      HwOp.WDT_Init] ++ pulses T ++ tail) = T := by
  rw [toggleCount_append, toggleCount_append, toggleCount_pulses, htail]
  have : toggleCount [HwOp.GPIO_PinMode GPIO_PIN_4 PinMode.GPIO_INPUT Pull.GPIO_PULLUP,
      HwOp.GPIO_ReadPin GPIO_PIN_4 0,
      HwOp.GPIO_PinMode GPIO_PIN_5 PinMode.GPIO_OUTPUT Pull.GPIO_NOPULLUP,
      HwOp.WDT_Init] = 0 := by decide
  omega

theorem Line.after_recovery (T : Nat) (l : Line) (tail : List HwOp)
    (htail : ∀ k : Line, Line.after GPIO_PIN_5 k tail = k) :
    Line.after GPIO_PIN_5 l
      ([HwOp.GPIO_PinMode GPIO_PIN_4 PinMode.GPIO_INPUT Pull.GPIO_PULLUP,
        HwOp.GPIO_ReadPin GPIO_PIN_4 0,
        HwOp.GPIO_PinMode GPIO_PIN_5 PinMode.GPIO_OUTPUT Pull.GPIO_NOPULLUP,
        HwOp.WDT_Init] ++ pulses T ++ tail)
      = Line.mk PinMode.GPIO_OUTPUT Pull.GPIO_NOPULLUP
          (if T % 2 = 0 then l.level else !l.level) := by
  rw [Line.after_append, Line.after_append, htail, Line.after_pulses]
  simp [Line.after, Line.apply, GPIO_PIN_4, GPIO_PIN_5]

/-- The calls of a run that returns after a low first read: the four entry calls, `T`
pulses, and the calls of the last pass, which contain no toggle and leave the clock line
as it is. -/
theorem putIn_low_log (hw : Hw) (h0 : dataAt hw 0 = 0) (fuel ret : Nat) (hw1 : Hw)
    (hret : DS3231_PutInKnownI2CState fuel hw = some (ret, hw1)) :
    ∃ T tail, hw1.log = hw.log ++
        ([HwOp.GPIO_PinMode GPIO_PIN_4 PinMode.GPIO_INPUT Pull.GPIO_PULLUP,
          HwOp.GPIO_ReadPin GPIO_PIN_4 0,
          HwOp.GPIO_PinMode GPIO_PIN_5 PinMode.GPIO_OUTPUT Pull.GPIO_NOPULLUP,
          HwOp.WDT_Init] ++ pulses T ++ tail) ∧
      toggleCount tail = 0 ∧ (∀ k : Line, Line.after GPIO_PIN_5 k tail = k) := by
  obtain ⟨T, hT, hlow, hend⟩ := putIn_low_some hw h0 fuel ret hw1 hret
  obtain ⟨hrun0, hrun1⟩ := putIn_low_run hw h0 T fuel hT hlow
  rcases hend with hd | ⟨hd, hfl⟩
  · rw [hrun0 hd] at hret
    simp only [Option.some.injEq, Prod.mk.injEq] at hret
    refine ⟨T, _, by rw [← hret.2], ?_, ?_⟩
    · simp [toggleCount]
    · intro k
      simp [Line.after, Line.apply]
  · rw [hrun1 hd hfl] at hret
    simp only [Option.some.injEq, Prod.mk.injEq] at hret
    refine ⟨T, _, by rw [← hret.2], ?_, ?_⟩
    · simp [toggleCount]
    · intro k
      simp [Line.after, Line.apply]

/-- Counterexample to C17: from a clock line that is an input with pull-up at level high,
a recovery that finds the data line low once and then high returns 0 with the clock line
an output without pull-up, and a recovery that times out returns 1 with the clock line an
output without pull-up; from a clock line that is already an output without pull-up at
level low, a recovery with one pulse returns 0 with the level high. -/
theorem C17_counterexample :
    (DS3231_PutInKnownI2CState 3 (Hw.mk (fun k => if k = 0 then 0 else 1) (fun _ => 0) 0 0 [])).map
        (fun r => (r.1, Line.after GPIO_PIN_5
          (Line.mk PinMode.GPIO_INPUT Pull.GPIO_PULLUP true) r.2.log))
      = some (0, Line.mk PinMode.GPIO_OUTPUT Pull.GPIO_NOPULLUP true) ∧
    (DS3231_PutInKnownI2CState 3 (Hw.mk (fun _ => 0) (fun _ => 1) 0 0 [])).map
        (fun r => (r.1, Line.after GPIO_PIN_5
          (Line.mk PinMode.GPIO_INPUT Pull.GPIO_PULLUP true) r.2.log))
      = some (1, Line.mk PinMode.GPIO_OUTPUT Pull.GPIO_NOPULLUP true) ∧
    (DS3231_PutInKnownI2CState 3 (Hw.mk (fun k => if k ≤ 1 then 0 else 1) (fun _ => 0) 0 0 [])).map
        (fun r => (r.1, Line.after GPIO_PIN_5
          (Line.mk PinMode.GPIO_OUTPUT Pull.GPIO_NOPULLUP false) r.2.log))
      = some (0, Line.mk PinMode.GPIO_OUTPUT Pull.GPIO_NOPULLUP true) ∧
    Line.mk PinMode.GPIO_OUTPUT Pull.GPIO_NOPULLUP true
      ≠ Line.mk PinMode.GPIO_INPUT Pull.GPIO_PULLUP true ∧
    Line.mk PinMode.GPIO_OUTPUT Pull.GPIO_NOPULLUP true
      ≠ Line.mk PinMode.GPIO_OUTPUT Pull.GPIO_NOPULLUP false := by
  refine ⟨rfl, rfl, rfl, by decide, by decide⟩

/-- C17 (amended): when `DS3231_PutInKnownI2CState` returns after the data line was found
low, with 0 or with 1, the clock line (port C pin 5) is on return an output without
pull-up, whatever its mode on entry, and its level is the entry level inverted once per
toggle issued; the function never restores the line.  The clock line has on return its
entry mode and level exactly when it was an output without pull-up on entry and the number
of toggles is even. -/
theorem C17_clock_line_on_return (fuel ret : Nat) (hw hw1 : Hw) (l : Line)
    (hlow : dataAt hw 0 = 0)
    (hret : DS3231_PutInKnownI2CState fuel hw = some (ret, hw1)) :
    ∃ ext, hw1.log = hw.log ++ ext ∧
      Line.after GPIO_PIN_5 l ext
        = Line.mk PinMode.GPIO_OUTPUT Pull.GPIO_NOPULLUP
            (if toggleCount ext % 2 = 0 then l.level else !l.level) ∧
      (Line.after GPIO_PIN_5 l ext = l ↔
        l.mode = PinMode.GPIO_OUTPUT ∧ l.pull = Pull.GPIO_NOPULLUP ∧
          toggleCount ext % 2 = 0) := by
  obtain ⟨T, tail, hlog, htog, hline⟩ := putIn_low_log hw hlow fuel ret hw1 hret
  have hc := toggleCount_recovery T tail htog
  have ha := Line.after_recovery T l tail hline
  refine ⟨_, hlog, by rw [hc]; exact ha, ?_⟩
  rw [hc, ha]
  obtain ⟨m, p, lv⟩ := l
  rcases Nat.mod_two_eq_zero_or_one T with h | h
  · simp only [h, if_true, Line.mk.injEq, and_true]
    constructor
    · intro e
      exact ⟨e.1.symm, e.2.symm⟩
    · intro e
      exact ⟨e.1.symm, e.2.symm⟩
  · have h0 : T % 2 ≠ 0 := by omega
    simp only [h0, if_false, Line.mk.injEq]
    constructor
    · intro e
      cases lv <;> simp at e
    · intro e
      first | exact absurd e.2.2 h0 | exact e.2.2.elim

/-- Witness of C17 (amended) on a data line low at the first two reads and high at the
third, from a clock line that is an input with pull-up at level high: the function
returns 0 after one toggle, and the clock line is an output without pull-up at level
low. -/
theorem C17_clock_line_on_return_witness :
    ∃ hw1, DS3231_PutInKnownI2CState 3
        (Hw.mk (fun k => if k ≤ 1 then 0 else 1) (fun _ => 0) 0 0 []) = some (0, hw1) ∧
      ∃ ext, hw1.log = [] ++ ext ∧
        Line.after GPIO_PIN_5 (Line.mk PinMode.GPIO_INPUT Pull.GPIO_PULLUP true) ext
          = Line.mk PinMode.GPIO_OUTPUT Pull.GPIO_NOPULLUP
              (if toggleCount ext % 2 = 0 then true else !true) := by
  refine ⟨_, rfl, ?_⟩
  obtain ⟨ext, h1, h2, -⟩ := C17_clock_line_on_return 3 0
    (Hw.mk (fun k => if k ≤ 1 then 0 else 1) (fun _ => 0) 0 0 []) _
    (Line.mk PinMode.GPIO_INPUT Pull.GPIO_PULLUP true) rfl rfl
  exact ⟨ext, h1, h2⟩

/-! ## Termination and result of the recovery -/

theorem tail_high_no_toggle (w : Nat) : ∀ pre v post,
    [HwOp.GPIO_ReadPin GPIO_PIN_4 w, HwOp.WDT_Disable]
      = pre ++ HwOp.GPIO_ReadPin GPIO_PIN_4 v :: post → v ≠ 0 →
    HwOp.GPIO_TogglePin GPIO_PIN_5 ∉ post := by
  intro pre v post h _
  rcases pre with _ | ⟨a, pre⟩
  · simp only [List.nil_append, List.cons.injEq] at h
    rw [← h.2]
    simp
  rcases pre with _ | ⟨a1, pre⟩
  · simp at h
  rcases pre with _ | ⟨a2, pre⟩ <;> simp at h

theorem tail_timeout_no_toggle (f : Nat) : ∀ pre v post,
    [HwOp.GPIO_ReadPin GPIO_PIN_4 0, HwOp.WDT_Return_Flag f, HwOp.WDT_Reset_Flag]
      = pre ++ HwOp.GPIO_ReadPin GPIO_PIN_4 v :: post → v ≠ 0 →
    HwOp.GPIO_TogglePin GPIO_PIN_5 ∉ post := by
  intro pre v post h hv
  rcases pre with _ | ⟨a, pre⟩
  · simp only [List.nil_append, List.cons.injEq, HwOp.GPIO_ReadPin.injEq] at h
    exact absurd h.1.2.symm hv
  rcases pre with _ | ⟨a1, pre⟩
  · simp at h
  rcases pre with _ | ⟨a2, pre⟩
  · simp at h
  rcases pre with _ | ⟨a3, pre⟩ <;> simp at h

theorem entry_no_toggle_after_high (T : Nat) (tail : List HwOp)
    (htail : ∀ pre v post, tail = pre ++ HwOp.GPIO_ReadPin GPIO_PIN_4 v :: post → v ≠ 0 →
      HwOp.GPIO_TogglePin GPIO_PIN_5 ∉ post) :
    ∀ pre v post,
      [HwOp.GPIO_PinMode GPIO_PIN_4 PinMode.GPIO_INPUT Pull.GPIO_PULLUP,
        HwOp.GPIO_ReadPin GPIO_PIN_4 0,
        HwOp.GPIO_PinMode GPIO_PIN_5 PinMode.GPIO_OUTPUT Pull.GPIO_NOPULLUP,
        HwOp.WDT_Init] ++ pulses T ++ tail
        = pre ++ HwOp.GPIO_ReadPin GPIO_PIN_4 v :: post → v ≠ 0 →
      HwOp.GPIO_TogglePin GPIO_PIN_5 ∉ post := by
  intro pre v post h hv
  simp only [List.cons_append, List.nil_append, List.append_assoc] at h
  rcases pre with _ | ⟨a, pre⟩
  · simp at h
  rcases pre with _ | ⟨a1, pre⟩
  · simp only [List.cons_append, List.nil_append, List.cons.injEq,
      HwOp.GPIO_ReadPin.injEq] at h
    exact absurd h.2.1.2.symm hv
  rcases pre with _ | ⟨a2, pre⟩
  · simp at h
  rcases pre with _ | ⟨a3, pre⟩
  · simp at h
  simp only [List.cons_append, List.cons.injEq] at h
  exact no_toggle_after_high T tail htail pre v post h.2.2.2.2 hv

/-- C18: with the reads of the data line and of the watchdog flag given as two sequences
(`dataAt hw 0` the initial check, `dataAt hw (i + 1)` and `flagAt hw i` the reads of loop
pass `i`), and the flag reading as set at some pass `n`, `DS3231_PutInKnownI2CState`
terminates: every bound above `n` gives the same result.  It returns 0 exactly when the
data line reads high at the initial check or at a loop pass with no earlier-or-equal pass
having the line low and the flag set, and 1 otherwise.  The number of toggles of the clock
line equals the number of executed loop passes at which the data line was low and the flag
clear, and no toggle follows a high read of the data line. -/
theorem C18_recovery_terminates (hw : Hw) (n : Nat) (hn : flagAt hw n ≠ 0) :
    ∃ ret hw1 ext passes,
      (∀ fuel, n < fuel → DS3231_PutInKnownI2CState fuel hw = some (ret, hw1)) ∧
      hw1.log = hw.log ++ ext ∧
      hw1.dataReads = hw.dataReads + 1 + passes ∧
      (ret = 0 ∨ ret = 1) ∧
      (ret = 0 ↔ (dataAt hw 0 ≠ 0 ∨
        ∃ j, dataAt hw (j + 1) ≠ 0 ∧
          ∀ i, i ≤ j → ¬ (dataAt hw (i + 1) = 0 ∧ flagAt hw i ≠ 0))) ∧
      toggleCount ext
        = ((List.range passes).filter
            (fun i => decide (dataAt hw (i + 1) = 0 ∧ flagAt hw i = 0))).length ∧
      (∀ pre v post, ext = pre ++ HwOp.GPIO_ReadPin GPIO_PIN_4 v :: post → v ≠ 0 →
        HwOp.GPIO_TogglePin GPIO_PIN_5 ∉ post) := by
  by_cases h0 : dataAt hw 0 = 0
  · obtain ⟨T, hTn, hlow, hend⟩ :=
      exists_last_pass (fun i => dataAt hw (i + 1)) (fun i => flagAt hw i) n hn
    have hp : ∀ i, i < T →
        (fun i => decide (dataAt hw (i + 1) = 0 ∧ flagAt hw i = 0)) i = true := by
      intro i hi
      exact decide_eq_true (hlow i hi)
    rcases hend with hd | ⟨hd, hfl⟩
    · refine ⟨0, _, _, T + 1,
        fun fuel hf => (putIn_low_run hw h0 T fuel (by omega) hlow).1 hd, rfl, rfl,
        Or.inl rfl, ?_, ?_, ?_⟩
      · refine ⟨fun _ => Or.inr ⟨T, hd, ?_⟩, fun _ => rfl⟩
        intro i hi hc
        rcases Nat.lt_or_ge i T with hlt | hge
        · exact hc.2 (hlow i hlt).2
        · have e : i = T := by omega
          rw [e] at hc
          exact hd hc.1
      · rw [toggleCount_recovery T _ (by simp [toggleCount])]
        refine (filter_range_last _ T hp ?_).symm
        exact decide_eq_false (fun hc => hd hc.1)
      · exact entry_no_toggle_after_high T _ (tail_high_no_toggle _)
    · refine ⟨1, _, _, T + 1,
        fun fuel hf => (putIn_low_run hw h0 T fuel (by omega) hlow).2 hd hfl, rfl, rfl,
        Or.inr rfl, ?_, ?_, ?_⟩
      · refine ⟨fun h => absurd h (by decide), fun h => ?_⟩
        rcases h with h | ⟨j, hj, hall⟩
        · exact absurd h0 h
        · rcases Nat.lt_or_ge j T with hlt | hge
          · exact absurd (hlow j hlt).1 hj
          · exact absurd ⟨hd, hfl⟩ (hall T hge)
      · rw [toggleCount_recovery T _ (by simp [toggleCount])]
        refine (filter_range_last _ T hp ?_).symm
        exact decide_eq_false (fun hc => hfl hc.2)
      · exact entry_no_toggle_after_high T _ (tail_timeout_no_toggle _)
  · refine ⟨0, _, _, 0, fun fuel _ => putIn_high fuel hw h0, rfl, rfl, Or.inl rfl,
      ⟨fun _ => Or.inl h0, fun _ => rfl⟩, by simp [toggleCount], ?_⟩
    intro pre v post h _
    rcases pre with _ | ⟨a, pre⟩
    · simp at h
    rcases pre with _ | ⟨a1, pre⟩
    · simp only [List.cons_append, List.nil_append, List.cons.injEq] at h
      rw [← h.2.2]
      simp
    rcases pre with _ | ⟨a2, pre⟩ <;> simp at h

/-- Witness of C18 on a data line that is low at the first three reads and high from the
fourth on, with a watchdog flag that is clear at the first four reads and set from the
fifth on: with bound 5 the function returns 0 after two toggles. -/
theorem C18_recovery_terminates_witness :
    ∃ ret hw1 ext passes,
      DS3231_PutInKnownI2CState 5
        (Hw.mk (fun k => if k ≤ 2 then 0 else 1) (fun k => if k ≤ 3 then 0 else 1) 0 0 [])
        = some (ret, hw1) ∧
      hw1.log = [] ++ ext ∧ hw1.dataReads = 0 + 1 + passes ∧ ret = 0 ∧ toggleCount ext = 2 := by
  obtain ⟨ret, hw1, ext, passes, h1, h2, h3, -, -, -, -⟩ := C18_recovery_terminates
    (Hw.mk (fun k => if k ≤ 2 then 0 else 1) (fun k => if k ≤ 3 then 0 else 1) 0 0 []) 4
    (by decide)
  have hrun := h1 5 (by decide)
  have hval : DS3231_PutInKnownI2CState 5
      (Hw.mk (fun k => if k ≤ 2 then 0 else 1) (fun k => if k ≤ 3 then 0 else 1) 0 0 [])
      = some (0, Hw.mk (fun k => if k ≤ 2 then 0 else 1) (fun k => if k ≤ 3 then 0 else 1) 4 2
          ([HwOp.GPIO_PinMode GPIO_PIN_4 PinMode.GPIO_INPUT Pull.GPIO_PULLUP,
            HwOp.GPIO_ReadPin GPIO_PIN_4 0,
            HwOp.GPIO_PinMode GPIO_PIN_5 PinMode.GPIO_OUTPUT Pull.GPIO_NOPULLUP,
            HwOp.WDT_Init] ++ pulses 2 ++
            [HwOp.GPIO_ReadPin GPIO_PIN_4 1, HwOp.WDT_Disable])) := rfl
  rw [hrun] at hval
  simp only [Option.some.injEq, Prod.mk.injEq] at hval
  refine ⟨ret, hw1, ext, passes, hrun, h2, h3, hval.1, ?_⟩
  have hl : hw1.log = [HwOp.GPIO_PinMode GPIO_PIN_4 PinMode.GPIO_INPUT Pull.GPIO_PULLUP,
      HwOp.GPIO_ReadPin GPIO_PIN_4 0,
      HwOp.GPIO_PinMode GPIO_PIN_5 PinMode.GPIO_OUTPUT Pull.GPIO_NOPULLUP,
      HwOp.WDT_Init] ++ pulses 2 ++ [HwOp.GPIO_ReadPin GPIO_PIN_4 1, HwOp.WDT_Disable] := by
    rw [hval.2]
  rw [List.nil_append] at h2
  rw [← h2, hl]
  decide

/-! ## Error values of `DS3231_SetTime` -/

/-- A sequence of writes either succeeds throughout or has a first failing write. -/
theorem allSucceed_or_fail {σ : Type} (t : Transport σ) (ws : List (Nat × Nat)) :
    ∀ st : σ, allSucceed t st ws ∨
      ∃ pre rv post, ws = pre ++ rv :: post ∧ allSucceed t st pre ∧
        writeCode t (stateAfter t st pre) rv ≠ 0 := by
  induction ws with
  | nil => exact fun _ => Or.inl trivial
  | cons rv ws ih =>
    intro st
    by_cases h : writeCode t st rv = 0
    · rcases ih (t.I2C_Write_To_Slave st DS3231_I2C_ADDRESS rv.1 rv.2).2 with hall | hfail
      · exact Or.inl ⟨h, hall⟩
      · obtain ⟨pre, rv1, post, hsplit, hpre, hc⟩ := hfail
        exact Or.inr ⟨rv :: pre, rv1, post, by rw [hsplit]; rfl, ⟨h, hpre⟩, hc⟩
    · exact Or.inr ⟨[], rv, ws, rfl, trivial, h⟩

/-- Counterexample to C21: `DS3231_SetTime(60, 0, 0)` fails because seconds is out of
range and returns 2; `DS3231_SetTime(0, 0, 0)` on a transport whose first write fails with
code 2 fails because of the transport and returns 2 as well. -/
theorem C21_counterexample :
    SetTime_rangeFailure regFile idleBus 60 0 0 ∧
    (DS3231_SetTime regFile idleBus 60 0 0).1 = 2 ∧
    SetTime_transportFailure (failAt 2) (Bus.mk (0, fun _ => 0) []) 0 0 0 2 ∧
    (DS3231_SetTime (failAt 2) (Bus.mk (0, fun _ => 0) []) 0 0 0).1 = 2 := by
  refine ⟨⟨trivial, Or.inl (by decide)⟩, rfl, ⟨by decide, [], (0x00, 0x00),
    [(0x01, 0x00), (0x02, 0x00)], rfl, trivial, rfl⟩, rfl⟩

/-- C21 (amended): every failure of `DS3231_SetTime` is a range failure or a transport
failure.  A range failure returns 2, 3 or 4; a transport failure returns the transport's
nonzero code unchanged.  The value returned tells the two causes apart only for transport
codes other than 2, 3 and 4: a range failure and a transport failure with such a code never
return the same value. -/
theorem C21_failure_values {σ τ : Type} (t : Transport σ) (b : Bus σ) (x y z : Nat)
    (t2 : Transport τ) (b2 : Bus τ) (x2 y2 z2 c : Nat) :
    ((DS3231_SetTime t b x y z).1 ≠ 0 →
      SetTime_rangeFailure t b x y z ∨ ∃ k, SetTime_transportFailure t b x y z k) ∧
    (SetTime_rangeFailure t b x y z → (DS3231_SetTime t b x y z).1 ∈ [2, 3, 4]) ∧
    (SetTime_transportFailure t2 b2 x2 y2 z2 c → (DS3231_SetTime t2 b2 x2 y2 z2).1 = c) ∧
    (SetTime_rangeFailure t b x y z → SetTime_transportFailure t2 b2 x2 y2 z2 c →
      c ∉ [2, 3, 4] → (DS3231_SetTime t b x y z).1 ≠ (DS3231_SetTime t2 b2 x2 y2 z2).1) := by
  have hrange : SetTime_rangeFailure t b x y z → (DS3231_SetTime t b x y z).1 ∈ [2, 3, 4] := by
    intro ⟨hall, hbad⟩
    rw [SetTime_checked, writeInOrder_all t _ b hall]
    simp only [ne_eq, not_true_eq_false, if_false]
    split_ifs <;> first | decide | omega
  have htrans : SetTime_transportFailure t2 b2 x2 y2 z2 c →
      (DS3231_SetTime t2 b2 x2 y2 z2).1 = c := by
    intro ⟨hc, pre, rv, post, hsplit, hpre, hcode⟩
    rw [SetTime_checked, checked_fail t2 b2 _ _ pre rv post c hsplit hpre hcode hc]
  refine ⟨?_, hrange, htrans, ?_⟩
  · intro hne
    rcases allSucceed_or_fail t (checkedWrites [(0x00, 59, x), (0x01, 59, y), (0x02, 23, z)])
      b.st with hall | ⟨pre, rv, post, hsplit, hpre, hc⟩
    · left
      refine ⟨hall, ?_⟩
      rw [SetTime_checked, writeInOrder_all t _ b hall] at hne
      simp only [ne_eq, not_true_eq_false, if_false] at hne
      by_contra hgood
      have h1 : ¬ x > 59 := fun h => hgood (Or.inl h)
      have h2 : ¬ y > 59 := fun h => hgood (Or.inr (Or.inl h))
      have h3 : ¬ z > 23 := fun h => hgood (Or.inr (Or.inr h))
      simp [h1, h2, h3] at hne
    · exact Or.inr ⟨_, hc, pre, rv, post, hsplit, hpre, rfl⟩
  · intro hr ht hc heq
    have h1 := hrange hr
    rw [heq, htrans ht] at h1
    exact hc h1

/-- Witness of C21 (amended): `DS3231_SetTime(0, 60, 0)` on the register file fails by
range with 3, `DS3231_SetTime(0, 0, 0)` on a transport whose first write fails with code 32
fails by transport with 32, and the two values differ. -/
theorem C21_failure_values_witness :
    SetTime_rangeFailure regFile idleBus 0 60 0 ∧
    SetTime_transportFailure (failAt 32) (Bus.mk (0, fun _ => 0) []) 0 0 0 32 ∧
    (DS3231_SetTime regFile idleBus 0 60 0).1
      ≠ (DS3231_SetTime (failAt 32) (Bus.mk (0, fun _ => 0) []) 0 0 0).1 := by
  have hr : SetTime_rangeFailure regFile idleBus 0 60 0 :=
    ⟨⟨rfl, trivial⟩, Or.inr (Or.inl (by decide))⟩
  have ht : SetTime_transportFailure (failAt 32) (Bus.mk (0, fun _ => 0) []) 0 0 0 32 :=
    ⟨by decide, [], (0x00, 0x00), [(0x01, 0x00), (0x02, 0x00)], rfl, trivial, rfl⟩
  exact ⟨hr, ht, (C21_failure_values regFile idleBus 0 60 0 (failAt 32)
    (Bus.mk (0, fun _ => 0) []) 0 0 0 32).2.2.2 hr ht (by decide)⟩

/-! ## Bits a decoding depends on -/

theorem mod_land (x m k : Nat) (hm : (2 ^ k - 1) &&& m = m) : (x % 2 ^ k) &&& m = x &&& m := by
  rw [← Nat.and_pow_two_sub_one_eq_mod, Nat.land_assoc, hm]

theorem mod_eq_of_testBit (x y k : Nat) (h : ∀ i, i < k → x.testBit i = y.testBit i) :
    x % 2 ^ k = y % 2 ^ k := by
  apply Nat.eq_of_testBit_eq
  intro i
  rw [Nat.testBit_mod_two_pow, Nat.testBit_mod_two_pow]
  by_cases hi : i < k
  · simp [hi, h i hi]
  · simp [hi]

/-- A decoding with tens mask `m` below `2 ^ k` depends on the low `k` bits only. -/
theorem decodeBcd_mod (m k x : Nat) (h4 : (2 ^ k - 1) &&& 0x0F = 0x0F)
    (hm : (2 ^ k - 1) &&& m = m) : decodeBcd m (x % 2 ^ k) = decodeBcd m x := by
  simp only [decodeBcd]
  rw [mod_land x 0x0F k h4, mod_land x m k hm]

theorem decodeBcd_congr (m k x y : Nat) (h4 : (2 ^ k - 1) &&& 0x0F = 0x0F)
    (hm : (2 ^ k - 1) &&& m = m) (h : ∀ i, i < k → x.testBit i = y.testBit i) :
    decodeBcd m x = decodeBcd m y := by
  rw [← decodeBcd_mod m k x h4 hm, ← decodeBcd_mod m k y h4 hm, mod_eq_of_testBit x y k h]

set_option maxRecDepth 100000 in
theorem decodeBcd_digits_byte : ∀ x, x < 256 →
    decodeBcd 0x70 x = x % 16 + 10 * (x / 16 % 8) ∧
    decodeBcd 0x30 x = x % 16 + 10 * (x / 16 % 4) ∧
    decodeBcd 0x10 x = x % 16 + 10 * (x / 16 % 2) ∧
    decodeBcd 0xF0 x = x % 16 + 10 * (x / 16 % 16) := by
  decide

/-- Each decoding is the low nibble plus ten times the masked tens bits. -/
theorem decodeBcd_digits (x : Nat) :
    decodeBcd 0x70 x = x % 16 + 10 * (x / 16 % 8) ∧
    decodeBcd 0x30 x = x % 16 + 10 * (x / 16 % 4) ∧
    decodeBcd 0x10 x = x % 16 + 10 * (x / 16 % 2) ∧
    decodeBcd 0xF0 x = x % 16 + 10 * (x / 16 % 16) := by
  have hb := decodeBcd_digits_byte (x % 256) (Nat.mod_lt _ (by norm_num))
  have e70 := decodeBcd_mod 0x70 8 x (by decide) (by decide)
  have e30 := decodeBcd_mod 0x30 8 x (by decide) (by decide)
  have e10 := decodeBcd_mod 0x10 8 x (by decide) (by decide)
  have eF0 := decodeBcd_mod 0xF0 8 x (by decide) (by decide)
  have p : (2 : Nat) ^ 8 = 256 := by norm_num
  rw [p] at e70 e30 e10 eF0
  rw [e70, e30, e10, eF0] at hb
  obtain ⟨h1, h2, h3, h4⟩ := hb
  refine ⟨?_, ?_, ?_, ?_⟩
  · rw [h1]; omega
  · rw [h2]; omega
  · rw [h3]; omega
  · rw [h4]; omega

set_option maxRecDepth 100000 in
/-- Inverting any one of the eight bits of a byte changes its year decoding. -/
theorem year_uses_every_bit : ∀ x, x < 256 → ∀ i, i < 8 →
    decodeBcd 0xF0 (x ^^^ 2 ^ i) ≠ decodeBcd 0xF0 x := by
  decide

/-! ## `DS3231_SetAlarm2` is `DS3231_SetAlarm1` without the seconds step -/

theorem AlarmMatch_refl_code {σ τ : Type} (b1 : Bus σ) (b2 : Bus τ) (c : Nat) :
    AlarmMatch b1 (c, b1) b2 (c, b2) :=
  ⟨rfl, [], by simp [writesOf], by simp [writesOf], by simp⟩

/-- One succeeding write on each side, to registers 3 apart with the same byte, followed
by matching continuations. -/
theorem AlarmMatch_step {σ τ : Type} (t1 : Transport σ) (t2 : Transport τ)
    (hw1 : WritesSucceed t1) (hw2 : WritesSucceed t2) (b1 : Bus σ) (b2 : Bus τ)
    (reg val : Nat) (hreg : reg ∈ [0x0B, 0x0C, 0x0D])
    (k1 : Bus σ → Nat × Bus σ) (k2 : Bus τ → Nat × Bus τ)
    (hk : ∀ c1 c2, AlarmMatch c1 (k1 c1) c2 (k2 c2)) :
    AlarmMatch b1
      (if (writeReg t1 b1 (reg - 3) val).1 ≠ 0
        then ((writeReg t1 b1 (reg - 3) val).1, (writeReg t1 b1 (reg - 3) val).2)
        else k1 (writeReg t1 b1 (reg - 3) val).2)
      b2
      (if (writeReg t2 b2 reg val).1 ≠ 0
        then ((writeReg t2 b2 reg val).1, (writeReg t2 b2 reg val).2)
        else k2 (writeReg t2 b2 reg val).2) := by
  have e1 : ¬ (writeReg t1 b1 (reg - 3) val).1 ≠ 0 := by
    rw [writeReg_ok t1 hw1]; exact fun h => h rfl
  have e2 : ¬ (writeReg t2 b2 reg val).1 ≠ 0 := by
    rw [writeReg_ok t2 hw2]; exact fun h => h rfl
  rw [if_neg e1, if_neg e2]
  obtain ⟨hc, ws, h2, h1, hregs⟩ := hk (writeReg t1 b1 (reg - 3) val).2 (writeReg t2 b2 reg val).2
  refine ⟨hc, (reg, val) :: ws, ?_, ?_, ?_⟩
  · rw [h2, writeReg_log]
    simp [writesOf]
  · rw [h1, writeReg_log]
    simp [writesOf, lowered]
  · intro rv hrv
    rcases List.mem_cons.1 hrv with h | h
    · rw [h]; exact hreg
    · exact hregs rv h

theorem dydt_match {σ τ : Type} (t1 : Transport σ) (t2 : Transport τ)
    (hw1 : WritesSucceed t1) (hw2 : WritesSucceed t2) (d dom : Nat) (b1 : Bus σ) (b2 : Bus τ) :
    AlarmMatch b1 (SetAlarm1_dydt t1 b1 d dom) b2 (SetAlarm2_dydt t2 b2 d dom) := by
  have hk : ∀ (c1 : Bus σ) (c2 : Bus τ),
      AlarmMatch c1 ((fun c => ((0 : Nat), c)) c1) c2 ((fun c => ((0 : Nat), c)) c2) :=
    fun c1 c2 => AlarmMatch_refl_code c1 c2 0
  unfold SetAlarm1_dydt SetAlarm2_dydt
  simp only [ALARM1_DYDT_ADDRESS, ALARM2_DYDT_ADDRESS]
  by_cases c1 : d ≤ 7 ∧ dom ≤ 31
  · simp only [if_pos c1]
    exact AlarmMatch_refl_code b1 b2 5
  · simp only [if_neg c1]
    by_cases c2 : d ≤ 7 ∧ dom = 255
    · simp only [if_pos c2]
      exact AlarmMatch_step t1 t2 hw1 hw2 b1 b2 0x0D _ (by decide) _ _ hk
    · simp only [if_neg c2]
      by_cases c3 : d = 255 ∧ dom ≤ 31
      · simp only [if_pos c3]
        exact AlarmMatch_step t1 t2 hw1 hw2 b1 b2 0x0D _ (by decide) _ _ hk
      · simp only [if_neg c3]
        by_cases c4 : d = 255 ∧ dom = 255
        · simp only [if_pos c4]
          exact AlarmMatch_step t1 t2 hw1 hw2 b1 b2 0x0D _ (by decide) _ _ hk
        · simp only [if_neg c4]
          exact AlarmMatch_refl_code b1 b2 6

theorem hours_match {σ τ : Type} (t1 : Transport σ) (t2 : Transport τ)
    (hw1 : WritesSucceed t1) (hw2 : WritesSucceed t2) (h d dom : Nat) (b1 : Bus σ)
    (b2 : Bus τ) :
    AlarmMatch b1 (SetAlarm1_hours t1 b1 h d dom) b2 (SetAlarm2_hours t2 b2 h d dom) := by
  have hk := fun (c1 : Bus σ) (c2 : Bus τ) => dydt_match t1 t2 hw1 hw2 d dom c1 c2
  unfold SetAlarm1_hours SetAlarm2_hours
  simp only [ALARM1_HOUR_ADDRESS, ALARM2_HOUR_ADDRESS]
  by_cases c1 : h < 24
  · simp only [if_pos c1]
    exact AlarmMatch_step t1 t2 hw1 hw2 b1 b2 0x0C _ (by decide) _ _ hk
  · simp only [if_neg c1]
    by_cases c2 : h = 255
    · simp only [if_pos c2]
      exact AlarmMatch_step t1 t2 hw1 hw2 b1 b2 0x0C _ (by decide) _ _ hk
    · simp only [if_neg c2]
      exact AlarmMatch_refl_code b1 b2 4

theorem minutes_match {σ τ : Type} (t1 : Transport σ) (t2 : Transport τ)
    (hw1 : WritesSucceed t1) (hw2 : WritesSucceed t2) (m h d dom : Nat) (b1 : Bus σ)
    (b2 : Bus τ) :
    AlarmMatch b1 (SetAlarm1_minutes t1 b1 m h d dom) b2
      (DS3231_SetAlarm2 t2 b2 m h d dom) := by
  have hk := fun (c1 : Bus σ) (c2 : Bus τ) => hours_match t1 t2 hw1 hw2 h d dom c1 c2
  unfold SetAlarm1_minutes DS3231_SetAlarm2
  simp only [ALARM1_MIN_ADDRESS, ALARM2_MIN_ADDRESS]
  by_cases c1 : m < 60
  · simp only [if_pos c1]
    exact AlarmMatch_step t1 t2 hw1 hw2 b1 b2 0x0B _ (by decide) _ _ hk
  · simp only [if_neg c1]
    by_cases c2 : m = 255
    · simp only [if_pos c2]
      exact AlarmMatch_step t1 t2 hw1 hw2 b1 b2 0x0B _ (by decide) _ _ hk
    · simp only [if_neg c2]
      exact AlarmMatch_refl_code b1 b2 3

/-- C23: over transports whose writes all succeed, for every minutes, hours, day and day
of month and every seconds below 60 or equal to 255, `DS3231_SetAlarm1` returns the same
code as `DS3231_SetAlarm2`, and the traffic of alarm 1 is its seconds write to `0x07`
followed by the writes of alarm 2 (all to `0x0B`, `0x0C`, `0x0D`), in the same order and
with the same bytes, each register address lowered by 3. -/
theorem C23_alarm2_is_alarm1_without_seconds {σ τ : Type} (t1 : Transport σ)
    (t2 : Transport τ) (hw1 : WritesSucceed t1) (hw2 : WritesSucceed t2)
    (b1 : Bus σ) (b2 : Bus τ) (s m h d dom : Nat) (hs : s < 60 ∨ s = 255) :
    (DS3231_SetAlarm1 t1 b1 s m h d dom).1 = (DS3231_SetAlarm2 t2 b2 m h d dom).1 ∧
    ∃ ws, (DS3231_SetAlarm2 t2 b2 m h d dom).2.log = b2.log ++ writesOf ws ∧
      (DS3231_SetAlarm1 t1 b1 s m h d dom).2.log
        = b1.log ++ writesOf ((0x07, matchByte s) :: ws.map lowered) ∧
      (∀ rv ∈ ws, rv.1 ∈ [0x0B, 0x0C, 0x0D]) ∧
      lowered (0x0B, 0) = (0x08, 0) ∧ lowered (0x0C, 0) = (0x09, 0) ∧
      lowered (0x0D, 0) = (0x0A, 0) := by
  rw [SetAlarm1_ok t1 hw1 b1 s m h d dom hs]
  obtain ⟨hc, ws, h2, h1, hregs⟩ :=
    minutes_match t1 t2 hw1 hw2 m h d dom (writeReg t1 b1 0x07 (matchByte s)).2 b2
  refine ⟨hc, ws, h2, ?_, hregs, rfl, rfl, rfl⟩
  rw [h1, writeReg_log]
  simp [writesOf]

/-- Witness of C23 on the register-file transport: with seconds 30, minutes 15, hours 255
and day of month 7, both functions return 0 and alarm 1 writes `0x07` and then the writes
of alarm 2 lowered by 3. -/
theorem C23_alarm2_is_alarm1_without_seconds_witness :
    WritesSucceed regFile ∧ (30 < 60 ∨ 30 = 255) ∧
    (DS3231_SetAlarm1 regFile idleBus 30 15 255 255 7).1
      = (DS3231_SetAlarm2 regFile idleBus 15 255 255 7).1 ∧
    (DS3231_SetAlarm2 regFile idleBus 15 255 255 7).2.log
      = writesOf [(0x0B, 0x15), (0x0C, 0x80), (0x0D, 0x07)] ∧
    (DS3231_SetAlarm1 regFile idleBus 30 15 255 255 7).2.log
      = writesOf [(0x07, 0x30), (0x08, 0x15), (0x09, 0x80), (0x0A, 0x07)] :=
  ⟨regFile_writesSucceed, by decide,
    (C23_alarm2_is_alarm1_without_seconds regFile regFile regFile_writesSucceed
      regFile_writesSucceed idleBus idleBus 30 15 255 255 7 (by decide)).1, rfl, rfl⟩

/-! ## Outputs of a read call that fails -/

/-- C24: when a register read inside `DS3231_ReadTime` or `DS3231_ReadDate` fails (the
reads before it, of the requested fields, having succeeded), the call returns the failing
code, the output variable of each requested field read before the failing one holds its
newly decoded value, and the output variables of the failing field and of every later
field are exactly as they were before the call. -/
theorem C24_outputs_on_read_failure {σ : Type} (t : Transport σ) (b : Bus σ)
    (p1 p2 p3 : Option Nat) :
    ((p1.isSome = true → readCode t b.st 0x00 ≠ 0 →
        DS3231_ReadTime t b p1 p2 p3
          = ReadOut.mk (readCode t b.st 0x00) p1 p2 p3
              (Bus.mk (stateAfterReads t b.st [0x00]) (b.log ++ readsOf [0x00]))) ∧
      ((p1.isSome = true → readCode t b.st 0x00 = 0) → p2.isSome = true →
        readCode t (stateAfterField t b.st p1 0x00) 0x01 ≠ 0 →
        (DS3231_ReadTime t b p1 p2 p3).ret
            = readCode t (stateAfterField t b.st p1 0x00) 0x01 ∧
          (DS3231_ReadTime t b p1 p2 p3).out1
            = p1.map (fun _ => decodeBcd 0x70 (byteRead t b.st 0x00)) ∧
          (DS3231_ReadTime t b p1 p2 p3).out2 = p2 ∧
          (DS3231_ReadTime t b p1 p2 p3).out3 = p3) ∧
      ((p1.isSome = true → readCode t b.st 0x00 = 0) →
        (p2.isSome = true → readCode t (stateAfterField t b.st p1 0x00) 0x01 = 0) →
        p3.isSome = true →
        readCode t (stateAfterField t (stateAfterField t b.st p1 0x00) p2 0x01) 0x02 ≠ 0 →
        (DS3231_ReadTime t b p1 p2 p3).ret
            = readCode t (stateAfterField t (stateAfterField t b.st p1 0x00) p2 0x01) 0x02 ∧
          (DS3231_ReadTime t b p1 p2 p3).out1
            = p1.map (fun _ => decodeBcd 0x70 (byteRead t b.st 0x00)) ∧
          (DS3231_ReadTime t b p1 p2 p3).out2
            = p2.map (fun _ => decodeBcd 0x70
                (byteRead t (stateAfterField t b.st p1 0x00) 0x01)) ∧
          (DS3231_ReadTime t b p1 p2 p3).out3 = p3)) ∧
    ((p1.isSome = true → readCode t b.st 0x04 ≠ 0 →
        DS3231_ReadDate t b p1 p2 p3
          = ReadOut.mk (readCode t b.st 0x04) p1 p2 p3
              (Bus.mk (stateAfterReads t b.st [0x04]) (b.log ++ readsOf [0x04]))) ∧
      ((p1.isSome = true → readCode t b.st 0x04 = 0) → p2.isSome = true →
        readCode t (stateAfterField t b.st p1 0x04) 0x05 ≠ 0 →
        (DS3231_ReadDate t b p1 p2 p3).ret
            = readCode t (stateAfterField t b.st p1 0x04) 0x05 ∧
          (DS3231_ReadDate t b p1 p2 p3).out1
            = p1.map (fun _ => decodeBcd 0x30 (byteRead t b.st 0x04)) ∧
          (DS3231_ReadDate t b p1 p2 p3).out2 = p2 ∧
          (DS3231_ReadDate t b p1 p2 p3).out3 = p3) ∧
      ((p1.isSome = true → readCode t b.st 0x04 = 0) →
        (p2.isSome = true → readCode t (stateAfterField t b.st p1 0x04) 0x05 = 0) →
        p3.isSome = true →
        readCode t (stateAfterField t (stateAfterField t b.st p1 0x04) p2 0x05) 0x06 ≠ 0 →
        (DS3231_ReadDate t b p1 p2 p3).ret
            = readCode t (stateAfterField t (stateAfterField t b.st p1 0x04) p2 0x05) 0x06 ∧
          (DS3231_ReadDate t b p1 p2 p3).out1
            = p1.map (fun _ => decodeBcd 0x30 (byteRead t b.st 0x04)) ∧
          (DS3231_ReadDate t b p1 p2 p3).out2
            = p2.map (fun _ => decodeBcd 0x10
                (byteRead t (stateAfterField t b.st p1 0x04) 0x05)) ∧
          (DS3231_ReadDate t b p1 p2 p3).out3 = p3)) := by
  refine ⟨⟨?_, ?_, ?_⟩, ⟨?_, ?_, ?_⟩⟩
  · intro h1 hc
    obtain ⟨v1, rfl⟩ := Option.isSome_iff_exists.1 h1
    have hc1 : (readReg t b 0).1 ≠ 0 := hc
    simp only [DS3231_ReadTime, SECONDS_ADDRESS, Option.isSome_some, if_true, if_pos hc1]
    rfl
  · intro h1 h2 hc
    obtain ⟨v2, rfl⟩ := Option.isSome_iff_exists.1 h2
    cases p1 with
    | none =>
      have hc1 : (readReg t b 1).1 ≠ 0 := hc
      simp only [DS3231_ReadTime, ReadTime_minutes, MINUTES_ADDRESS, Option.isSome_some,
        Option.isSome_none, if_true, if_pos hc1, Bool.false_eq_true, if_false]
      refine ⟨?_, ?_, ?_, ?_⟩ <;> trivial
    | some v1 =>
      have h0 : (readReg t b 0).1 = 0 := h1 rfl
      have h0n : ¬ (readReg t b 0).1 ≠ 0 := fun h => h h0
      have hc1 : (readReg t (readReg t b 0).2.2 1).1 ≠ 0 := hc
      simp only [DS3231_ReadTime, ReadTime_minutes, SECONDS_ADDRESS, MINUTES_ADDRESS,
        Option.isSome_some, if_true, if_neg h0n, if_pos hc1]
      refine ⟨?_, ?_, ?_, ?_⟩ <;> trivial
  · intro h1 h2 h3 hc
    obtain ⟨v3, rfl⟩ := Option.isSome_iff_exists.1 h3
    cases p1 with
    | none =>
      cases p2 with
      | none =>
        have hc1 : (readReg t b 2).1 ≠ 0 := hc
        simp only [DS3231_ReadTime, ReadTime_minutes, ReadTime_hours, HOURS_ADDRESS,
          Option.isSome_some, Option.isSome_none, if_true, if_pos hc1, Bool.false_eq_true,
          if_false]
        refine ⟨?_, ?_, ?_, ?_⟩ <;> trivial
      | some v2 =>
        have h0 : (readReg t b 1).1 = 0 := h2 rfl
        have h0n : ¬ (readReg t b 1).1 ≠ 0 := fun h => h h0
        have hc1 : (readReg t (readReg t b 1).2.2 2).1 ≠ 0 := hc
        simp only [DS3231_ReadTime, ReadTime_minutes, ReadTime_hours, MINUTES_ADDRESS,
          HOURS_ADDRESS, Option.isSome_some, Option.isSome_none, if_true, if_neg h0n,
          if_pos hc1, Bool.false_eq_true, if_false]
        refine ⟨?_, ?_, ?_, ?_⟩ <;> trivial
    | some v1 =>
      have h0 : (readReg t b 0).1 = 0 := h1 rfl
      have h0n : ¬ (readReg t b 0).1 ≠ 0 := fun h => h h0
      cases p2 with
      | none =>
        have hc1 : (readReg t (readReg t b 0).2.2 2).1 ≠ 0 := hc
        simp only [DS3231_ReadTime, ReadTime_minutes, ReadTime_hours, SECONDS_ADDRESS,
          HOURS_ADDRESS, Option.isSome_some, Option.isSome_none, if_true, if_neg h0n,
          if_pos hc1, Bool.false_eq_true, if_false]
        refine ⟨?_, ?_, ?_, ?_⟩ <;> trivial
      | some v2 =>
        have g0 : (readReg t (readReg t b 0).2.2 1).1 = 0 := h2 rfl
        have g0n : ¬ (readReg t (readReg t b 0).2.2 1).1 ≠ 0 := fun h => h g0
        have hc1 : (readReg t (readReg t (readReg t b 0).2.2 1).2.2 2).1 ≠ 0 := hc
        simp only [DS3231_ReadTime, ReadTime_minutes, ReadTime_hours, SECONDS_ADDRESS,
          MINUTES_ADDRESS, HOURS_ADDRESS, Option.isSome_some, if_true, if_neg h0n,
          if_neg g0n, if_pos hc1]
        refine ⟨?_, ?_, ?_, ?_⟩ <;> trivial
  · intro h1 hc
    obtain ⟨v1, rfl⟩ := Option.isSome_iff_exists.1 h1
    have hc1 : (readReg t b 4).1 ≠ 0 := hc
    simp only [DS3231_ReadDate, DATE_ADDRESS, Option.isSome_some, if_true, if_pos hc1]
    rfl
  · intro h1 h2 hc
    obtain ⟨v2, rfl⟩ := Option.isSome_iff_exists.1 h2
    cases p1 with
    | none =>
      have hc1 : (readReg t b 5).1 ≠ 0 := hc
      simp only [DS3231_ReadDate, ReadDate_month, MONTH_ADDRESS, Option.isSome_some,
        Option.isSome_none, if_true, if_pos hc1, Bool.false_eq_true, if_false]
      refine ⟨?_, ?_, ?_, ?_⟩ <;> trivial
    | some v1 =>
      have h0 : (readReg t b 4).1 = 0 := h1 rfl
      have h0n : ¬ (readReg t b 4).1 ≠ 0 := fun h => h h0
      have hc1 : (readReg t (readReg t b 4).2.2 5).1 ≠ 0 := hc
      simp only [DS3231_ReadDate, ReadDate_month, DATE_ADDRESS, MONTH_ADDRESS,
        Option.isSome_some, if_true, if_neg h0n, if_pos hc1]
      refine ⟨?_, ?_, ?_, ?_⟩ <;> trivial
  · intro h1 h2 h3 hc
    obtain ⟨v3, rfl⟩ := Option.isSome_iff_exists.1 h3
    cases p1 with
    | none =>
      cases p2 with
      | none =>
        have hc1 : (readReg t b 6).1 ≠ 0 := hc
        simp only [DS3231_ReadDate, ReadDate_month, ReadDate_year, YEAR_ADDRESS,
          Option.isSome_some, Option.isSome_none, if_true, if_pos hc1, Bool.false_eq_true,
          if_false]
        refine ⟨?_, ?_, ?_, ?_⟩ <;> trivial
      | some v2 =>
        have h0 : (readReg t b 5).1 = 0 := h2 rfl
        have h0n : ¬ (readReg t b 5).1 ≠ 0 := fun h => h h0
        have hc1 : (readReg t (readReg t b 5).2.2 6).1 ≠ 0 := hc
        simp only [DS3231_ReadDate, ReadDate_month, ReadDate_year, MONTH_ADDRESS,
          YEAR_ADDRESS, Option.isSome_some, Option.isSome_none, if_true, if_neg h0n,
          if_pos hc1, Bool.false_eq_true, if_false]
        refine ⟨?_, ?_, ?_, ?_⟩ <;> trivial
    | some v1 =>
      have h0 : (readReg t b 4).1 = 0 := h1 rfl
      have h0n : ¬ (readReg t b 4).1 ≠ 0 := fun h => h h0
      cases p2 with
      | none =>
        have hc1 : (readReg t (readReg t b 4).2.2 6).1 ≠ 0 := hc
        simp only [DS3231_ReadDate, ReadDate_month, ReadDate_year, DATE_ADDRESS,
          YEAR_ADDRESS, Option.isSome_some, Option.isSome_none, if_true, if_neg h0n,
          if_pos hc1, Bool.false_eq_true, if_false]
        refine ⟨?_, ?_, ?_, ?_⟩ <;> trivial
      | some v2 =>
        have g0 : (readReg t (readReg t b 4).2.2 5).1 = 0 := h2 rfl
        have g0n : ¬ (readReg t (readReg t b 4).2.2 5).1 ≠ 0 := fun h => h g0
        have hc1 : (readReg t (readReg t (readReg t b 4).2.2 5).2.2 6).1 ≠ 0 := hc
        simp only [DS3231_ReadDate, ReadDate_month, ReadDate_year, DATE_ADDRESS,
          MONTH_ADDRESS, YEAR_ADDRESS, Option.isSome_some, if_true, if_neg h0n,
          if_neg g0n, if_pos hc1]
        refine ⟨?_, ?_, ?_, ?_⟩ <;> trivial

/-- Witness of C24 on a register file holding `0x25` everywhere whose second call fails
with code 9: `DS3231_ReadTime` with output variables holding 7, 8, 9 returns 9 with the
seconds variable updated to 25 and the minutes and hours variables still 8 and 9. -/
theorem C24_outputs_on_read_failure_witness :
    (DS3231_ReadTime (failAt 9) (Bus.mk (1, fun _ => 0x25) []) (some 7) (some 8) (some 9)).ret
      = 9 ∧
    (DS3231_ReadTime (failAt 9) (Bus.mk (1, fun _ => 0x25) []) (some 7) (some 8) (some 9)).out1
      = some 25 ∧
    (DS3231_ReadTime (failAt 9) (Bus.mk (1, fun _ => 0x25) []) (some 7) (some 8) (some 9)).out2
      = some 8 ∧
    (DS3231_ReadTime (failAt 9) (Bus.mk (1, fun _ => 0x25) []) (some 7) (some 8) (some 9)).out3
      = some 9 :=
  (C24_outputs_on_read_failure (failAt 9) (Bus.mk (1, fun _ => 0x25) [])
    (some 7) (some 8) (some 9)).1.2.1 (fun _ => rfl) rfl (by decide)

/-! ## Each time field of an alarm on its own -/

theorem WritesAmong_nil (pairs : List (Nat × Nat)) : WritesAmong pairs [] := by
  intro op hop
  cases hop

/-- One write-then-continue step: when the continuation only issues writes among `pairs`,
so does the step, provided its own write is among `pairs`. -/
theorem step_among {σ : Type} (pairs : List (Nat × Nat)) (t : Transport σ) (b : Bus σ)
    (reg val : Nat) (k : Bus σ → Nat × Bus σ) (hrv : (reg, val) ∈ pairs)
    (hk : ∀ c : Bus σ, ∃ ext, (k c).2.log = c.log ++ ext ∧ WritesAmong pairs ext) :
    ∃ ext, (if (writeReg t b reg val).1 ≠ 0
              then ((writeReg t b reg val).1, (writeReg t b reg val).2)
              else k (writeReg t b reg val).2).2.log = b.log ++ ext ∧
      WritesAmong pairs ext := by
  have hone : WritesAmong pairs (writesOf [(reg, val)]) := by
    intro op hop
    simp only [writesOf, List.map_cons, List.map_nil, List.mem_singleton] at hop
    exact ⟨(reg, val), hrv, hop⟩
  split_ifs with hc
  · exact ⟨writesOf [(reg, val)], writeReg_log t b reg val, hone⟩
  · obtain ⟨ext, he, ho⟩ := hk (writeReg t b reg val).2
    refine ⟨writesOf [(reg, val)] ++ ext, ?_, ?_⟩
    · rw [he, writeReg_log, List.append_assoc]
    · intro op hop
      rcases List.mem_append.1 hop with h | h
      · exact hone op h
      · exact ho op h

theorem matchByte_of_lt (v : Nat) (h : v < 60) : encodeBcd v = matchByte v :=
  (matchByte_lt_60 v h).1.symm

theorem matchByte_of_wild (v : Nat) (h : v = 255) : (0x80 : Nat) = matchByte v := by
  rw [h]; rfl

theorem SetAlarm1_dydt_among {σ : Type} (t : Transport σ) (s m h d dom : Nat) (b : Bus σ) :
    ∃ ext, (SetAlarm1_dydt t b d dom).2.log = b.log ++ ext ∧
      WritesAmong (alarm1Pairs s m h d dom) ext := by
  have hk : ∀ c : Bus σ, ∃ ext, ((fun c => ((0 : Nat), c)) c).2.log = c.log ++ ext ∧
      WritesAmong (alarm1Pairs s m h d dom) ext := fun c => ⟨[], by simp, WritesAmong_nil _⟩
  unfold SetAlarm1_dydt
  split_ifs
  · exact ⟨[], by simp, WritesAmong_nil _⟩
  · exact step_among _ t b _ _ _ (by simp [alarm1Pairs, ALARM1_DYDT_ADDRESS]) hk
  · exact step_among _ t b _ _ _ (by simp [alarm1Pairs, ALARM1_DYDT_ADDRESS]) hk
  · exact step_among _ t b _ _ _ (by simp [alarm1Pairs, ALARM1_DYDT_ADDRESS]) hk
  · exact ⟨[], by simp, WritesAmong_nil _⟩

theorem SetAlarm1_hours_among {σ : Type} (t : Transport σ) (s m h d dom : Nat) (b : Bus σ) :
    ∃ ext, (SetAlarm1_hours t b h d dom).2.log = b.log ++ ext ∧
      WritesAmong (alarm1Pairs s m h d dom) ext := by
  have hk := fun c : Bus σ => SetAlarm1_dydt_among t s m h d dom c
  unfold SetAlarm1_hours
  split_ifs with c1 c2
  · exact step_among _ t b _ _ _
      (by simp [alarm1Pairs, ALARM1_HOUR_ADDRESS, matchByte_of_lt h (by omega)]) hk
  · exact step_among _ t b _ _ _
      (by simp [alarm1Pairs, ALARM1_HOUR_ADDRESS, ← matchByte_of_wild h c2]) hk
  · exact ⟨[], by simp, WritesAmong_nil _⟩

theorem SetAlarm1_minutes_among {σ : Type} (t : Transport σ) (s m h d dom : Nat)
    (b : Bus σ) :
    ∃ ext, (SetAlarm1_minutes t b m h d dom).2.log = b.log ++ ext ∧
      WritesAmong (alarm1Pairs s m h d dom) ext := by
  have hk := fun c : Bus σ => SetAlarm1_hours_among t s m h d dom c
  unfold SetAlarm1_minutes
  split_ifs with c1 c2
  · exact step_among _ t b _ _ _
      (by simp [alarm1Pairs, ALARM1_MIN_ADDRESS, matchByte_of_lt m c1]) hk
  · exact step_among _ t b _ _ _
      (by simp [alarm1Pairs, ALARM1_MIN_ADDRESS, ← matchByte_of_wild m c2]) hk
  · exact ⟨[], by simp, WritesAmong_nil _⟩

theorem SetAlarm1_among {σ : Type} (t : Transport σ) (s m h d dom : Nat) (b : Bus σ) :
    ∃ ext, (DS3231_SetAlarm1 t b s m h d dom).2.log = b.log ++ ext ∧
      WritesAmong (alarm1Pairs s m h d dom) ext := by
  have hk := fun c : Bus σ => SetAlarm1_minutes_among t s m h d dom c
  unfold DS3231_SetAlarm1
  split_ifs with c1 c2
  · exact step_among _ t b _ _ _
      (by simp [alarm1Pairs, ALARM1_SEC_ADDRESS, matchByte_of_lt s c1]) hk
  · exact step_among _ t b _ _ _
      (by simp [alarm1Pairs, ALARM1_SEC_ADDRESS, ← matchByte_of_wild s c2]) hk
  · exact ⟨[], by simp, WritesAmong_nil _⟩

theorem SetAlarm2_dydt_among {σ : Type} (t : Transport σ) (m h d dom : Nat) (b : Bus σ) :
    ∃ ext, (SetAlarm2_dydt t b d dom).2.log = b.log ++ ext ∧
      WritesAmong (alarm2Pairs m h d dom) ext := by
  have hk : ∀ c : Bus σ, ∃ ext, ((fun c => ((0 : Nat), c)) c).2.log = c.log ++ ext ∧
      WritesAmong (alarm2Pairs m h d dom) ext := fun c => ⟨[], by simp, WritesAmong_nil _⟩
  unfold SetAlarm2_dydt
  split_ifs
  · exact ⟨[], by simp, WritesAmong_nil _⟩
  · exact step_among _ t b _ _ _ (by simp [alarm2Pairs, ALARM2_DYDT_ADDRESS]) hk
  · exact step_among _ t b _ _ _ (by simp [alarm2Pairs, ALARM2_DYDT_ADDRESS]) hk
  · exact step_among _ t b _ _ _ (by simp [alarm2Pairs, ALARM2_DYDT_ADDRESS]) hk
  · exact ⟨[], by simp, WritesAmong_nil _⟩

theorem SetAlarm2_hours_among {σ : Type} (t : Transport σ) (m h d dom : Nat) (b : Bus σ) :
    ∃ ext, (SetAlarm2_hours t b h d dom).2.log = b.log ++ ext ∧
      WritesAmong (alarm2Pairs m h d dom) ext := by
  have hk := fun c : Bus σ => SetAlarm2_dydt_among t m h d dom c
  unfold SetAlarm2_hours
  split_ifs with c1 c2
  · exact step_among _ t b _ _ _
      (by simp [alarm2Pairs, ALARM2_HOUR_ADDRESS, matchByte_of_lt h (by omega)]) hk
  · exact step_among _ t b _ _ _
      (by simp [alarm2Pairs, ALARM2_HOUR_ADDRESS, ← matchByte_of_wild h c2]) hk
  · exact ⟨[], by simp, WritesAmong_nil _⟩

theorem SetAlarm2_among {σ : Type} (t : Transport σ) (m h d dom : Nat) (b : Bus σ) :
    ∃ ext, (DS3231_SetAlarm2 t b m h d dom).2.log = b.log ++ ext ∧
      WritesAmong (alarm2Pairs m h d dom) ext := by
  have hk := fun c : Bus σ => SetAlarm2_hours_among t m h d dom c
  unfold DS3231_SetAlarm2
  split_ifs with c1 c2
  · exact step_among _ t b _ _ _
      (by simp [alarm2Pairs, ALARM2_MIN_ADDRESS, matchByte_of_lt m c1]) hk
  · exact step_among _ t b _ _ _
      (by simp [alarm2Pairs, ALARM2_MIN_ADDRESS, ← matchByte_of_wild m c2]) hk
  · exact ⟨[], by simp, WritesAmong_nil _⟩

theorem SetAlarm1_dydt_only {σ : Type} (regs : List Nat) (hA : 0x0A ∈ regs)
    (t : Transport σ) (d dom : Nat) (b : Bus σ) :
    ∃ ext, (SetAlarm1_dydt t b d dom).2.log = b.log ++ ext ∧ OnlyWritesTo regs ext := by
  rcases SetAlarm1_dydt_log t b d dom with h | ⟨v, h⟩
  · exact ⟨[], by rw [h]; simp, OnlyWritesTo_nil _⟩
  · exact ⟨_, h, OnlyWritesTo_single regs 0x0A v hA⟩

theorem SetAlarm1_hours_only {σ : Type} (regs : List Nat) (h9 : 0x09 ∈ regs)
    (hA : 0x0A ∈ regs) (t : Transport σ) (h d dom : Nat) (b : Bus σ) :
    ∃ ext, (SetAlarm1_hours t b h d dom).2.log = b.log ++ ext ∧ OnlyWritesTo regs ext := by
  have hk := fun c : Bus σ => SetAlarm1_dydt_only regs hA t d dom c
  unfold SetAlarm1_hours
  split_ifs
  · exact step_onlyWrites _ t b _ _ _ h9 hk
  · exact step_onlyWrites _ t b _ _ _ h9 hk
  · exact ⟨[], by simp, OnlyWritesTo_nil _⟩

theorem SetAlarm1_minutes_only {σ : Type} (regs : List Nat) (h8 : 0x08 ∈ regs)
    (h9 : 0x09 ∈ regs) (hA : 0x0A ∈ regs) (t : Transport σ) (m h d dom : Nat) (b : Bus σ) :
    ∃ ext, (SetAlarm1_minutes t b m h d dom).2.log = b.log ++ ext ∧
      OnlyWritesTo regs ext := by
  have hk := fun c : Bus σ => SetAlarm1_hours_only regs h9 hA t h d dom c
  unfold SetAlarm1_minutes
  split_ifs
  · exact step_onlyWrites _ t b _ _ _ h8 hk
  · exact step_onlyWrites _ t b _ _ _ h8 hk
  · exact ⟨[], by simp, OnlyWritesTo_nil _⟩

theorem SetAlarm2_dydt_only {σ : Type} (regs : List Nat) (hD : 0x0D ∈ regs)
    (t : Transport σ) (d dom : Nat) (b : Bus σ) :
    ∃ ext, (SetAlarm2_dydt t b d dom).2.log = b.log ++ ext ∧ OnlyWritesTo regs ext := by
  rcases SetAlarm2_dydt_log t b d dom with h | ⟨v, h⟩
  · exact ⟨[], by rw [h]; simp, OnlyWritesTo_nil _⟩
  · exact ⟨_, h, OnlyWritesTo_single regs 0x0D v hD⟩

theorem SetAlarm2_hours_only {σ : Type} (regs : List Nat) (hC : 0x0C ∈ regs)
    (hD : 0x0D ∈ regs) (t : Transport σ) (h d dom : Nat) (b : Bus σ) :
    ∃ ext, (SetAlarm2_hours t b h d dom).2.log = b.log ++ ext ∧ OnlyWritesTo regs ext := by
  have hk := fun c : Bus σ => SetAlarm2_dydt_only regs hD t d dom c
  unfold SetAlarm2_hours
  split_ifs
  · exact step_onlyWrites _ t b _ _ _ hC hk
  · exact step_onlyWrites _ t b _ _ _ hC hk
  · exact ⟨[], by simp, OnlyWritesTo_nil _⟩

/-- Among the writes of alarm 1, a write to the register of a time field carries the match
byte of that field. -/
theorem alarm1_time_bytes (s m h d dom : Nat) (ext : List BusOp)
    (ha : WritesAmong (alarm1Pairs s m h d dom) ext) :
    (∀ dev v, BusOp.write dev 0x07 v ∈ ext → v = matchByte s) ∧
    (∀ dev v, BusOp.write dev 0x08 v ∈ ext → v = matchByte m) ∧
    (∀ dev v, BusOp.write dev 0x09 v ∈ ext → v = matchByte h) := by
  refine ⟨?_, ?_, ?_⟩ <;>
  · intro dev v hmem
    obtain ⟨rv, hrv, heq⟩ := ha _ hmem
    simp only [alarm1Pairs, List.mem_cons, List.mem_singleton, List.not_mem_nil,
      or_false] at hrv
    simp only [BusOp.write.injEq] at heq
    rcases hrv with e | e | e | e | e | e <;> rw [e] at heq <;> simp at heq
    exact heq.2

/-- Among the writes of alarm 2, a write to the register of a time field carries the match
byte of that field. -/
theorem alarm2_time_bytes (m h d dom : Nat) (ext : List BusOp)
    (ha : WritesAmong (alarm2Pairs m h d dom) ext) :
    (∀ dev v, BusOp.write dev 0x0B v ∈ ext → v = matchByte m) ∧
    (∀ dev v, BusOp.write dev 0x0C v ∈ ext → v = matchByte h) := by
  refine ⟨?_, ?_⟩ <;>
  · intro dev v hmem
    obtain ⟨rv, hrv, heq⟩ := ha _ hmem
    simp only [alarm2Pairs, List.mem_cons, List.mem_singleton, List.not_mem_nil,
      or_false] at hrv
    simp only [BusOp.write.injEq] at heq
    rcases hrv with e | e | e | e | e <;> rw [e] at heq <;> simp at heq
    exact heq.2

/-- C5: over a transport whose writes succeed, each time field of `DS3231_SetAlarm1` and
`DS3231_SetAlarm2` is resolved on its own.  Whatever the other arguments are, a write to
the register of a time field (`0x07`, `0x08`, `0x09`, respectively `0x0B`, `0x0C`) carries
the match byte of that field alone: exactly `0x80` when the field is 255, the field's BCD
encoding, with bit 7 clear, when it is a concrete value below 60.  The write of a field is
issued as soon as that field and the fields before it are in range or 255, whatever the
later arguments are.  With every argument 255, alarm 1 writes `0x80` to each of
`0x07`..`0x0A`, alarm 2 writes `0x80` to each of `0x0B`..`0x0D`, and both return 0. -/
theorem C5_time_fields_resolved_independently {σ : Type} (t : Transport σ)
    (hw : WritesSucceed t) (b : Bus σ) (s m h d dom : Nat) :
    (∃ ext, (DS3231_SetAlarm1 t b s m h d dom).2.log = b.log ++ ext ∧
      (∀ dev v, BusOp.write dev 0x07 v ∈ ext → v = matchByte s) ∧
      (∀ dev v, BusOp.write dev 0x08 v ∈ ext → v = matchByte m) ∧
      (∀ dev v, BusOp.write dev 0x09 v ∈ ext → v = matchByte h) ∧
      (s < 60 ∨ s = 255 →
        ∃ rest, ext = writesOf [(0x07, matchByte s)] ++ rest ∧
          OnlyWritesTo [0x08, 0x09, 0x0A] rest) ∧
      (s < 60 ∨ s = 255 → m < 60 ∨ m = 255 →
        ∃ rest, ext = writesOf [(0x07, matchByte s), (0x08, matchByte m)] ++ rest ∧
          OnlyWritesTo [0x09, 0x0A] rest) ∧
      (s < 60 ∨ s = 255 → m < 60 ∨ m = 255 → h < 24 ∨ h = 255 →
        ∃ rest, ext = writesOf [(0x07, matchByte s), (0x08, matchByte m),
            (0x09, matchByte h)] ++ rest ∧
          (rest = [] ∨ ∃ v, rest = writesOf [(0x0A, v)]))) ∧
    (∃ ext, (DS3231_SetAlarm2 t b m h d dom).2.log = b.log ++ ext ∧
      (∀ dev v, BusOp.write dev 0x0B v ∈ ext → v = matchByte m) ∧
      (∀ dev v, BusOp.write dev 0x0C v ∈ ext → v = matchByte h) ∧
      (m < 60 ∨ m = 255 →
        ∃ rest, ext = writesOf [(0x0B, matchByte m)] ++ rest ∧
          OnlyWritesTo [0x0C, 0x0D] rest) ∧
      (m < 60 ∨ m = 255 → h < 24 ∨ h = 255 →
        ∃ rest, ext = writesOf [(0x0B, matchByte m), (0x0C, matchByte h)] ++ rest ∧
          (rest = [] ∨ ∃ v, rest = writesOf [(0x0D, v)]))) ∧
    (matchByte 255 = 0x80 ∧
      ∀ v, v < 60 → matchByte v = encodeBcd v ∧ (matchByte v).testBit 7 = false) ∧
    ((DS3231_SetAlarm1 t b 255 255 255 255 255).1 = 0 ∧
      (DS3231_SetAlarm1 t b 255 255 255 255 255).2.log
        = b.log ++ writesOf [(0x07, 0x80), (0x08, 0x80), (0x09, 0x80), (0x0A, 0x80)]) ∧
    ((DS3231_SetAlarm2 t b 255 255 255 255).1 = 0 ∧
      (DS3231_SetAlarm2 t b 255 255 255 255).2.log
        = b.log ++ writesOf [(0x0B, 0x80), (0x0C, 0x80), (0x0D, 0x80)]) := by
  have hw1 : ∀ st dev reg val, (t.I2C_Write_To_Slave st dev reg val).1 = 0 := hw
  refine ⟨?_, ?_, ⟨matchByte_wildcard, fun v hv => ⟨(matchByte_lt_60 v hv).1,
    (matchByte_lt_60 v hv).2.1⟩⟩, ?_, ?_⟩
  · obtain ⟨ext, hlog, ha⟩ := SetAlarm1_among t s m h d dom b
    obtain ⟨a7, a8, a9⟩ := alarm1_time_bytes s m h d dom ext ha
    refine ⟨ext, hlog, a7, a8, a9, ?_, ?_, ?_⟩
    · intro hs
      obtain ⟨rest, hr, ho⟩ := SetAlarm1_minutes_only [0x08, 0x09, 0x0A] (by decide)
        (by decide) (by decide) t m h d dom (writeReg t b 0x07 (matchByte s)).2
      refine ⟨rest, ?_, ho⟩
      apply (List.append_right_inj b.log).1
      rw [← hlog, SetAlarm1_ok t hw b s m h d dom hs, hr, writeReg_log, List.append_assoc]
    · intro hs hm
      obtain ⟨rest, hr, ho⟩ := SetAlarm1_hours_only [0x09, 0x0A] (by decide) (by decide)
        t h d dom
        (writeReg t (writeReg t b 0x07 (matchByte s)).2 0x08 (matchByte m)).2
      refine ⟨rest, ?_, ho⟩
      apply (List.append_right_inj b.log).1
      rw [← hlog, SetAlarm1_ok t hw b s m h d dom hs, SetAlarm1_minutes_ok t hw _ m h d dom hm,
        hr, writeReg_log, writeReg_log]
      simp [writesOf]
    · intro hs hm hh
      obtain ⟨b3, hlog3, heq⟩ := SetAlarm1_time_ok t hw b s m h d dom hs hm hh
      rcases SetAlarm1_dydt_log t b3 d dom with h0 | ⟨v, h1⟩
      · refine ⟨[], ?_, Or.inl rfl⟩
        apply (List.append_right_inj b.log).1
        rw [← hlog, heq, h0, hlog3]
        simp
      · refine ⟨writesOf [(0x0A, v)], ?_, Or.inr ⟨v, rfl⟩⟩
        apply (List.append_right_inj b.log).1
        rw [← hlog, heq, h1, hlog3, List.append_assoc]
  · obtain ⟨ext, hlog, ha⟩ := SetAlarm2_among t m h d dom b
    obtain ⟨aB, aC⟩ := alarm2_time_bytes m h d dom ext ha
    refine ⟨ext, hlog, aB, aC, ?_, ?_⟩
    · intro hm
      obtain ⟨rest, hr, ho⟩ := SetAlarm2_hours_only [0x0C, 0x0D] (by decide) (by decide)
        t h d dom (writeReg t b 0x0B (matchByte m)).2
      refine ⟨rest, ?_, ho⟩
      apply (List.append_right_inj b.log).1
      rw [← hlog, SetAlarm2_ok t hw b m h d dom hm, hr, writeReg_log, List.append_assoc]
    · intro hm hh
      obtain ⟨b2, hlog2, heq⟩ := SetAlarm2_time_ok t hw b m h d dom hm hh
      rcases SetAlarm2_dydt_log t b2 d dom with h0 | ⟨v, h1⟩
      · refine ⟨[], ?_, Or.inl rfl⟩
        apply (List.append_right_inj b.log).1
        rw [← hlog, heq, h0, hlog2]
        simp
      · refine ⟨writesOf [(0x0D, v)], ?_, Or.inr ⟨v, rfl⟩⟩
        apply (List.append_right_inj b.log).1
        rw [← hlog, heq, h1, hlog2, List.append_assoc]
  · simp [DS3231_SetAlarm1, SetAlarm1_minutes, SetAlarm1_hours, SetAlarm1_dydt, writeReg,
      hw1, writesOf, ALARM1_SEC_ADDRESS, ALARM1_MIN_ADDRESS, ALARM1_HOUR_ADDRESS,
      ALARM1_DYDT_ADDRESS]
  · simp [DS3231_SetAlarm2, SetAlarm2_hours, SetAlarm2_dydt, writeReg,
      hw1, writesOf, ALARM2_MIN_ADDRESS, ALARM2_HOUR_ADDRESS, ALARM2_DYDT_ADDRESS]

/-- Witness of C5 on the register-file transport, with the out-of-range hours 24:
`DS3231_SetAlarm1(59, 255, 24, 255, 15)` still writes `0x59` to `0x07` and `0x80` to
`0x08`, and `DS3231_SetAlarm2(255, 24, 255, 15)` still writes `0x80` to `0x0B`. -/
theorem C5_time_fields_resolved_independently_witness :
    WritesSucceed regFile ∧ (59 < 60 ∨ 59 = 255) ∧ (255 < 60 ∨ 255 = 255) ∧
    (DS3231_SetAlarm1 regFile idleBus 59 255 24 255 15).2.log
      = writesOf [(0x07, 0x59), (0x08, 0x80)] ∧
    (DS3231_SetAlarm2 regFile idleBus 255 24 255 15).2.log = writesOf [(0x0B, 0x80)] ∧
    ∃ ext, (DS3231_SetAlarm1 regFile idleBus 59 255 24 255 15).2.log = idleBus.log ++ ext ∧
      ∃ rest, ext = writesOf [(0x07, matchByte 59), (0x08, matchByte 255)] ++ rest ∧
        OnlyWritesTo [0x09, 0x0A] rest := by
  obtain ⟨ext, hlog, -, -, -, -, h2, -⟩ :=
    (C5_time_fields_resolved_independently regFile regFile_writesSucceed idleBus
      59 255 24 255 15).1
  exact ⟨regFile_writesSucceed, by decide, by decide, rfl, rfl, ext, hlog,
    h2 (by decide) (by decide)⟩

/-! ## Return codes of the alarm functions by cause -/

theorem SetAlarm1_rejects_seconds {σ : Type} (t : Transport σ) (b : Bus σ)
    (s m h d dom : Nat) (hs : ¬ (s < 60 ∨ s = 255)) :
    DS3231_SetAlarm1 t b s m h d dom = (2, b) := by
  have c1 : ¬ s < 60 := fun c => hs (Or.inl c)
  have c2 : ¬ s = 255 := fun c => hs (Or.inr c)
  unfold DS3231_SetAlarm1
  rw [if_neg c1, if_neg c2]

theorem SetAlarm1_minutes_rejects {σ : Type} (t : Transport σ) (b : Bus σ)
    (m h d dom : Nat) (hm : ¬ (m < 60 ∨ m = 255)) :
    SetAlarm1_minutes t b m h d dom = (3, b) := by
  have c1 : ¬ m < 60 := fun c => hm (Or.inl c)
  have c2 : ¬ m = 255 := fun c => hm (Or.inr c)
  unfold SetAlarm1_minutes
  rw [if_neg c1, if_neg c2]

theorem SetAlarm1_hours_rejects {σ : Type} (t : Transport σ) (b : Bus σ)
    (h d dom : Nat) (hh : ¬ (h < 24 ∨ h = 255)) :
    SetAlarm1_hours t b h d dom = (4, b) := by
  have c1 : ¬ h < 24 := fun c => hh (Or.inl c)
  have c2 : ¬ h = 255 := fun c => hh (Or.inr c)
  unfold SetAlarm1_hours
  rw [if_neg c1, if_neg c2]

theorem SetAlarm2_rejects_minutes {σ : Type} (t : Transport σ) (b : Bus σ)
    (m h d dom : Nat) (hm : ¬ (m < 60 ∨ m = 255)) :
    DS3231_SetAlarm2 t b m h d dom = (3, b) := by
  have c1 : ¬ m < 60 := fun c => hm (Or.inl c)
  have c2 : ¬ m = 255 := fun c => hm (Or.inr c)
  unfold DS3231_SetAlarm2
  rw [if_neg c1, if_neg c2]

theorem SetAlarm2_hours_rejects {σ : Type} (t : Transport σ) (b : Bus σ)
    (h d dom : Nat) (hh : ¬ (h < 24 ∨ h = 255)) :
    SetAlarm2_hours t b h d dom = (4, b) := by
  have c1 : ¬ h < 24 := fun c => hh (Or.inl c)
  have c2 : ¬ h = 255 := fun c => hh (Or.inr c)
  unfold SetAlarm2_hours
  rw [if_neg c1, if_neg c2]

/-- The code of the day/date block over a transport whose writes succeed: 0 for the three
accepted combinations, 6 for values that are neither ambiguous nor accepted. -/
theorem dydt_codes {σ : Type} (t : Transport σ) (hw : WritesSucceed t) (b : Bus σ)
    (d dom : Nat) (hamb : ¬ (d ≤ 7 ∧ dom ≤ 31)) :
    ((d ≤ 7 ∧ dom = 255) ∨ (d = 255 ∧ dom ≤ 31) ∨ (d = 255 ∧ dom = 255) →
      (SetAlarm1_dydt t b d dom).1 = 0 ∧ (SetAlarm2_dydt t b d dom).1 = 0) ∧
    (¬ ((d ≤ 7 ∧ dom = 255) ∨ (d = 255 ∧ dom ≤ 31) ∨ (d = 255 ∧ dom = 255)) →
      (SetAlarm1_dydt t b d dom).1 = 6 ∧ (SetAlarm2_dydt t b d dom).1 = 6) := by
  constructor
  · intro hacc
    rw [SetAlarm1_dydt_inOrder t b d dom hacc, SetAlarm2_dydt_inOrder t b d dom hacc]
    simp [writeInOrder, writeReg_ok t hw]
  · intro hrej
    have c2 : ¬ (d ≤ 7 ∧ dom = 255) := fun c => hrej (Or.inl c)
    have c3 : ¬ (d = 255 ∧ dom ≤ 31) := fun c => hrej (Or.inr (Or.inl c))
    have c4 : ¬ (d = 255 ∧ dom = 255) := fun c => hrej (Or.inr (Or.inr c))
    unfold SetAlarm1_dydt SetAlarm2_dydt
    rw [if_neg hamb, if_neg c2, if_neg c3, if_neg c4, if_neg hamb, if_neg c2, if_neg c3,
      if_neg c4]
    exact ⟨rfl, rfl⟩

/-- C7: when day ≤ 7 and day of month ≤ 31 are both given, with every time field in range
or 255 and a transport whose writes succeed, `DS3231_SetAlarm1` and `DS3231_SetAlarm2`
return 5 and their traffic is the time-field writes alone: there is no write to the
day/date register `0x0A`, respectively `0x0D`.  The code 5 differs from the code of every
other outcome of the two functions over that transport: 2 for seconds out of range, 3 for
minutes out of range, 4 for hours out of range, 6 for day and day of month values that are
neither ambiguous nor accepted, and 0 for an accepted request. -/
theorem C7_ambiguous_day_fails {σ : Type} (t : Transport σ) (hw : WritesSucceed t)
    (b : Bus σ) (s m h d dom : Nat)
    (hs : s < 60 ∨ s = 255) (hm : m < 60 ∨ m = 255) (hh : h < 24 ∨ h = 255)
    (hd : d ≤ 7) (hdom : dom ≤ 31) :
    ((DS3231_SetAlarm1 t b s m h d dom).1 = 5 ∧
      (DS3231_SetAlarm1 t b s m h d dom).1 ∉ [0, 2, 3, 4, 6] ∧
      (DS3231_SetAlarm1 t b s m h d dom).2.log
        = b.log ++ writesOf [(0x07, matchByte s), (0x08, matchByte m), (0x09, matchByte h)] ∧
      ∀ dev v, BusOp.write dev 0x0A v
        ∉ writesOf [(0x07, matchByte s), (0x08, matchByte m), (0x09, matchByte h)]) ∧
    ((DS3231_SetAlarm2 t b m h d dom).1 = 5 ∧
      (DS3231_SetAlarm2 t b m h d dom).1 ∉ [0, 2, 3, 4, 6] ∧
      (DS3231_SetAlarm2 t b m h d dom).2.log
        = b.log ++ writesOf [(0x0B, matchByte m), (0x0C, matchByte h)] ∧
      ∀ dev v, BusOp.write dev 0x0D v
        ∉ writesOf [(0x0B, matchByte m), (0x0C, matchByte h)]) ∧
    (∀ (c : Bus σ) (x y z u w : Nat),
      (¬ (x < 60 ∨ x = 255) → (DS3231_SetAlarm1 t c x y z u w).1 = 2) ∧
      (x < 60 ∨ x = 255 → ¬ (y < 60 ∨ y = 255) → (DS3231_SetAlarm1 t c x y z u w).1 = 3) ∧
      (¬ (y < 60 ∨ y = 255) → (DS3231_SetAlarm2 t c y z u w).1 = 3) ∧
      (x < 60 ∨ x = 255 → y < 60 ∨ y = 255 → ¬ (z < 24 ∨ z = 255) →
        (DS3231_SetAlarm1 t c x y z u w).1 = 4) ∧
      (y < 60 ∨ y = 255 → ¬ (z < 24 ∨ z = 255) → (DS3231_SetAlarm2 t c y z u w).1 = 4) ∧
      (x < 60 ∨ x = 255 → y < 60 ∨ y = 255 → z < 24 ∨ z = 255 → ¬ (u ≤ 7 ∧ w ≤ 31) →
        ¬ ((u ≤ 7 ∧ w = 255) ∨ (u = 255 ∧ w ≤ 31) ∨ (u = 255 ∧ w = 255)) →
        (DS3231_SetAlarm1 t c x y z u w).1 = 6) ∧
      (y < 60 ∨ y = 255 → z < 24 ∨ z = 255 → ¬ (u ≤ 7 ∧ w ≤ 31) →
        ¬ ((u ≤ 7 ∧ w = 255) ∨ (u = 255 ∧ w ≤ 31) ∨ (u = 255 ∧ w = 255)) →
        (DS3231_SetAlarm2 t c y z u w).1 = 6) ∧
      (x < 60 ∨ x = 255 → y < 60 ∨ y = 255 → z < 24 ∨ z = 255 →
        (u ≤ 7 ∧ w = 255) ∨ (u = 255 ∧ w ≤ 31) ∨ (u = 255 ∧ w = 255) →
        (DS3231_SetAlarm1 t c x y z u w).1 = 0) ∧
      (y < 60 ∨ y = 255 → z < 24 ∨ z = 255 →
        (u ≤ 7 ∧ w = 255) ∨ (u = 255 ∧ w ≤ 31) ∨ (u = 255 ∧ w = 255) →
        (DS3231_SetAlarm2 t c y z u w).1 = 0)) := by
  obtain ⟨b3, hlog3, heq3⟩ := SetAlarm1_time_ok t hw b s m h d dom hs hm hh
  obtain ⟨b2, hlog2, heq2⟩ := SetAlarm2_time_ok t hw b m h d dom hm hh
  have p : d ≤ 7 ∧ dom ≤ 31 := ⟨hd, hdom⟩
  have r1 : SetAlarm1_dydt t b3 d dom = (5, b3) := by simp [SetAlarm1_dydt, p]
  have r2 : SetAlarm2_dydt t b2 d dom = (5, b2) := by simp [SetAlarm2_dydt, p]
  rw [heq3, heq2, r1, r2]
  have n5 : (5 : Nat) ∉ [0, 2, 3, 4, 6] := by decide
  refine ⟨⟨rfl, n5, hlog3, ?_⟩, ⟨rfl, n5, hlog2, ?_⟩, ?_⟩
  · intro dev v
    simp [writesOf]
  · intro dev v
    simp [writesOf]
  · intro c x y z u w
    refine ⟨?_, ?_, ?_, ?_, ?_, ?_, ?_, ?_, ?_⟩
    · intro hx
      rw [SetAlarm1_rejects_seconds t c x y z u w hx]
    · intro hx hy
      rw [SetAlarm1_ok t hw c x y z u w hx, SetAlarm1_minutes_rejects t _ y z u w hy]
    · intro hy
      rw [SetAlarm2_rejects_minutes t c y z u w hy]
    · intro hx hy hz
      rw [SetAlarm1_ok t hw c x y z u w hx, SetAlarm1_minutes_ok t hw _ y z u w hy,
        SetAlarm1_hours_rejects t _ z u w hz]
    · intro hy hz
      rw [SetAlarm2_ok t hw c y z u w hy, SetAlarm2_hours_rejects t _ z u w hz]
    · intro hx hy hz hamb hrej
      obtain ⟨c3, -, e3⟩ := SetAlarm1_time_ok t hw c x y z u w hx hy hz
      rw [e3]
      exact ((dydt_codes t hw c3 u w hamb).2 hrej).1
    · intro hy hz hamb hrej
      obtain ⟨c2, -, e2⟩ := SetAlarm2_time_ok t hw c y z u w hy hz
      rw [e2]
      exact ((dydt_codes t hw c2 u w hamb).2 hrej).2
    · intro hx hy hz hacc
      obtain ⟨c3, -, e3⟩ := SetAlarm1_time_ok t hw c x y z u w hx hy hz
      rw [e3]
      exact ((dydt_codes t hw c3 u w (by omega)).1 hacc).1
    · intro hy hz hacc
      obtain ⟨c2, -, e2⟩ := SetAlarm2_time_ok t hw c y z u w hy hz
      rw [e2]
      exact ((dydt_codes t hw c2 u w (by omega)).1 hacc).2

/-- Witness of C7 on the register-file transport at day = 3, day of month = 15; on the same
transport seconds 60 returns 2, minutes 60 returns 3, hours 24 returns 4 and day 8 with
day of month 255 returns 6. -/
theorem C7_ambiguous_day_fails_witness :
    WritesSucceed regFile ∧ (3 ≤ 7 ∧ 15 ≤ 31) ∧
    (DS3231_SetAlarm1 regFile idleBus 0 255 23 3 15).1 = 5 ∧
    (DS3231_SetAlarm2 regFile idleBus 255 23 3 15).1 = 5 ∧
    (DS3231_SetAlarm1 regFile idleBus 60 0 0 255 255).1 = 2 ∧
    (DS3231_SetAlarm1 regFile idleBus 0 60 0 255 255).1 = 3 ∧
    (DS3231_SetAlarm1 regFile idleBus 0 0 24 255 255).1 = 4 ∧
    (DS3231_SetAlarm1 regFile idleBus 0 0 0 8 255).1 = 6 :=
  ⟨regFile_writesSucceed, by decide,
    (C7_ambiguous_day_fails regFile regFile_writesSucceed idleBus 0 255 23 3 15
      (by decide) (by decide) (by decide) (by decide) (by decide)).1.1,
    (C7_ambiguous_day_fails regFile regFile_writesSucceed idleBus 0 255 23 3 15
      (by decide) (by decide) (by decide) (by decide) (by decide)).2.1.1,
    ((C7_ambiguous_day_fails regFile regFile_writesSucceed idleBus 0 255 23 3 15
      (by decide) (by decide) (by decide) (by decide) (by decide)).2.2
        idleBus 60 0 0 255 255).1 (by decide),
    ((C7_ambiguous_day_fails regFile regFile_writesSucceed idleBus 0 255 23 3 15
      (by decide) (by decide) (by decide) (by decide) (by decide)).2.2
        idleBus 0 60 0 255 255).2.1 (by decide) (by decide),
    ((C7_ambiguous_day_fails regFile regFile_writesSucceed idleBus 0 255 23 3 15
      (by decide) (by decide) (by decide) (by decide) (by decide)).2.2
        idleBus 0 0 24 255 255).2.2.2.1 (by decide) (by decide) (by decide),
    ((C7_ambiguous_day_fails regFile regFile_writesSucceed idleBus 0 255 23 3 15
      (by decide) (by decide) (by decide) (by decide) (by decide)).2.2
        idleBus 0 0 0 8 255).2.2.2.2.2.1 (by decide) (by decide) (by decide) (by decide)
        (by decide)⟩

/-! ## Decoding for every choice of null and non-null pointers -/

/-- Over a transport whose reads succeed and return the stored bytes, `DS3231_ReadTime`
returns `0` for every choice of null and non-null pointers, stores behind each non-null
pointer the decoding of its register, and leaves a null pointer null. -/
theorem ReadTime_mem_any {σ : Type} (t : Transport σ) (mem : σ → Nat → Nat)
    (hr : ReadsSucceed t) (hm : ReadsLastWritten t mem) (b : Bus σ) (p1 p2 p3 : Option Nat) :
    (DS3231_ReadTime t b p1 p2 p3).ret = 0 ∧
    (DS3231_ReadTime t b p1 p2 p3).out1 = p1.map (fun _ => decodeBcd 0x70 (mem b.st 0)) ∧
    (DS3231_ReadTime t b p1 p2 p3).out2 = p2.map (fun _ => decodeBcd 0x70 (mem b.st 1)) ∧
    (DS3231_ReadTime t b p1 p2 p3).out3 = p3.map (fun _ => decodeBcd 0x30 (mem b.st 2)) := by
  have hr1 : ∀ st dev reg, (t.I2C_Read_From_Slave st dev reg).1 = 0 := hr
  obtain ⟨-, hmr⟩ := hm
  have hv : ∀ st dev reg, (t.I2C_Read_From_Slave st dev reg).2.1 = mem st reg :=
    fun st dev reg => (hmr st dev reg).1
  have hk : ∀ st dev reg, mem (t.I2C_Read_From_Slave st dev reg).2.2 = mem st :=
    fun st dev reg => (hmr st dev reg).2
  cases p1 <;> cases p2 <;> cases p3 <;>
    simp [DS3231_ReadTime, ReadTime_minutes, ReadTime_hours, readReg, hr1, hv, hk,
      SECONDS_ADDRESS, MINUTES_ADDRESS, HOURS_ADDRESS]

/-- Over a transport whose reads succeed and return the stored bytes, `DS3231_ReadDate`
returns `0` for every choice of null and non-null pointers, stores behind each non-null
pointer the decoding of its register, and leaves a null pointer null. -/
theorem ReadDate_mem_any {σ : Type} (t : Transport σ) (mem : σ → Nat → Nat)
    (hr : ReadsSucceed t) (hm : ReadsLastWritten t mem) (b : Bus σ) (p1 p2 p3 : Option Nat) :
    (DS3231_ReadDate t b p1 p2 p3).ret = 0 ∧
    (DS3231_ReadDate t b p1 p2 p3).out1 = p1.map (fun _ => decodeBcd 0x30 (mem b.st 4)) ∧
    (DS3231_ReadDate t b p1 p2 p3).out2 = p2.map (fun _ => decodeBcd 0x10 (mem b.st 5)) ∧
    (DS3231_ReadDate t b p1 p2 p3).out3 = p3.map (fun _ => decodeBcd 0xF0 (mem b.st 6)) := by
  have hr1 : ∀ st dev reg, (t.I2C_Read_From_Slave st dev reg).1 = 0 := hr
  obtain ⟨-, hmr⟩ := hm
  have hv : ∀ st dev reg, (t.I2C_Read_From_Slave st dev reg).2.1 = mem st reg :=
    fun st dev reg => (hmr st dev reg).1
  have hk : ∀ st dev reg, mem (t.I2C_Read_From_Slave st dev reg).2.2 = mem st :=
    fun st dev reg => (hmr st dev reg).2
  cases p1 <;> cases p2 <;> cases p3 <;>
    simp [DS3231_ReadDate, ReadDate_month, ReadDate_year, readReg, hr1, hv, hk,
      DATE_ADDRESS, MONTH_ADDRESS, YEAR_ADDRESS]

/-- Two decodings behind non-null pointers agree when the decoded values agree. -/
theorem map_decode_eq (p q : Option Nat) (x y : Nat) (hp : p.isSome = true)
    (hq : q.isSome = true) (h : x = y) :
    p.map (fun _ => x) = q.map (fun _ => y) := by
  cases p with
  | none => cases hp
  | some a =>
    cases q with
    | none => cases hq
    | some c => simp [h]

/-- C22: over transports whose reads succeed and return the stored bytes, and for every
choice of null and non-null pointers in either call, the value `DS3231_ReadTime` stores
behind a non-null seconds (minutes) pointer is the same for two register bytes that agree
on bits 6..0, and the hours are the same for bytes that agree on bits 5..0;
`DS3231_ReadDate` stores the same day of month for bytes that agree on bits 5..0 and the
same month for bytes that agree on bits 4..0, so bits 7 and 5 of the month register never
change the month.  Whatever the other two pointers are, each value stored behind a
non-null pointer is the low nibble plus ten times the masked tens bits (three bits for
seconds and minutes, two for hours and day of month, one for month, four for year), a null
pointer stays null, and inverting any one of the eight bits of a byte changes its year
decoding. -/
theorem C22_meaningful_bits_only {σ τ : Type} (t1 : Transport σ) (mem1 : σ → Nat → Nat)
    (t2 : Transport τ) (mem2 : τ → Nat → Nat)
    (hr1 : ReadsSucceed t1) (hm1 : ReadsLastWritten t1 mem1)
    (hr2 : ReadsSucceed t2) (hm2 : ReadsLastWritten t2 mem2)
    (b1 : Bus σ) (b2 : Bus τ) (p1 p2 p3 q1 q2 q3 : Option Nat) :
    (p1.isSome = true → q1.isSome = true →
      (∀ i, i < 7 → (mem1 b1.st 0x00).testBit i = (mem2 b2.st 0x00).testBit i) →
      (DS3231_ReadTime t1 b1 p1 p2 p3).out1 = (DS3231_ReadTime t2 b2 q1 q2 q3).out1) ∧
    (p2.isSome = true → q2.isSome = true →
      (∀ i, i < 7 → (mem1 b1.st 0x01).testBit i = (mem2 b2.st 0x01).testBit i) →
      (DS3231_ReadTime t1 b1 p1 p2 p3).out2 = (DS3231_ReadTime t2 b2 q1 q2 q3).out2) ∧
    (p3.isSome = true → q3.isSome = true →
      (∀ i, i < 6 → (mem1 b1.st 0x02).testBit i = (mem2 b2.st 0x02).testBit i) →
      (DS3231_ReadTime t1 b1 p1 p2 p3).out3 = (DS3231_ReadTime t2 b2 q1 q2 q3).out3) ∧
    (p1.isSome = true → q1.isSome = true →
      (∀ i, i < 6 → (mem1 b1.st 0x04).testBit i = (mem2 b2.st 0x04).testBit i) →
      (DS3231_ReadDate t1 b1 p1 p2 p3).out1 = (DS3231_ReadDate t2 b2 q1 q2 q3).out1) ∧
    (p2.isSome = true → q2.isSome = true →
      (∀ i, i < 5 → (mem1 b1.st 0x05).testBit i = (mem2 b2.st 0x05).testBit i) →
      (DS3231_ReadDate t1 b1 p1 p2 p3).out2 = (DS3231_ReadDate t2 b2 q1 q2 q3).out2) ∧
    ((DS3231_ReadTime t1 b1 p1 p2 p3).out1
        = p1.map (fun _ => mem1 b1.st 0x00 % 16 + 10 * (mem1 b1.st 0x00 / 16 % 8)) ∧
      (DS3231_ReadTime t1 b1 p1 p2 p3).out2
        = p2.map (fun _ => mem1 b1.st 0x01 % 16 + 10 * (mem1 b1.st 0x01 / 16 % 8)) ∧
      (DS3231_ReadTime t1 b1 p1 p2 p3).out3
        = p3.map (fun _ => mem1 b1.st 0x02 % 16 + 10 * (mem1 b1.st 0x02 / 16 % 4)) ∧
      (DS3231_ReadDate t1 b1 p1 p2 p3).out1
        = p1.map (fun _ => mem1 b1.st 0x04 % 16 + 10 * (mem1 b1.st 0x04 / 16 % 4)) ∧
      (DS3231_ReadDate t1 b1 p1 p2 p3).out2
        = p2.map (fun _ => mem1 b1.st 0x05 % 16 + 10 * (mem1 b1.st 0x05 / 16 % 2)) ∧
      (DS3231_ReadDate t1 b1 p1 p2 p3).out3
        = p3.map (fun _ => mem1 b1.st 0x06 % 16 + 10 * (mem1 b1.st 0x06 / 16 % 16))) ∧
    (∀ x, x < 256 → ∀ i, i < 8 → decodeBcd 0xF0 (x ^^^ 2 ^ i) ≠ decodeBcd 0xF0 x) := by
  obtain ⟨-, s1, s2, s3⟩ := ReadTime_mem_any t1 mem1 hr1 hm1 b1 p1 p2 p3
  obtain ⟨-, u1, u2, u3⟩ := ReadTime_mem_any t2 mem2 hr2 hm2 b2 q1 q2 q3
  obtain ⟨-, d1, d2, d3⟩ := ReadDate_mem_any t1 mem1 hr1 hm1 b1 p1 p2 p3
  obtain ⟨-, e1, e2, -⟩ := ReadDate_mem_any t2 mem2 hr2 hm2 b2 q1 q2 q3
  refine ⟨?_, ?_, ?_, ?_, ?_, ⟨?_, ?_, ?_, ?_, ?_, ?_⟩, year_uses_every_bit⟩
  · intro hp hq h
    rw [s1, u1]
    exact map_decode_eq _ _ _ _ hp hq (decodeBcd_congr 0x70 7 _ _ (by decide) (by decide) h)
  · intro hp hq h
    rw [s2, u2]
    exact map_decode_eq _ _ _ _ hp hq (decodeBcd_congr 0x70 7 _ _ (by decide) (by decide) h)
  · intro hp hq h
    rw [s3, u3]
    exact map_decode_eq _ _ _ _ hp hq (decodeBcd_congr 0x30 6 _ _ (by decide) (by decide) h)
  · intro hp hq h
    rw [d1, e1]
    exact map_decode_eq _ _ _ _ hp hq (decodeBcd_congr 0x30 6 _ _ (by decide) (by decide) h)
  · intro hp hq h
    rw [d2, e2]
    exact map_decode_eq _ _ _ _ hp hq (decodeBcd_congr 0x10 5 _ _ (by decide) (by decide) h)
  · rw [s1, (decodeBcd_digits _).1]
  · rw [s2, (decodeBcd_digits _).1]
  · rw [s3, (decodeBcd_digits _).2.1]
  · rw [d1, (decodeBcd_digits _).2.1]
  · rw [d2, (decodeBcd_digits _).2.2.1]
  · rw [d3, (decodeBcd_digits _).2.2.2]

/-- Witness of C22 on two register files, one holding `0x92` and one holding `0x12` in
every register: the bytes agree on bits 4..0, and a call with only the month pointer on
the first and a call with three pointers on the second both store month 12; a call with
only the hours pointer on the first stores hours 12. -/
theorem C22_meaningful_bits_only_witness :
    (ReadsSucceed regFile ∧ ReadsLastWritten regFile (fun st => st)) ∧
    (∀ i, i < 5 → Nat.testBit 0x92 i = Nat.testBit 0x12 i) ∧
    (DS3231_ReadDate regFile (Bus.mk (fun _ => 0x92) []) none (some 0) none).out2
      = (DS3231_ReadDate regFile (Bus.mk (fun _ => 0x12) []) (some 0) (some 0) (some 0)).out2 ∧
    (DS3231_ReadDate regFile (Bus.mk (fun _ => 0x92) []) none (some 0) none).out2
      = some 12 ∧
    (DS3231_ReadTime regFile (Bus.mk (fun _ => 0x92) []) none none (some 0)).out3
      = some 12 := by
  have hbits : ∀ i, i < 5 → Nat.testBit 0x92 i = Nat.testBit 0x12 i := by
    intro i hi
    interval_cases i <;> rfl
  have h := C22_meaningful_bits_only regFile (fun st => st) regFile (fun st => st)
    regFile_readsSucceed regFile_readsLastWritten regFile_readsSucceed
    regFile_readsLastWritten (Bus.mk (fun _ => 0x92) []) (Bus.mk (fun _ => 0x12) [])
    none (some 0) none (some 0) (some 0) (some 0)
  have h3 := C22_meaningful_bits_only regFile (fun st => st) regFile (fun st => st)
    regFile_readsSucceed regFile_readsLastWritten regFile_readsSucceed
    regFile_readsLastWritten (Bus.mk (fun _ => 0x92) []) (Bus.mk (fun _ => 0x12) [])
    none none (some 0) (some 0) (some 0) (some 0)
  exact ⟨⟨regFile_readsSucceed, regFile_readsLastWritten⟩, hbits, h.2.2.2.2.1 rfl rfl hbits,
    h.2.2.2.2.2.1.2.2.2.2.1, h3.2.2.2.2.2.1.2.2.1⟩

end DS3231
